import Mathlib

/-!
# RemindFlow: recurrence evaluator, trigger dispatcher, miss detector and streak ledger

A shallow embedding of `backend/services/scheduler.js`, of `updateStreak` and the handler
of `POST /:logId/complete` in `backend/routes/completions.js`, of the handlers of `POST /`
and `PUT /:id` in `backend/routes/reminders.js` and of `backend/middleware/rateLimiter.js`,
over the tables of `backend/db.js`.

Conventions.
* A JavaScript `Date` is its time value: milliseconds since the epoch, an `Int`.
* A `DATETIME` column written by SQLite's `CURRENT_TIMESTAMP` holds the text
  `YYYY-MM-DD HH:MM:SS` of a UTC second; the column is modelled by that second count.
  Where a statement compares the column with a text, the count is rendered as that text
  (`sqliteDatetime`) and the comparison is SQLite's comparison of texts (`textLe`).
* Two `async` functions running on one event loop interleave at their `await`s; each
  awaited statement is one step of an `Exec`.
* The schema declares foreign keys, but the database is opened without
  `PRAGMA foreign_keys = ON`, so SQLite does not enforce them: a log may refer to a
  reminder that has been deleted.
* The text produced by `toLocaleString('en-US', ...)` is a wall-clock reading with
  second precision; it is modelled by the number of seconds its reading lies after
  `1970-01-01 00:00:00` on the same wall clock.
* The parts of the JavaScript platform that the code calls but that are not in the
  repository (the time-zone database behind `Intl`, the zone of the process, `Number`
  and `JSON.parse`) are the fields of `Runtime`.

Assumptions.
* The zone of the process has a fixed offset from UTC, and `new Date` reads back exactly
  the wall-clock reading that `toLocaleString('en-US', ...)` printed.
* `new Date(reminder.last_triggered)` reads SQLite's text, which carries no zone
  designator, as a wall-clock reading of the process zone: the instant it yields is the
  stored UTC second moved by the offset of that zone. The general statements on the date
  guard hold for a process whose zone is UTC (`hostOffset = 0`), the lemmas they rest on
  for every offset; the evaluator is also run on `kolkataHost` and `phoenixHost`, processes
  in `Asia/Kolkata` and `America/Phoenix`, where the guard tests another date than the one
  the reminder fired on.
* Integers are unbounded; streak counters stay far below the range in which JavaScript
  numbers stop being exact.
* In `updateStreak`, `markAsMissed`, `checkMissedReminders`, the weekly report and the
  route handlers every statement succeeds unless a constraint of the schema forbids it;
  in `triggerReminder` each statement and the delivery succeed or fail as a
  `DispatchOutcome` says, and `updateStreakWith`, `markAsMissedWith` and
  `checkMissedRemindersWith` are the same functions with collaborators that may fail.
-/

namespace RemindFlow

/-! ## Platform -/

/-- Errors a JavaScript builtin throws in the code under study. -/
inductive JsError where
  | rangeError
  | typeError
  | syntaxError
  deriving DecidableEq, Repr

/-- Values that `JSON.parse` returns. A number carries `some n` when its value is the
integer `n` and `none` otherwise. -/
inductive Json where
  | null
  | bool (b : Bool)
  | num (n : Option Int)
  | str (s : String)
  | arr (xs : List Json)
  | obj (fields : List (String × Json))

/-- The platform below the code.
* `timeZone z` is the rule of the IANA zone named `z`: the offset from UTC, in seconds,
  in force at a given epoch second; `none` when `Intl` rejects the name with a `RangeError`.
* `hostOffset` is the offset from UTC, in seconds, of the zone the process runs in
  (a zone without transitions); `new Date(text)` reads a text without zone designator
  as a wall-clock reading of that zone.
* `number s` is `Number(s)`: `some n` when the value is the integer `n`, `none` when it
  is `NaN` or not an integer.
* `jsonParse s` is `JSON.parse(s)`, `none` when it throws a `SyntaxError`. -/
structure Runtime where
  timeZone : String → Option (Int → Int)
  hostOffset : Int
  number : String → Option Int
  jsonParse : String → Option Json

/-- The zone rule `Intl` resolves for the option `{ timeZone: tz }` when `tz` comes from
a database column: SQL `NULL` arrives as `null`, whose string form names no zone. -/
def zoneOf (rt : Runtime) (tz : Option String) : Option (Int → Int) :=
  match tz with
  | none => none
  | some z => rt.timeZone z

/-- The wall-clock reading, to the second, that a zone with the rule `offset` shows at
the instant `date`. -/
def localWall (offset : Int → Int) (date : Int) : Int :=
  date / 1000 + offset (date / 1000)

/-- The method `date.toLocaleString('en-US', { timeZone: tz })`: the wall-clock reading
of the instant `date` in the zone `tz`, to the second. -/
def toLocaleString (rt : Runtime) (date : Int) (tz : Option String) : Except JsError Int :=
  match zoneOf rt tz with
  | none => .error .rangeError
  | some offset => .ok (localWall offset date)

/-- The constructor `new Date(text)` for a text without zone designator: the instant at
which the wall clock of the process shows the reading `wall`. -/
def newDate (rt : Runtime) (wall : Int) : Int :=
  (wall - rt.hostOffset) * 1000

/-- The wall-clock reading of the process zone at the instant `date`, in seconds. -/
def hostWall (rt : Runtime) (date : Int) : Int :=
  date / 1000 + rt.hostOffset

/-- Hour of day (0..23) of a wall-clock reading. -/
def wallHour (wall : Int) : Int :=
  wall % 86400 / 3600

/-- Minute of the hour (0..59) of a wall-clock reading. -/
def wallMinute (wall : Int) : Int :=
  wall % 3600 / 60

/-- Day of the week of a wall-clock reading: 0 is Sunday; day 0 of the epoch was a
Thursday. -/
def wallWeekday (wall : Int) : Int :=
  (wall / 86400 + 4) % 7

/-- The method `date.getHours()`. -/
def getHours (rt : Runtime) (date : Int) : Int :=
  wallHour (hostWall rt date)

/-- The method `date.getMinutes()`. -/
def getMinutes (rt : Runtime) (date : Int) : Int :=
  wallMinute (hostWall rt date)

/-- The method `date.getDay()`. -/
def getDay (rt : Runtime) (date : Int) : Int :=
  wallWeekday (hostWall rt date)

/-- Year, month (1..12) and day of month of the proleptic Gregorian calendar for a
count of days since 1970-01-01. -/
def civilFromDays (days : Int) : Int × Int × Int :=
  let z := days + 719468
  let era := z / 146097
  let doe := z % 146097
  let yoe := (doe - doe / 1460 + doe / 36524 - doe / 146096) / 365
  let doy := doe - (365 * yoe + yoe / 4 - yoe / 100)
  let mp := (5 * doy + 2) / 153
  let d := doy - (153 * mp + 2) / 5 + 1
  let m := if mp < 10 then mp + 3 else mp - 9
  let y := yoe + era * 400
  (if m ≤ 2 then y + 1 else y, m, d)

/-- The content of the text `date.toDateString()` returns: weekday, month, day, year. -/
structure DateString where
  weekday : Int
  month : Int
  day : Int
  year : Int
  deriving DecidableEq, Repr

/-- The calendar date of a wall-clock reading. -/
def wallDate (wall : Int) : DateString :=
  let c := civilFromDays (wall / 86400)
  { weekday := wallWeekday wall, month := c.2.1, day := c.2.2, year := c.1 }

/-- The method `date.toDateString()`. -/
def toDateString (rt : Runtime) (date : Int) : DateString :=
  wallDate (hostWall rt date)

/-- The method `text.split(':')` on the characters of the text. The accumulator `cur`
holds the current piece in reverse. -/
def splitColonAux : List Char → List Char → List String
  | [], cur => [String.mk cur.reverse]
  | c :: cs, cur =>
    if c = ':' then String.mk cur.reverse :: splitColonAux cs []
    else splitColonAux cs (c :: cur)

/-- The method `text.split(':')`. -/
def splitColon (text : String) : List String :=
  splitColonAux text.data []

/-! ## Rows and store (`db.js`) -/

/-- A row of `users`. -/
structure UserRow where
  id : Int
  name : String
  email : String
  timezone : Option String

/-- A row of `reminders`. A nullable column is an `Option`. -/
structure ReminderRow where
  id : Int
  user_id : Int
  title : String
  description : Option String
  reminder_time : Option String
  recurrence_type : String
  weekly_days : Option String
  is_active : Option Int
  last_triggered : Option Int

/-- A row of `reminder_logs`. -/
structure LogRow where
  id : Int
  reminder_id : Int
  user_id : Int
  triggered_at : Option Int
  status : Option String
  deriving DecidableEq

/-- A row of `reminder_completions`. -/
structure CompletionRow where
  id : Int
  reminder_id : Int
  user_id : Int
  log_id : Option Int
  completed_at : Option Int
  scheduled_time : Option Int
  status : Option String
  deriving DecidableEq

/-- A row of `user_streaks`. -/
structure StreakRow where
  id : Int
  user_id : Int
  reminder_id : Int
  current_streak : Option Int
  longest_streak : Option Int
  last_completed : Option Int
  last_updated : Option Int
  deriving DecidableEq

/-- The database: its tables in row order, and for each table with inserts the largest
row id handed out so far (`sqlite_sequence`, kept by `AUTOINCREMENT`). -/
structure Db where
  users : List UserRow
  reminders : List ReminderRow
  reminder_logs : List LogRow
  reminder_completions : List CompletionRow
  user_streaks : List StreakRow
  log_seq : Int
  completion_seq : Int
  streak_seq : Int
  reminder_seq : Int := 0

/-- The row id `AUTOINCREMENT` gives the next row: one more than the largest id in the
table or handed out before. -/
def nextId (seq : Int) (ids : List Int) : Int :=
  ids.foldl max seq + 1

/-- The value of `CURRENT_TIMESTAMP` at the instant `t` (milliseconds): the UTC second. -/
def currentTimestamp (t : Int) : Int :=
  t / 1000

/-- A row of the scheduler's query `SELECT r.*, u.email, u.name, u.timezone FROM
reminders r JOIN users u ON r.user_id = u.id`. -/
structure Reminder where
  id : Int
  user_id : Int
  title : String
  description : Option String
  reminder_time : Option String
  recurrence_type : String
  weekly_days : Option String
  is_active : Option Int
  last_triggered : Option Int
  email : String
  name : String
  timezone : Option String

/-- One row of the join of a reminder with a user. -/
def joinRow (r : ReminderRow) (u : UserRow) : Reminder where
  id := r.id
  user_id := r.user_id
  title := r.title
  description := r.description
  reminder_time := r.reminder_time
  recurrence_type := r.recurrence_type
  weekly_days := r.weekly_days
  is_active := r.is_active
  last_triggered := r.last_triggered
  email := u.email
  name := u.name
  timezone := u.timezone

/-- The query of `checkAndTriggerReminders` (lines 32-37): the active reminders, each
joined with its owner. -/
def activeReminders (db : Db) : List Reminder :=
  (db.reminders.filter fun r => decide (r.is_active = some 1)).flatMap fun r =>
    (db.users.filter fun u => decide (r.user_id = u.id)).map fun u => joinRow r u

/-! ## Recurrence evaluator (`scheduler.js`, `shouldTriggerReminder`) -/

/-- The expression `reminder.weekly_days || '[]'`: `null` and the empty text are falsy. -/
def weeklyDaysText (reminder : Reminder) : String :=
  match reminder.weekly_days with
  | none => "[]"
  | some s => if s = "" then "[]" else s

/-- The text of a weekday number 0..6, as `String.prototype.includes` converts its
argument. -/
def dayText (day : Int) : String :=
  String.mk [Char.ofNat (48 + day.toNat)]

/-- The call `weeklyDays.includes(currentDay)` on a parsed JSON value. An array tests
its elements with SameValueZero, a string tests for the substring; on every other value
the call throws a `TypeError`. -/
def includes (weeklyDays : Json) (currentDay : Int) : Except JsError Bool :=
  match weeklyDays with
  | .arr xs =>
    .ok (xs.any fun x =>
      match x with
      | .num (some n) => decide (n = currentDay)
      | _ => false)
  | .str s => .ok (decide ((dayText currentDay).data <:+: s.data))
  | _ => .error .typeError

/-- The lines 72-82: the date guard on `last_triggered`; `true` when the reminder has
already fired on the date `userDate` shows. -/
def firedToday (rt : Runtime) (reminder : Reminder) (userDate : Int) : Except JsError Bool :=
  match reminder.last_triggered with
  | none => .ok false
  | some stored =>
    let lastTriggered := newDate rt stored
    match toLocaleString rt lastTriggered reminder.timezone with
    | .error e => .error e
    | .ok wall =>
      let lastTriggeredUser := newDate rt wall
      let lastDate := toDateString rt lastTriggeredUser
      let currentDate := toDateString rt userDate
      .ok (decide (lastDate = currentDate))

/-- The lines 65-70: the weekday test of a weekly reminder; `true` when the reminder is
weekly and `currentDay` is not among its days. -/
def weekdayExcluded (rt : Runtime) (reminder : Reminder) (currentDay : Int) :
    Except JsError Bool :=
  if reminder.recurrence_type = "weekly" then
    match rt.jsonParse (weeklyDaysText reminder) with
    | none => .error .syntaxError
    | some weeklyDays =>
      match includes weeklyDays currentDay with
      | .error e => .error e
      | .ok b => .ok (!b)
  else .ok false

/-- The `try` block of `shouldTriggerReminder` (lines 53-84). -/
def shouldTriggerReminderTry (rt : Runtime) (reminder : Reminder) (now : Int) :
    Except JsError Bool :=
  match toLocaleString rt now reminder.timezone with
  | .error e => .error e
  | .ok wall =>
    let userDate := newDate rt wall
    let currentHours := getHours rt userDate
    let currentMinutes := getMinutes rt userDate
    let currentDay := getDay rt userDate
    match reminder.reminder_time with
    | none => .error .typeError
    | some text =>
      let parts := (splitColon text).map rt.number
      let reminderHours := (parts.get? 0).join
      let reminderMinutes := (parts.get? 1).join
      if some currentHours ≠ reminderHours ∨ some currentMinutes ≠ reminderMinutes then
        .ok false
      else
        match weekdayExcluded rt reminder currentDay with
        | .error e => .error e
        | .ok true => .ok false
        | .ok false =>
          match firedToday rt reminder userDate with
          | .error e => .error e
          | .ok true => .ok false
          | .ok false => .ok true

/-- The function `shouldTriggerReminder(reminder, now)`: the `catch` block logs the error
and returns `false`, so the promise always resolves. -/
def shouldTriggerReminder (rt : Runtime) (reminder : Reminder) (now : Int) :
    Except JsError Bool :=
  match shouldTriggerReminderTry rt reminder now with
  | .ok b => .ok b
  | .error _ => .ok false

/-! ## Trigger dispatcher (`scheduler.js`, `triggerReminder`) -/

/-- What the collaborators do during one dispatch: whether `sendReminderEmail` resolves,
and whether each of the three statements succeeds. -/
structure DispatchOutcome where
  emailOk : Bool
  updateOk : Bool
  insertSentOk : Bool
  insertFailedOk : Bool

/-- The state an `async` function leaves and whether its promise was fulfilled
(`false`: rejected). -/
structure Settled where
  db : Db
  fulfilled : Bool

/-- The statement `UPDATE reminders SET last_triggered = CURRENT_TIMESTAMP WHERE id = ?`. -/
def updateLastTriggered (db : Db) (t : Int) (id : Int) : Db :=
  { db with reminders := db.reminders.map fun r =>
      if r.id = id then { r with last_triggered := some (currentTimestamp t) } else r }

/-- The statement `INSERT INTO reminder_logs (reminder_id, user_id, status) VALUES (?, ?, ?)`;
`triggered_at` takes its default `CURRENT_TIMESTAMP`. -/
def insertLog (db : Db) (t : Int) (reminderId userId : Int) (status : String) : Db :=
  let id := nextId db.log_seq (db.reminder_logs.map fun l => l.id)
  { db with
    reminder_logs := db.reminder_logs ++
      [{ id := id, reminder_id := reminderId, user_id := userId,
         triggered_at := some (currentTimestamp t), status := some status }]
    log_seq := id }

/-- The `catch` block of `triggerReminder` (lines 108-115): it writes a `'failed'` log
row; when that insert fails the promise is rejected. -/
def triggerReminderCatch (db : Db) (t : Int) (o : DispatchOutcome) (reminder : Reminder) :
    Settled :=
  if o.insertFailedOk then
    { db := insertLog db t reminder.id reminder.user_id "failed", fulfilled := true }
  else { db := db, fulfilled := false }

/-- The function `triggerReminder(reminder)` run at the instant `t` (lines 91-116): send
the mail, set `last_triggered`, write a `'sent'` log row; the first failure jumps to the
`catch` block. -/
def triggerReminder (db : Db) (t : Int) (o : DispatchOutcome) (reminder : Reminder) :
    Settled :=
  if !o.emailOk then triggerReminderCatch db t o reminder
  else if !o.updateOk then triggerReminderCatch db t o reminder
  else
    let db1 := updateLastTriggered db t reminder.id
    if !o.insertSentOk then triggerReminderCatch db1 t o reminder
    else { db := insertLog db1 t reminder.id reminder.user_id "sent", fulfilled := true }

/-! ## Streak ledger (`completions.js`, `updateStreak`) -/

/-- The expression `streak.current_streak || 0`. -/
def StreakRow.current (streak : StreakRow) : Int :=
  streak.current_streak.getD 0

/-- The expression `streak.longest_streak || 0`. -/
def StreakRow.longest (streak : StreakRow) : Int :=
  streak.longest_streak.getD 0

/-- The query `SELECT * FROM reminders WHERE id = ?` through `getQuery`: the first row. -/
def getReminder (db : Db) (reminderId : Int) : Option ReminderRow :=
  db.reminders.find? fun r => decide (r.id = reminderId)

/-- The query `SELECT * FROM user_streaks WHERE user_id = ? AND reminder_id = ?` through
`getQuery`: the first row. -/
def getStreak (db : Db) (userId reminderId : Int) : Option StreakRow :=
  db.user_streaks.find? fun s => decide (s.user_id = userId ∧ s.reminder_id = reminderId)

/-- The statement `INSERT INTO user_streaks (user_id, reminder_id) VALUES (?, ?)`: both
counters take their default 0, `last_updated` its default `CURRENT_TIMESTAMP`. -/
def insertStreak (db : Db) (t : Int) (userId reminderId : Int) : Db :=
  let id := nextId db.streak_seq (db.user_streaks.map fun s => s.id)
  { db with
    user_streaks := db.user_streaks ++
      [{ id := id, user_id := userId, reminder_id := reminderId,
         current_streak := some 0, longest_streak := some 0,
         last_completed := none, last_updated := some (currentTimestamp t) }]
    streak_seq := id }

/-- The statement `UPDATE user_streaks SET current_streak = ?, longest_streak = ?,
last_completed = CURRENT_TIMESTAMP, last_updated = CURRENT_TIMESTAMP WHERE id = ?`. -/
def updateStreakCompleted (db : Db) (t : Int) (newStreak longestStreak id : Int) : Db :=
  { db with user_streaks := db.user_streaks.map fun s =>
      if s.id = id then
        { s with current_streak := some newStreak, longest_streak := some longestStreak,
                 last_completed := some (currentTimestamp t),
                 last_updated := some (currentTimestamp t) }
      else s }

/-- The statement `UPDATE user_streaks SET current_streak = 0, last_updated =
CURRENT_TIMESTAMP WHERE id = ?`. -/
def updateStreakMissed (db : Db) (t : Int) (id : Int) : Db :=
  { db with user_streaks := db.user_streaks.map fun s =>
      if s.id = id then
        { s with current_streak := some 0, last_updated := some (currentTimestamp t) }
      else s }

/-- The lines 159-176 of `updateStreak`: the update for the loaded row `streak`. -/
def applyStreakEvent (db : Db) (t : Int) (streak : StreakRow) (completed : Bool) : Db :=
  if completed then
    let newStreak := streak.current + 1
    let longestStreak := max newStreak streak.longest
    updateStreakCompleted db t newStreak longestStreak streak.id
  else updateStreakMissed db t streak.id

/-- The function `updateStreak(reminderId, userId, completed)` run at the instant `t`
with every statement succeeding (lines 138-180). -/
def updateStreak (db : Db) (t : Int) (reminderId userId : Int) (completed : Bool) : Db :=
  match getReminder db reminderId with
  | none => db
  | some _ =>
    match getStreak db userId reminderId with
    | some streak => applyStreakEvent db t streak completed
    | none =>
      let db1 := insertStreak db t userId reminderId
      match getStreak db1 userId reminderId with
      | some streak => applyStreakEvent db1 t streak completed
      | none => db1

/-! ## Minute scan (`scheduler.js`, `checkAndTriggerReminders`) -/

/-- The test `if (await shouldTriggerReminder(reminder, now))`. -/
def isDue (rt : Runtime) (reminder : Reminder) (now : Int) : Bool :=
  match shouldTriggerReminder rt reminder now with
  | .ok true => true
  | _ => false

/-- The loop of `checkAndTriggerReminders` (lines 41-45) over the rows the query
returned, each with its position; `plan i` says what the collaborators do while the row
at position `i` is dispatched. A rejected `triggerReminder` leaves the loop. -/
def dispatchLoop (rt : Runtime) (now t : Int) (plan : Nat → DispatchOutcome) :
    Db → List (Nat × Reminder) → Settled
  | db, [] => { db := db, fulfilled := true }
  | db, (i, reminder) :: rest =>
    if isDue rt reminder now then
      let s := triggerReminder db t (plan i) reminder
      if s.fulfilled then dispatchLoop rt now t plan s.db rest else s
    else dispatchLoop rt now t plan db rest

/-- The function `checkAndTriggerReminders()` (lines 30-49): `now` is the instant the
rows are tested against, `t` the instant the statements of the dispatches run at,
`scanOk` whether the query succeeds. The `catch` block logs whatever was thrown, so the
promise is always fulfilled. -/
def checkAndTriggerReminders (rt : Runtime) (db : Db) (now t : Int) (scanOk : Bool)
    (plan : Nat → DispatchOutcome) : Settled :=
  if scanOk then
    { db := (dispatchLoop rt now t plan db (activeReminders db).enum).db, fulfilled := true }
  else { db := db, fulfilled := true }

/-! ## Date texts -/

/-- The decimal digit for `n % 10`. -/
def digitChar (n : Nat) : Char :=
  Char.ofNat (48 + n % 10)

/-- The last `width` decimal digits of `n`, most significant first. -/
def padDigits : Nat → Nat → List Char
  | 0, _ => []
  | width + 1, n => padDigits width (n / 10) ++ [digitChar n]

/-- The text `YYYY-MM-DD` of a count of days since 1970-01-01, for the years 0000 to 9999. -/
def dateText (days : Int) : List Char :=
  let c := civilFromDays days
  padDigits 4 c.1.toNat ++ ['-'] ++ padDigits 2 c.2.1.toNat ++ ['-'] ++ padDigits 2 c.2.2.toNat

/-- The text `HH:MM:SS` of a second count. -/
def clockText (second : Int) : List Char :=
  padDigits 2 (second % 86400 / 3600).toNat ++ [':'] ++
    padDigits 2 (second % 3600 / 60).toNat ++ [':'] ++ padDigits 2 (second % 60).toNat

/-- The text SQLite's `CURRENT_TIMESTAMP` writes for a UTC second:
`YYYY-MM-DD HH:MM:SS`. -/
def sqliteDatetime (second : Int) : List Char :=
  dateText (second / 86400) ++ [' '] ++ clockText second

/-- The method `date.toISOString()`: `YYYY-MM-DDTHH:MM:SS.sssZ`, for the years 0000 to
9999. -/
def toISOString (date : Int) : List Char :=
  dateText (date / 1000 / 86400) ++ ['T'] ++ clockText (date / 1000) ++ ['.'] ++
    padDigits 3 (date % 1000).toNat ++ ['Z']

/-- The comparison `a <= b` of SQLite on two `TEXT` values under the `BINARY` collation:
byte by byte, a proper initial piece being smaller. The texts here are ASCII. -/
def textLe : List Char → List Char → Bool
  | [], _ => true
  | _ :: _, [] => false
  | a :: as, b :: bs =>
    if a.toNat < b.toNat then true
    else if b.toNat < a.toNat then false
    else textLe as bs

/-! ## Miss detector (`scheduler.js`, `checkMissedReminders` and `markAsMissed`) -/

/-- The constant `MISSED_THRESHOLD_MINUTES`. -/
def MISSED_THRESHOLD_MINUTES : Int := 30

/-- A row of the query of `checkMissedReminders`: `rl.*` with the joined columns. -/
structure MissedLog where
  id : Int
  reminder_id : Int
  user_id : Int
  triggered_at : Option Int
  status : Option String
  title : String
  reminder_time : Option String
  recurrence_type : String
  email : String
  name : String
  timezone : Option String

/-- The condition `rl.triggered_at <= ?` with the parameter `thresholdTime.toISOString()`.
The column is declared `DATETIME` and holds what `CURRENT_TIMESTAMP` wrote; neither that
text nor the parameter reads as a number, so both sides are `TEXT` and compare under the
`BINARY` collation. `NULL` compares to nothing. -/
def triggeredAtLe (triggeredAt : Option Int) (param : List Char) : Bool :=
  match triggeredAt with
  | none => false
  | some second => textLe (sqliteDatetime second) param

/-- The rows of `reminder_completions` for a log: `WHERE log_id = ?`. -/
def completionsOf (db : Db) (logId : Int) : List CompletionRow :=
  db.reminder_completions.filter fun c => decide (c.log_id = some logId)

/-- The query of `checkMissedReminders` (lines 120-132) at the instant `now`: the logs
joined with their reminder and owner, without a completion (`LEFT JOIN ... rc.id IS
NULL`), with `triggered_at <= ?` and `status = 'sent'`. -/
def missedLogs (db : Db) (now : Int) : List MissedLog :=
  let thresholdTime := now - MISSED_THRESHOLD_MINUTES * 60 * 1000
  let param := toISOString thresholdTime
  db.reminder_logs.flatMap fun rl =>
    (db.reminders.filter fun r => decide (rl.reminder_id = r.id)).flatMap fun r =>
      (db.users.filter fun u => decide (rl.user_id = u.id)).flatMap fun u =>
        if (completionsOf db rl.id).isEmpty && triggeredAtLe rl.triggered_at param &&
            decide (rl.status = some "sent") then
          [{ id := rl.id, reminder_id := rl.reminder_id, user_id := rl.user_id,
             triggered_at := rl.triggered_at, status := rl.status, title := r.title,
             reminder_time := r.reminder_time, recurrence_type := r.recurrence_type,
             email := u.email, name := u.name, timezone := u.timezone }]
        else []

/-- A call of `updateStreak`, recorded with the log it was made for. -/
structure LedgerCall where
  reminder_id : Int
  user_id : Int
  completed : Bool
  log_id : Int
  deriving DecidableEq

/-- The database together with a record of what the code did to its collaborators: the
calls of `updateStreak`, oldest first, and the logs `sendMissedReminderEmail` was called
for. -/
structure World where
  db : Db
  ledgerCalls : List LedgerCall
  missedMails : List Int

/-- The statement `INSERT INTO reminder_completions (reminder_id, user_id, log_id,
scheduled_time, status) VALUES (?, ?, ?, ?, ?)`; `completed_at` takes its default
`CURRENT_TIMESTAMP`. -/
def insertCompletion (db : Db) (t : Int) (reminderId userId logId scheduledTime : Int)
    (status : String) : Db :=
  let id := nextId db.completion_seq (db.reminder_completions.map fun c => c.id)
  { db with
    reminder_completions := db.reminder_completions ++
      [{ id := id, reminder_id := reminderId, user_id := userId, log_id := some logId,
         completed_at := some (currentTimestamp t), scheduled_time := some scheduledTime,
         status := some status }]
    completion_seq := id }

/-- The function `markAsMissed(log)` run at the instant `t` (lines 142-173). Statements
succeed unless a constraint forbids them: `scheduled_time` is `NOT NULL`, so the insert
fails for a log without `triggered_at` and the `catch` block ends the call. -/
def markAsMissed (w : World) (t : Int) (log : MissedLog) : World :=
  let existing := completionsOf w.db log.id
  if existing.length > 0 then w
  else
    match log.triggered_at with
    | none => w
    | some triggeredAt =>
      let db1 := insertCompletion w.db t log.reminder_id log.user_id log.id triggeredAt "missed"
      let db2 := updateStreak db1 t log.reminder_id log.user_id false
      { db := db2
        ledgerCalls := w.ledgerCalls ++
          [{ reminder_id := log.reminder_id, user_id := log.user_id, completed := false,
             log_id := log.id }]
        missedMails := w.missedMails ++ [log.id] }

/-- The function `checkMissedReminders()` run at the instant `now` (lines 118-140): the
query, then `markAsMissed` for each row it returned. -/
def checkMissedReminders (w : World) (now : Int) : World :=
  (missedLogs w.db now).foldl (fun w log => markAsMissed w now log) w

/-! ## User completion (`completions.js`, `POST /:logId/complete`) -/

/-- The query `SELECT * FROM reminder_logs WHERE id = ? AND user_id = ?` through
`getQuery`. -/
def getLog (db : Db) (logId userId : Int) : Option LogRow :=
  db.reminder_logs.find? fun l => decide (l.id = logId ∧ l.user_id = userId)

/-- The query `SELECT * FROM reminder_completions WHERE log_id = ?` through `getQuery`. -/
def getCompletion (db : Db) (logId : Int) : Option CompletionRow :=
  db.reminder_completions.find? fun c => decide (c.log_id = some logId)

/-- The handler of `POST /:logId/complete` run at the instant `t` for the authenticated
user `userId` (lines 9-51); the result carries the HTTP status. `logId` is the integer
SQLite reads from the path parameter under the `INTEGER` affinity of the columns it is
compared with and stored in. -/
def completeLog (w : World) (t : Int) (logId userId : Int) : World × Nat :=
  match getLog w.db logId userId with
  | none => (w, 404)
  | some log =>
    match getCompletion w.db logId with
    | some _ => (w, 400)
    | none =>
      match log.triggered_at with
      | none => (w, 500)
      | some triggeredAt =>
        let db1 := insertCompletion w.db t log.reminder_id userId logId triggeredAt "completed"
        let db2 := updateStreak db1 t log.reminder_id userId true
        ({ db := db2
           ledgerCalls := w.ledgerCalls ++
             [{ reminder_id := log.reminder_id, user_id := userId, completed := true,
                log_id := logId }]
           missedMails := w.missedMails }, 200)

/-! ## Executions that interleave at `await` -/

/-- Where an execution of `markAsMissed(log)` stands between two of its `await`s. -/
inductive MissPc where
  | start
  | checked (found : Bool)
  | inserted
  | ledgered
  | done
  deriving DecidableEq

/-- Where an execution of the handler of `POST /:logId/complete` stands between two of
its `await`s; `done` carries the HTTP status. -/
inductive CompletePc where
  | start
  | gotLog (log : LogRow)
  | checked (log : LogRow)
  | inserted (log : LogRow)
  | done (status : Nat)
  deriving DecidableEq

/-- An execution in flight: a run of `markAsMissed` for a row of the query, or a run of
the completion handler for a log id and a user. -/
inductive Exec where
  | miss (log : MissedLog) (pc : MissPc)
  | complete (logId userId : Int) (pc : CompletePc)

/-- One statement of `markAsMissed(log)`, up to its next `await`: the query for existing
completions (lines 144-147), the test and the insert (lines 149-157), the call of
`updateStreak` (line 159), the mail (lines 161-167). -/
def missStep (w : World) (t : Int) (log : MissedLog) : MissPc → World × MissPc
  | .start => (w, .checked (decide ((completionsOf w.db log.id).length > 0)))
  | .checked true => (w, .done)
  | .checked false =>
    match log.triggered_at with
    | none => (w, .done)
    | some triggeredAt =>
      let db1 := insertCompletion w.db t log.reminder_id log.user_id log.id triggeredAt "missed"
      ({ w with db := db1 }, .inserted)
  | .inserted =>
    ({ w with
       db := updateStreak w.db t log.reminder_id log.user_id false
       ledgerCalls := w.ledgerCalls ++
         [{ reminder_id := log.reminder_id, user_id := log.user_id, completed := false,
            log_id := log.id }] }, .ledgered)
  | .ledgered => ({ w with missedMails := w.missedMails ++ [log.id] }, .done)
  | .done => (w, .done)

/-- One statement of the completion handler, up to its next `await`: the query for the
log (lines 13-20), the query for an existing completion (lines 22-29), the insert (lines
31-35), the call of `updateStreak` and the response (lines 37-46). -/
def completeStep (w : World) (t : Int) (logId userId : Int) : CompletePc → World × CompletePc
  | .start =>
    match getLog w.db logId userId with
    | none => (w, .done 404)
    | some log => (w, .gotLog log)
  | .gotLog log =>
    match getCompletion w.db logId with
    | some _ => (w, .done 400)
    | none => (w, .checked log)
  | .checked log =>
    match log.triggered_at with
    | none => (w, .done 500)
    | some triggeredAt =>
      let db1 := insertCompletion w.db t log.reminder_id userId logId triggeredAt "completed"
      ({ w with db := db1 }, .inserted log)
  | .inserted log =>
    ({ w with
       db := updateStreak w.db t log.reminder_id userId true
       ledgerCalls := w.ledgerCalls ++
         [{ reminder_id := log.reminder_id, user_id := userId, completed := true,
            log_id := logId }] }, .done 200)
  | .done status => (w, .done status)

/-- One statement of an execution. -/
def Exec.step (w : World) (t : Int) : Exec → World × Exec
  | .miss log pc => ((missStep w t log pc).1, .miss log (missStep w t log pc).2)
  | .complete logId userId pc =>
    ((completeStep w t logId userId pc).1,
      .complete logId userId (completeStep w t logId userId pc).2)

/-- Whether an execution has returned. -/
def Exec.finished : Exec → Bool
  | .miss _ .done => true
  | .complete _ _ (.done _) => true
  | _ => false

/-- Two executions on one event loop: the schedule says, statement by statement, which of
the two runs next (`true`: the first). -/
def runSchedule (t : Int) : World → Exec → Exec → List Bool → World × Exec × Exec
  | w, a, b, [] => (w, a, b)
  | w, a, b, true :: rest => runSchedule t (a.step w t).1 (a.step w t).2 b rest
  | w, a, b, false :: rest => runSchedule t (b.step w t).1 a (b.step w t).2 rest

/-- One execution run alone for a number of statements. -/
def runAlone (t : Int) : World → Exec → Nat → World × Exec
  | w, e, 0 => (w, e)
  | w, e, n + 1 => runAlone t (e.step w t).1 (e.step w t).2 n

/-- The number of calls of `updateStreak` recorded for a log. -/
def ledgerCallsFor (w : World) (logId : Int) : Nat :=
  (w.ledgerCalls.filter fun c => decide (c.log_id = logId)).length

/-- The row of the query of `checkMissedReminders` for the second log of `staleLogsDb`. -/
def staleSentLog : MissedLog where
  id := 2
  reminder_id := 2
  user_id := 7
  triggered_at := some 1793541600
  status := some "sent"
  title := "Water"
  reminder_time := some "09:00"
  recurrence_type := "daily"
  email := "owner@example.org"
  name := "Owner"
  timezone := some "America/New_York"

/-! ## Minute callback (`scheduler.js`, `startReminderScheduler`) with failing collaborators -/

/-- What the store does during one call of `updateStreak`: whether each of its awaited
statements succeeds, in the order of lines 140, 143, 149, 153 and 163 or 170. -/
structure StreakOutcome where
  reminderOk : Bool
  selectOk : Bool
  insertOk : Bool
  reselectOk : Bool
  updateOk : Bool

/-- What the collaborators do during one call of `markAsMissed`: the query for existing
completions, the insert, the statements of `updateStreak`, the mail. -/
structure MissOutcome where
  existingOk : Bool
  insertOk : Bool
  streak : StreakOutcome
  mailOk : Bool

/-- The function `updateStreak` with a store that may fail (lines 138-180): the first
statement that fails jumps to the `catch` block, which logs and returns, so the promise is
fulfilled and the database stays as the statements before left it. -/
def updateStreakWith (o : StreakOutcome) (db : Db) (t : Int) (reminderId userId : Int)
    (completed : Bool) : Db :=
  if !o.reminderOk then db
  else
    match getReminder db reminderId with
    | none => db
    | some _ =>
      if !o.selectOk then db
      else
        match getStreak db userId reminderId with
        | some streak => if o.updateOk then applyStreakEvent db t streak completed else db
        | none =>
          if !o.insertOk then db
          else
            let db1 := insertStreak db t userId reminderId
            if !o.reselectOk then db1
            else
              match getStreak db1 userId reminderId with
              | some streak =>
                if o.updateOk then applyStreakEvent db1 t streak completed else db1
              | none => db1

/-- The function `markAsMissed(log)` with collaborators that may fail (lines 142-173).
A failing query or insert jumps to the `catch` block, which logs and returns;
`updateStreak` and `sendMissedReminderEmail` catch their own errors, so the outcome of the
mail changes nothing. The promise is always fulfilled. -/
def markAsMissedWith (o : MissOutcome) (w : World) (t : Int) (log : MissedLog) : World :=
  if !o.existingOk then w
  else
    let existing := completionsOf w.db log.id
    if existing.length > 0 then w
    else if !o.insertOk then w
    else
      match log.triggered_at with
      | none => w
      | some triggeredAt =>
        let db1 := insertCompletion w.db t log.reminder_id log.user_id log.id triggeredAt
          "missed"
        let db2 := updateStreakWith o.streak db1 t log.reminder_id log.user_id false
        { db := db2
          ledgerCalls := w.ledgerCalls ++
            [{ reminder_id := log.reminder_id, user_id := log.user_id, completed := false,
               log_id := log.id }]
          missedMails := w.missedMails ++ [log.id] }

/-- The world an `async` function leaves and whether its promise was fulfilled. -/
structure WorldSettled where
  world : World
  fulfilled : Bool

/-- The loop of `checkMissedReminders` (lines 134-136) over the rows of the query, each
with its position; `plan i` says what the collaborators do for the row at position `i`.
`markAsMissed` is never rejected, so the loop is never left early. -/
def missLoop (t : Int) (plan : Nat → MissOutcome) : World → List (Nat × MissedLog) → World
  | w, [] => w
  | w, (i, log) :: rest => missLoop t plan (markAsMissedWith (plan i) w t log) rest

/-- The function `checkMissedReminders()` with collaborators that may fail (lines
118-140): `queryOk` says whether the query succeeds; the `catch` block logs and returns. -/
def checkMissedRemindersWith (w : World) (now : Int) (queryOk : Bool)
    (plan : Nat → MissOutcome) : WorldSettled :=
  if queryOk then
    { world := missLoop now plan w (missedLogs w.db now).enum, fulfilled := true }
  else { world := w, fulfilled := true }

/-- The callback of `cron.schedule('* * * * *', ...)` (lines 9-16): `await
checkAndTriggerReminders()`, then `await checkMissedReminders()`, both inside one `try`
whose `catch` block logs. `now` is the instant the reminders are tested against, `t` the
instant of the dispatches, `missNow` the instant of the miss phase. -/
def minuteTick (rt : Runtime) (w : World) (now t missNow : Int) (scanOk : Bool)
    (plan : Nat → DispatchOutcome) (missQueryOk : Bool) (missPlan : Nat → MissOutcome) :
    WorldSettled :=
  let s := checkAndTriggerReminders rt w.db now t scanOk plan
  if s.fulfilled then
    let m := checkMissedRemindersWith { w with db := s.db } missNow missQueryOk missPlan
    if m.fulfilled then { world := m.world, fulfilled := true }
    else { world := m.world, fulfilled := true }
  else { world := { w with db := s.db }, fulfilled := true }

/-- A store that works during `updateStreak`. -/
def streakOk : StreakOutcome where
  reminderOk := true
  selectOk := true
  insertOk := true
  reselectOk := true
  updateOk := true

/-- Collaborators that work during `markAsMissed`. -/
def missOk : MissOutcome where
  existingOk := true
  insertOk := true
  streak := streakOk
  mailOk := true

/-! ## Weekly report (`scheduler.js`, `generateAndSendWeeklyReport`) -/

/-- A row of `weekly_reports`. `week_start` and `week_end` are the instants whose
`toISOString()` text the columns hold. The columns `completion_rate` and `report_data`,
renderings of the three counts and of the streaks, are left out. -/
structure WeeklyReportRow where
  id : Int
  user_id : Int
  week_start : Int
  week_end : Int
  total_reminders : Int
  completed_count : Int
  missed_count : Int
  deriving DecidableEq

/-- A call of `sendWeeklyReport`: the address and the three counts it is given. -/
structure WeeklyMail where
  email : String
  total : Int
  completed : Int
  missed : Int
  deriving DecidableEq

/-- The table `weekly_reports` with the largest id handed out, and the calls of
`sendWeeklyReport`, oldest first. -/
structure ReportStore where
  weekly_reports : List WeeklyReportRow
  report_seq : Int
  weeklyMails : List WeeklyMail

/-- The lines 189-190, `new Date()` moved back by seven days with `setDate`: in a process
zone with a fixed offset, seven times 24 hours before `now`. -/
def weekStartOf (now : Int) : Int :=
  now - 7 * 86400 * 1000

/-- The condition `scheduled_time >= ?` with the parameter `weekStart.toISOString()`.
`scheduled_time` holds the text copied from the log's `triggered_at`; both sides are
`TEXT` and compare under the `BINARY` collation. `NULL` compares to nothing. -/
def scheduledTimeGe (scheduledTime : Option Int) (param : List Char) : Bool :=
  match scheduledTime with
  | none => false
  | some second => textLe param (sqliteDatetime second)

/-- The rows the query of lines 192-200 aggregates: `WHERE user_id = ? AND
scheduled_time >= ?`. -/
def statsRows (db : Db) (userId : Int) (weekStart : Int) : List CompletionRow :=
  db.reminder_completions.filter fun c =>
    decide (c.user_id = userId) && scheduledTimeGe c.scheduled_time (toISOString weekStart)

/-- The column `total`: `COUNT(*)`. -/
def statsTotal (rows : List CompletionRow) : Int :=
  rows.length

/-- The column `completed`: `SUM(CASE WHEN status = 'completed' THEN 1 ELSE 0 END)`, read
with `|| 0`. -/
def statsCompleted (rows : List CompletionRow) : Int :=
  (rows.filter fun c => decide (c.status = some "completed")).length

/-- The column `missed`: `SUM(CASE WHEN status = 'missed' THEN 1 ELSE 0 END)`, read with
`|| 0`. -/
def statsMissed (rows : List CompletionRow) : Int :=
  (rows.filter fun c => decide (c.status = some "missed")).length

/-- The function `generateAndSendWeeklyReport(user)` run at the instant `now` with every
statement succeeding (lines 187-253): when `total > 0` it inserts the report row and calls
`sendWeeklyReport`. The query for the streaks (lines 202-209) feeds `report_data` and the
mail only and is left out. -/
def generateAndSendWeeklyReport (db : Db) (store : ReportStore) (now : Int) (user : UserRow) :
    ReportStore :=
  let weekStart := weekStartOf now
  let rows := statsRows db user.id weekStart
  if statsTotal rows > 0 then
    let id := nextId store.report_seq (store.weekly_reports.map fun r => r.id)
    { weekly_reports := store.weekly_reports ++
        [{ id := id, user_id := user.id, week_start := weekStart, week_end := now,
           total_reminders := statsTotal rows, completed_count := statsCompleted rows,
           missed_count := statsMissed rows }]
      report_seq := id
      weeklyMails := store.weeklyMails ++
        [{ email := user.email, total := statsTotal rows, completed := statsCompleted rows,
           missed := statsMissed rows }] }
  else store

/-- The function `sendWeeklyPerformanceReports()` run at the instant `now` (lines
175-185): one call of `generateAndSendWeeklyReport` for each row of `users`. -/
def sendWeeklyPerformanceReports (db : Db) (store : ReportStore) (now : Int) : ReportStore :=
  db.users.foldl (fun st user => generateAndSendWeeklyReport db st now user) store

/-- The number of rows of `weekly_reports` for a user. -/
def reportCount (store : ReportStore) (userId : Int) : Nat :=
  (store.weekly_reports.filter fun r => decide (r.user_id = userId)).length

/-! ## Reminder store (`reminders.js`, `POST /` and `PUT /:id`) -/

/-- A field of a request body that carries a text: missing from the body (`undefined`),
`null`, or the text. -/
inductive BodyField where
  | absent
  | null
  | text (s : String)
  deriving DecidableEq

/-- Whether the field is truthy: a text that is not empty. -/
def BodyField.truthy : BodyField → Bool
  | .text s => decide (s ≠ "")
  | _ => false

/-- The expression `field || null` as it is bound to a column. -/
def BodyField.orNull : BodyField → Option String
  | .text s => if s = "" then none else some s
  | _ => none

/-- The body of `POST /` and `PUT /:id`. The field `is_active` is missing, `null` or a
number (`true` is bound as 1, `false` as 0). -/
structure ReminderBody where
  title : BodyField
  description : BodyField
  reminder_time : BodyField
  recurrence_type : BodyField
  weekly_days : BodyField
  is_active : Option (Option Int)

/-- The handler of `POST /` for the authenticated user `userId`, every statement
succeeding (lines 41-81); the result carries the HTTP status. -/
def createReminder (db : Db) (userId : Int) (body : ReminderBody) : Db × Nat :=
  if !body.title.truthy || !body.reminder_time.truthy || !body.recurrence_type.truthy then
    (db, 400)
  else
    match body.title, body.reminder_time, body.recurrence_type with
    | .text title, .text reminderTime, .text recurrenceType =>
      if !(recurrenceType = "daily" || recurrenceType = "weekly") then (db, 400)
      else if recurrenceType = "weekly" && !body.weekly_days.truthy then (db, 400)
      else
        let id := nextId db.reminder_seq (db.reminders.map fun r => r.id)
        ({ db with
           reminders := db.reminders ++
             [{ id := id, user_id := userId, title := title,
                description := body.description.orNull,
                reminder_time := some reminderTime, recurrence_type := recurrenceType,
                weekly_days := body.weekly_days.orNull,
                is_active := match body.is_active with
                  | none => some 1
                  | some v => v,
                last_triggered := none }]
           reminder_seq := id }, 201)
    | _, _, _ => (db, 400)

/-- Whether the `UPDATE` of `PUT /:id` violates a constraint of the table: `title`,
`reminder_time` and `recurrence_type` are `NOT NULL`, and `recurrence_type` is checked to
be `'daily'` or `'weekly'`. -/
def violatesReminderConstraints (body : ReminderBody) : Bool :=
  decide (body.title = .null) || decide (body.reminder_time = .null) ||
    match body.recurrence_type with
    | .absent => false
    | .null => true
    | .text kind => !(kind = "daily" || kind = "weekly")

/-- The row the `UPDATE` of `PUT /:id` leaves: each field that is not `undefined` is
written (lines 99-122). -/
def applyReminderBody (body : ReminderBody) (r : ReminderRow) : ReminderRow :=
  { r with
    title := match body.title with
      | .text s => s
      | _ => r.title
    description := match body.description with
      | .absent => r.description
      | .null => none
      | .text s => some s
    reminder_time := match body.reminder_time with
      | .text s => some s
      | _ => r.reminder_time
    recurrence_type := match body.recurrence_type with
      | .text s => s
      | _ => r.recurrence_type
    weekly_days := match body.weekly_days with
      | .absent => r.weekly_days
      | .null => none
      | .text s => some s
    is_active := match body.is_active with
      | none => r.is_active
      | some none => some 0
      | some (some n) => some (if n = 0 then 0 else 1) }

/-- The handler of `PUT /:id` for the authenticated user `userId` (lines 83-142); the
result carries the HTTP status. A constraint violation fails the `UPDATE` and is answered
500. -/
def updateReminder (db : Db) (id userId : Int) (body : ReminderBody) : Db × Nat :=
  match db.reminders.find? fun r => decide (r.id = id ∧ r.user_id = userId) with
  | none => (db, 404)
  | some _ =>
    if violatesReminderConstraints body then (db, 500)
    else
      ({ db with reminders := db.reminders.map fun r =>
          if r.id = id ∧ r.user_id = userId then applyReminderBody body r else r }, 200)

/-! ## Rate limiter (`middleware/rateLimiter.js`) -/

/-- The constant `WINDOW_MS`. -/
def WINDOW_MS : Int := 60 * 1000

/-- The constant `MAX_REQUESTS`. -/
def MAX_REQUESTS : Nat := 100

/-- A value of the map `requestCounts`. -/
structure ClientData where
  count : Nat
  resetTime : Int
  deriving DecidableEq

/-- The map `requestCounts`; a key is what `req.headers['x-forwarded-for'] ||
req.connection.remoteAddress` gives, `none` when it is `undefined`. -/
abbrev RequestCounts := Option String → Option ClientData

/-- The method `requestCounts.set(key, value)`. -/
def RequestCounts.set (m : RequestCounts) (key : Option String) (value : ClientData) :
    RequestCounts :=
  fun k => if k = key then some value else m k

/-- The middleware `rateLimiter` for a request of `clientId` at the instant `now` (lines
5-31): the map it leaves and whether it called `next()` (`false`: it answered 429). -/
def rateLimiter (m : RequestCounts) (clientId : Option String) (now : Int) :
    RequestCounts × Bool :=
  match m clientId with
  | none => (m.set clientId { count := 1, resetTime := now + WINDOW_MS }, true)
  | some clientData =>
    if now > clientData.resetTime then
      (m.set clientId { count := 1, resetTime := now + WINDOW_MS }, true)
    else if clientData.count ≥ MAX_REQUESTS then (m, false)
    else (m.set clientId { clientData with count := clientData.count + 1 }, true)

/-- The sweep of `setInterval` (lines 33-40) at the instant `now`: entries whose window is
over are deleted. -/
def sweep (m : RequestCounts) (now : Int) : RequestCounts :=
  fun k =>
    match m k with
    | none => none
    | some data => if now > data.resetTime then none else some data

/-- The requests of one client at the given instants, one after the other: the map left
and, for each request, whether it was passed on. -/
def serve (m : RequestCounts) (clientId : Option String) : List Int → RequestCounts × List Bool
  | [] => (m, [])
  | now :: rest =>
    ((serve (rateLimiter m clientId now).1 clientId rest).1,
      (rateLimiter m clientId now).2 :: (serve (rateLimiter m clientId now).1 clientId rest).2)

/-- The number of requests passed on among the answers. -/
def passedOn (answers : List Bool) : Nat :=
  (answers.filter fun a => a).length

/-- The map before any request. -/
def noRequests : RequestCounts :=
  fun _ => none

/-! ## A concrete platform for worked examples -/

/-- White space that `Number` strips from both ends of a text. -/
def isStrWhiteSpace (c : Char) : Bool :=
  c = ' ' || c = '\t' || c = '\n' || c = '\r' || c = Char.ofNat 11 || c = Char.ofNat 12 ||
    c = Char.ofNat 160 || c = Char.ofNat 65279

/-- The value of a run of decimal digits, most significant first; `none` when a
character is not a digit. -/
def digitsValue : List Char → Nat → Option Nat
  | [], acc => some acc
  | c :: cs, acc =>
    if '0' ≤ c ∧ c ≤ '9' then digitsValue cs (acc * 10 + (c.toNat - 48)) else none

/-- The function `Number` on texts made of decimal digits between optional white space;
the empty text gives 0. Every other text is read as `NaN`: signs, fractions, exponents
and radix prefixes are not covered by this sample. -/
def sampleNumber (s : String) : Option Int :=
  let body := ((s.data.dropWhile isStrWhiteSpace).reverse.dropWhile isStrWhiteSpace).reverse
  (digitsValue body 0).map Int.ofNat

/-- States of the reader behind `sampleJsonParse`. -/
inductive ArrState where
  | start
  | first
  | value
  | minus
  | zero (neg : Bool)
  | digits (neg : Bool) (n : Nat)
  | after
  | closed
  | bad

/-- White space of the JSON grammar. -/
def isJsonWhiteSpace (c : Char) : Bool :=
  c = ' ' || c = '\t' || c = '\n' || c = '\r'

/-- The integer a finished numeral denotes. -/
def signed (neg : Bool) (n : Nat) : Json :=
  .num (some (if neg then -(n : Int) else (n : Int)))

/-- One character of a flat JSON array of integers; `acc` holds the elements read so
far, last first. -/
def arrStep (st : ArrState × List Json) (c : Char) : ArrState × List Json :=
  let acc := st.2
  let digit := decide ('0' ≤ c ∧ c ≤ '9')
  let startValue : ArrState × List Json :=
    if c = '-' then (.minus, acc)
    else if c = '0' then (.zero false, acc)
    else if digit then (.digits false (c.toNat - 48), acc)
    else (.bad, acc)
  let endValue (v : Json) : ArrState × List Json :=
    if isJsonWhiteSpace c then (.after, v :: acc)
    else if c = ',' then (.value, v :: acc)
    else if c = ']' then (.closed, v :: acc)
    else (.bad, acc)
  match st.1 with
  | .start => if isJsonWhiteSpace c then (.start, acc) else if c = '[' then (.first, acc) else (.bad, acc)
  | .first =>
    if isJsonWhiteSpace c then (.first, acc) else if c = ']' then (.closed, acc) else startValue
  | .value => if isJsonWhiteSpace c then (.value, acc) else startValue
  | .minus =>
    if c = '0' then (.zero true, acc)
    else if digit then (.digits true (c.toNat - 48), acc)
    else (.bad, acc)
  | .zero neg => endValue (signed neg 0)
  | .digits neg n => if digit then (.digits neg (n * 10 + (c.toNat - 48)), acc) else endValue (signed neg n)
  | .after =>
    if isJsonWhiteSpace c then (.after, acc)
    else if c = ',' then (.value, acc)
    else if c = ']' then (.closed, acc)
    else (.bad, acc)
  | .closed => if isJsonWhiteSpace c then (.closed, acc) else (.bad, acc)
  | .bad => (.bad, acc)

/-- The function `JSON.parse` on flat arrays of integer numerals, the form in which the
client writes `weekly_days` (`JSON.stringify` of the chosen day numbers). Texts that are
not JSON are rejected; JSON texts of another shape are not covered by this sample and
are rejected as well. -/
def sampleJsonParse (s : String) : Option Json :=
  match s.data.foldl arrStep (.start, []) with
  | (.closed, acc) => some (.arr acc.reverse)
  | _ => none

/-- The rule of `America/New_York` for 2026: daylight time (UTC-4) from 8 March 07:00 UTC
to 1 November 06:00 UTC, standard time (UTC-5) outside. -/
def newYork2026 (epochSecond : Int) : Int :=
  if 1772953200 ≤ epochSecond ∧ epochSecond < 1793512800 then -14400 else -18000

/-- A small platform: a process running in UTC that knows the zones `UTC` and
`America/New_York`. -/
def sampleRuntime : Runtime where
  timeZone := fun z =>
    if z = "UTC" then some (fun _ => 0)
    else if z = "America/New_York" then some newYork2026
    else none
  hostOffset := 0
  number := sampleNumber
  jsonParse := sampleJsonParse

/-- The platform `sampleRuntime` with the process running in `Asia/Kolkata`: five and a
half hours ahead of UTC, without transitions. -/
def kolkataHost : Runtime :=
  { sampleRuntime with hostOffset := 19800 }

/-- The platform `sampleRuntime` with the process running in `America/Phoenix`: seven hours
behind UTC, without transitions. -/
def phoenixHost : Runtime :=
  { sampleRuntime with hostOffset := -25200 }

/-- A daily reminder at 09:00 for an owner in New York that has never fired. -/
def dailyNine : Reminder where
  id := 1
  user_id := 7
  title := "Stretch"
  description := none
  reminder_time := some "09:00"
  recurrence_type := "daily"
  weekly_days := none
  is_active := some 1
  last_triggered := none
  email := "owner@example.org"
  name := "Owner"
  timezone := some "America/New_York"

/-- A weekly reminder at 18:30 on Monday, Wednesday and Friday that has never fired. -/
def weeklyMonWedFri : Reminder where
  id := 2
  user_id := 7
  title := "Gym"
  description := none
  reminder_time := some "18:30"
  recurrence_type := "weekly"
  weekly_days := some "[1,3,5]"
  is_active := some 1
  last_triggered := none
  email := "owner@example.org"
  name := "Owner"
  timezone := some "America/New_York"

/-! ## Notions the statements use -/

/-- Hour of day that a zone with the rule `offset` shows at the instant `now`. -/
def localHour (offset : Int → Int) (now : Int) : Int :=
  wallHour (localWall offset now)

/-- Minute of the hour that a zone with the rule `offset` shows at the instant `now`. -/
def localMinute (offset : Int → Int) (now : Int) : Int :=
  wallMinute (localWall offset now)

/-- Day of the week (0 is Sunday) that a zone with the rule `offset` shows at `now`. -/
def localWeekday (offset : Int → Int) (now : Int) : Int :=
  wallWeekday (localWall offset now)

/-- Calendar date that a zone with the rule `offset` shows at the instant `now`. -/
def localDate (offset : Int → Int) (now : Int) : DateString :=
  wallDate (localWall offset now)

/-- The reminder's `last_triggered` is set and falls, in the zone with the rule `offset`,
on the calendar date of the instant `now`. The column holds a UTC second. -/
def FiredOnDateOf (offset : Int → Int) (reminder : Reminder) (now : Int) : Prop :=
  ∃ stored, reminder.last_triggered = some stored ∧
    localDate offset (stored * 1000) = localDate offset now

/-- The date guard as a boolean: `last_triggered` is unset, or the instant the process
reads from it falls on another date than `now` in the zone. -/
def guardPasses (rt : Runtime) (offset : Int → Int) (reminder : Reminder) (now : Int) : Bool :=
  match reminder.last_triggered with
  | none => true
  | some stored => decide (localDate offset (newDate rt stored) ≠ localDate offset now)

/-- The completions of a user whose `scheduled_time` lies within the seven days before the
instant `now`. The column holds a UTC second. -/
def windowRows (db : Db) (userId : Int) (now : Int) : List CompletionRow :=
  db.reminder_completions.filter fun c =>
    decide (c.user_id = userId) &&
      match c.scheduled_time with
      | none => false
      | some second => decide (weekStartOf now ≤ second * 1000 ∧ second * 1000 ≤ now)

/-- The primary key of `user_streaks`: no two rows share an id. -/
def StreakIdsUnique (db : Db) : Prop :=
  db.user_streaks.Pairwise fun a b => a.id ≠ b.id

/-- A dispatch in which the delivery and every statement succeed. -/
def allSucceed : DispatchOutcome where
  emailOk := true
  updateOk := true
  insertSentOk := true
  insertFailedOk := true

/-! ## Sample rows -/

/-- The reminder `dailyNine` after it fired on 2 November 2026 at 09:00 New York time
(14:00:00 UTC). -/
def firedNine : Reminder :=
  { dailyNine with last_triggered := some 1793628000 }

/-- The reminder `dailyNine` for an owner whose zone name `Intl` does not know. -/
def badZoneNine : Reminder :=
  { dailyNine with timezone := some "Mars/Olympus_Mons" }

/-- A database with one owner in New York and one active daily reminder at 01:30, a wall
clock reading that occurs twice on 1 November 2026; one streak row (current 4, longest 6)
for that reminder and one (current 2, longest 3) for another. -/
def sampleDb : Db where
  users := [{ id := 7, name := "Owner", email := "owner@example.org",
              timezone := some "America/New_York" }]
  reminders := [{ id := 3, user_id := 7, title := "Night check", description := none,
                  reminder_time := some "01:30", recurrence_type := "daily",
                  weekly_days := none, is_active := some 1, last_triggered := none }]
  reminder_logs := []
  reminder_completions := []
  user_streaks := [
    { id := 1, user_id := 7, reminder_id := 3, current_streak := some 4,
      longest_streak := some 6, last_completed := some 1793500000,
      last_updated := some 1793500000 },
    { id := 2, user_id := 7, reminder_id := 9, current_streak := some 2,
      longest_streak := some 3, last_completed := none, last_updated := some 1793400000 }]
  log_seq := 0
  completion_seq := 0
  streak_seq := 2

/-- The row the scheduler reads for the reminder of `sampleDb`. -/
def nightCheck : Reminder where
  id := 3
  user_id := 7
  title := "Night check"
  description := none
  reminder_time := some "01:30"
  recurrence_type := "daily"
  weekly_days := none
  is_active := some 1
  last_triggered := none
  email := "owner@example.org"
  name := "Owner"
  timezone := some "America/New_York"

/-- A database with one owner in New York and two active daily reminders at 09:00; no
log has been written yet. -/
def twoDueDb : Db where
  users := [{ id := 7, name := "Owner", email := "owner@example.org",
              timezone := some "America/New_York" }]
  reminders := [
    { id := 1, user_id := 7, title := "Stretch", description := none,
      reminder_time := some "09:00", recurrence_type := "daily", weekly_days := none,
      is_active := some 1, last_triggered := none },
    { id := 2, user_id := 7, title := "Water", description := none,
      reminder_time := some "09:00", recurrence_type := "daily", weekly_days := none,
      is_active := some 1, last_triggered := none }]
  reminder_logs := []
  reminder_completions := []
  user_streaks := []
  log_seq := 0
  completion_seq := 0
  streak_seq := 0

/-- The database `twoDueDb` a day after both reminders were dispatched on 1 November 2026
at 14:00:00 UTC: the delivery of the first failed, the delivery of the second
succeeded; neither log has a completion. -/
def staleLogsDb : Db :=
  { twoDueDb with
    reminder_logs := [
      { id := 1, reminder_id := 1, user_id := 7, triggered_at := some 1793541600,
        status := some "failed" },
      { id := 2, reminder_id := 2, user_id := 7, triggered_at := some 1793541600,
        status := some "sent" }]
    log_seq := 2 }

/-- A world without recorded calls. -/
def freshWorld (db : Db) : World where
  db := db
  ledgerCalls := []
  missedMails := []

/-- Every dispatch succeeds. -/
def healthyPlan : Nat → DispatchOutcome :=
  fun _ => allSucceed

/-- The delivery fails for the row at position 0 and succeeds for the others; every
statement succeeds. -/
def firstDeliveryFails : Nat → DispatchOutcome :=
  fun i => if i = 0 then { allSucceed with emailOk := false } else allSucceed

/-- While the row at position 0 is dispatched the store is down: the update of
`last_triggered` fails and so does the insert of the `'failed'` log row. The other
dispatches succeed. -/
def storeDownForFirst : Nat → DispatchOutcome :=
  fun i =>
    if i = 0 then { allSucceed with updateOk := false, insertFailedOk := false }
    else allSucceed

/-- The number of rows of `reminder_completions` for a log. -/
def completionCount (db : Db) (logId : Int) : Nat :=
  (completionsOf db logId).length

/-- No log has more than one completion. -/
def AtMostOnePerLog (db : Db) : Prop :=
  ∀ logId, completionCount db logId ≤ 1

/-- An operation on completions: a request `POST /:logId/complete` of a user, or a call
of `markAsMissed` for a row; each with the instant it runs at. -/
inductive CompletionOp where
  | userCompletes (t logId userId : Int)
  | miss (t : Int) (log : MissedLog)

/-- The world after one operation. -/
def applyOp (w : World) : CompletionOp → World
  | .userCompletes t logId userId => (completeLog w t logId userId).1
  | .miss t log => markAsMissed w t log

/-- The world after a sequence of operations, one after the other. -/
def runOps (w : World) (ops : List CompletionOp) : World :=
  ops.foldl applyOp w

/-- The delivery fails for the row at position 0, and the insert of the `'failed'` log
row fails with it; this is the only statement that fails. -/
def failedInsertDownForFirst : Nat → DispatchOutcome :=
  fun i =>
    if i = 0 then { allSucceed with emailOk := false, insertFailedOk := false }
    else allSucceed

/-- The database `staleLogsDb` with a third log of the owner 7 whose reminder 9 is no
longer in `reminders`: the route `DELETE /:id` deletes the reminder alone, and the
database is opened without `PRAGMA foreign_keys = ON`, so the `ON DELETE CASCADE` of the
schema is not applied. -/
def orphanLogDb : Db :=
  { staleLogsDb with
    reminder_logs := staleLogsDb.reminder_logs ++
      [{ id := 3, reminder_id := 9, user_id := 7, triggered_at := some 1793541600,
         status := some "sent" }]
    log_seq := 3 }

/-- Every collaborator fails during the miss phase. -/
def missAllFail : Nat → MissOutcome :=
  fun _ =>
    { existingOk := false, insertOk := false,
      streak := { reminderOk := false, selectOk := false, insertOk := false,
                  reselectOk := false, updateOk := false },
      mailOk := false }

/-- A store without reports and without mails. -/
def emptyReports : ReportStore where
  weekly_reports := []
  report_seq := 0
  weeklyMails := []

/-- The database `twoDueDb` with one completion of the owner 7, for an occurrence of
Monday 26 October 2026 at 13:00:00 UTC. -/
def firstDayDb : Db :=
  { twoDueDb with
    reminder_completions := [
      { id := 1, reminder_id := 1, user_id := 7, log_id := some 1,
        completed_at := some 1793020000, scheduled_time := some 1793019600,
        status := some "completed" }]
    completion_seq := 1 }

/-- The database `firstDayDb` with a second completion of the owner 7, a miss for an
occurrence of Tuesday 27 October 2026 at 08:00:00 UTC. -/
def secondDayDb : Db :=
  { firstDayDb with
    reminder_completions := firstDayDb.reminder_completions ++
      [{ id := 2, reminder_id := 2, user_id := 7, log_id := some 2,
         completed_at := some 1793090000, scheduled_time := some 1793088000,
         status := some "missed" }]
    completion_seq := 2 }

/-- The reminder `dailyNine` with `last_triggered` `2026-11-02 06:30:00`: it fired on
Monday 2 November 2026 at 01:30 New York time, the time of day it had before its owner
moved it to 09:00 with `PUT /:id`, which leaves `last_triggered` as it is. -/
def movedNine : Reminder :=
  { dailyNine with last_triggered := some 1793601000 }

/-- A daily reminder at 20:00 for the owner in New York with `last_triggered`
`2026-11-03 01:00:00`: it fired on Monday 2 November 2026 at 20:00 New York time. -/
def eveningDaily : Reminder :=
  { dailyNine with reminder_time := some "20:00", last_triggered := some 1793667600 }

/-- A weekly reminder at 18:30 from Monday to Friday with `last_triggered`
`2026-11-02 23:30:00`: it fired on Monday 2 November 2026 at 18:30 New York time. -/
def weekdaysGym : Reminder :=
  { weeklyMonWedFri with
    weekly_days := some "[1,2,3,4,5]"
    last_triggered := some 1793662200 }

/-- The owner of the sample databases, as `sendWeeklyPerformanceReports` reads the row. -/
def sampleOwner : UserRow where
  id := 7
  name := "Owner"
  email := "owner@example.org"
  timezone := some "America/New_York"

/-- The database `twoDueDb` with two completions of the owner 7, both for occurrences of
Monday 26 October 2026 at 09:00 New York time (13:00:00 UTC): the first reminder was
completed, the second missed. -/
def mondayOnlyDb : Db :=
  { twoDueDb with
    reminder_completions := [
      { id := 1, reminder_id := 1, user_id := 7, log_id := some 1,
        completed_at := some 1793020000, scheduled_time := some 1793019600,
        status := some "completed" },
      { id := 2, reminder_id := 2, user_id := 7, log_id := some 2,
        completed_at := some 1793021460, scheduled_time := some 1793019600,
        status := some "missed" }]
    completion_seq := 2 }

/-! ## Lemmas on the platform -/

theorem hostWall_newDate (rt : Runtime) (wall : Int) : hostWall rt (newDate rt wall) = wall := by
  unfold hostWall newDate
  rw [Int.mul_ediv_cancel _ (by norm_num : (1000 : Int) ≠ 0)]
  omega

theorem getHours_newDate (rt : Runtime) (wall : Int) :
    getHours rt (newDate rt wall) = wallHour wall := by
  unfold getHours; rw [hostWall_newDate]

theorem getMinutes_newDate (rt : Runtime) (wall : Int) :
    getMinutes rt (newDate rt wall) = wallMinute wall := by
  unfold getMinutes; rw [hostWall_newDate]

theorem getDay_newDate (rt : Runtime) (wall : Int) :
    getDay rt (newDate rt wall) = wallWeekday wall := by
  unfold getDay; rw [hostWall_newDate]

theorem toDateString_newDate (rt : Runtime) (wall : Int) :
    toDateString rt (newDate rt wall) = wallDate wall := by
  unfold toDateString; rw [hostWall_newDate]

theorem toLocaleString_of_zone (rt : Runtime) (date : Int) (tz : Option String)
    (offset : Int → Int) (hzone : zoneOf rt tz = some offset) :
    toLocaleString rt date tz = .ok (localWall offset date) := by
  unfold toLocaleString; rw [hzone]

theorem toLocaleString_of_no_zone (rt : Runtime) (date : Int) (tz : Option String)
    (hzone : zoneOf rt tz = none) :
    toLocaleString rt date tz = .error .rangeError := by
  unfold toLocaleString; rw [hzone]

/-- In a process whose zone is UTC, `new Date` reads the stored text of a UTC second as
that second. -/
theorem newDate_utc (rt : Runtime) (hhost : rt.hostOffset = 0) (stored : Int) :
    newDate rt stored = stored * 1000 := by
  unfold newDate; rw [hhost]; simp

/-- The date guard, evaluated: with a valid zone it compares the calendar date of the
instant read from `last_triggered` with the date of the reading `wall`. -/
theorem firedToday_eval (rt : Runtime) (reminder : Reminder) (wall : Int)
    (offset : Int → Int) (hzone : zoneOf rt reminder.timezone = some offset) :
    firedToday rt reminder (newDate rt wall) =
      match reminder.last_triggered with
      | none => .ok false
      | some stored => .ok (decide (localDate offset (newDate rt stored) = wallDate wall)) := by
  unfold firedToday
  cases hl : reminder.last_triggered with
  | none => rfl
  | some stored =>
    simp only [toLocaleString_of_zone rt _ _ offset hzone, toDateString_newDate, localDate]

/-- The evaluator, evaluated: with a valid zone and a stored time whose first two pieces
read as the numbers `hours` and `minutes`. -/
theorem shouldTriggerReminder_eval (rt : Runtime) (reminder : Reminder) (now : Int)
    (offset : Int → Int) (text : String) (hours minutes : Option Int)
    (hzone : zoneOf rt reminder.timezone = some offset)
    (htext : reminder.reminder_time = some text)
    (hh : (((splitColon text).map rt.number).get? 0).join = hours)
    (hm : (((splitColon text).map rt.number).get? 1).join = minutes) :
    shouldTriggerReminder rt reminder now =
      if some (localHour offset now) ≠ hours ∨ some (localMinute offset now) ≠ minutes then
        .ok false
      else
        match weekdayExcluded rt reminder (localWeekday offset now) with
        | .error _ => .ok false
        | .ok true => .ok false
        | .ok false =>
          match firedToday rt reminder (newDate rt (localWall offset now)) with
          | .error _ => .ok false
          | .ok true => .ok false
          | .ok false => .ok true := by
  unfold shouldTriggerReminder shouldTriggerReminderTry
  simp only [toLocaleString_of_zone rt _ _ offset hzone, htext, hh, hm, getHours_newDate,
    getMinutes_newDate, getDay_newDate, localHour, localMinute, localWeekday]
  split_ifs with hc
  · rfl
  · cases weekdayExcluded rt reminder (wallWeekday (localWall offset now)) with
    | error e => rfl
    | ok b =>
      cases b with
      | true => rfl
      | false =>
        cases firedToday rt reminder (newDate rt (localWall offset now)) with
        | error e => rfl
        | ok b => cases b <;> rfl

/-- The evaluator never rejects and never answers anything but a boolean. -/
theorem shouldTriggerReminder_total (rt : Runtime) (reminder : Reminder) (now : Int) :
    ∃ b, shouldTriggerReminder rt reminder now = .ok b := by
  unfold shouldTriggerReminder
  cases shouldTriggerReminderTry rt reminder now with
  | error e => exact ⟨false, rfl⟩
  | ok b => exact ⟨b, rfl⟩

theorem guardPasses_iff (rt : Runtime) (hhost : rt.hostOffset = 0) (offset : Int → Int)
    (reminder : Reminder) (now : Int) :
    guardPasses rt offset reminder now = true ↔ ¬ FiredOnDateOf offset reminder now := by
  unfold guardPasses FiredOnDateOf
  cases hl : reminder.last_triggered with
  | none => simp
  | some stored => simp [newDate_utc rt hhost]

theorem firedToday_guard (rt : Runtime) (reminder : Reminder) (now : Int)
    (offset : Int → Int) (hzone : zoneOf rt reminder.timezone = some offset) :
    firedToday rt reminder (newDate rt (localWall offset now)) =
      .ok (!guardPasses rt offset reminder now) := by
  rw [firedToday_eval rt reminder _ offset hzone]
  unfold guardPasses
  cases reminder.last_triggered with
  | none => rfl
  | some stored => simp [localDate]

theorem parts_hours (parts : List (Option Int)) (h m : Int) (rest : List (Option Int))
    (hparts : parts = some h :: some m :: rest) : (parts.get? 0).join = some h := by
  subst hparts; rfl

theorem parts_minutes (parts : List (Option Int)) (h m : Int) (rest : List (Option Int))
    (hparts : parts = some h :: some m :: rest) : (parts.get? 1).join = some m := by
  subst hparts; rfl

/-- A reminder that is not weekly, evaluated. -/
theorem not_weekly_eval (rt : Runtime) (reminder : Reminder) (now h m : Int)
    (offset : Int → Int) (text : String) (rest : List (Option Int))
    (hkind : reminder.recurrence_type ≠ "weekly")
    (hzone : zoneOf rt reminder.timezone = some offset)
    (htext : reminder.reminder_time = some text)
    (hparts : (splitColon text).map rt.number = some h :: some m :: rest) :
    shouldTriggerReminder rt reminder now =
      .ok (decide (localHour offset now = h ∧ localMinute offset now = m) &&
        guardPasses rt offset reminder now) := by
  rw [shouldTriggerReminder_eval rt reminder now offset text (some h) (some m) hzone htext
    (parts_hours _ h m rest hparts) (parts_minutes _ h m rest hparts),
    firedToday_guard rt reminder now offset hzone]
  unfold weekdayExcluded
  rw [if_neg hkind]
  by_cases hh : localHour offset now = h <;> by_cases hm : localMinute offset now = m <;>
    cases guardPasses rt offset reminder now <;> simp [hh, hm]

theorem any_num_days (days : List Int) (day : Int) :
    ((days.map fun d => Json.num (some d)).any fun x =>
      match x with
      | .num (some n) => decide (n = day)
      | _ => false) = decide (day ∈ days) := by
  induction days with
  | nil => simp
  | cons d ds ih =>
    simp only [List.map_cons, List.any_cons, ih, List.mem_cons]
    by_cases hd : d = day
    · subst hd; simp
    · have hd2 : ¬ day = d := fun h => hd h.symm
      simp [hd, hd2]

/-- The weekday test on an array of integers. -/
theorem includes_days (days : List Int) (day : Int) :
    includes (.arr (days.map fun d => Json.num (some d))) day = .ok (decide (day ∈ days)) := by
  unfold includes
  simp only [any_num_days]

/-- A weekly reminder with an array of integers as its day set, evaluated. -/
theorem weekly_eval (rt : Runtime) (reminder : Reminder) (now h m : Int)
    (offset : Int → Int) (text : String) (rest : List (Option Int)) (days : List Int)
    (hkind : reminder.recurrence_type = "weekly")
    (hzone : zoneOf rt reminder.timezone = some offset)
    (htext : reminder.reminder_time = some text)
    (hparts : (splitColon text).map rt.number = some h :: some m :: rest)
    (hdays : rt.jsonParse (weeklyDaysText reminder) =
      some (.arr (days.map fun d => Json.num (some d)))) :
    shouldTriggerReminder rt reminder now =
      .ok (decide (localHour offset now = h ∧ localMinute offset now = m) &&
        decide (localWeekday offset now ∈ days) && guardPasses rt offset reminder now) := by
  rw [shouldTriggerReminder_eval rt reminder now offset text (some h) (some m) hzone htext
    (parts_hours _ h m rest hparts) (parts_minutes _ h m rest hparts),
    firedToday_guard rt reminder now offset hzone]
  unfold weekdayExcluded
  rw [if_pos hkind, hdays]
  simp only [includes_days]
  by_cases hh : localHour offset now = h <;> by_cases hm : localMinute offset now = m <;>
    by_cases hw : localWeekday offset now ∈ days <;>
    cases guardPasses rt offset reminder now <;> simp [hh, hm, hw]

/-- Whatever the stored time and the kind: a reminder whose date guard holds is not due.
The date of `last_triggered` is that of the instant the process reads from the column. -/
theorem not_due_of_guard (rt : Runtime) (reminder : Reminder) (now stored : Int)
    (hlast : reminder.last_triggered = some stored)
    (hsame : ∀ offset, zoneOf rt reminder.timezone = some offset →
      localDate offset (newDate rt stored) = localDate offset now) :
    shouldTriggerReminder rt reminder now = .ok false := by
  cases hzone : zoneOf rt reminder.timezone with
  | none =>
    unfold shouldTriggerReminder shouldTriggerReminderTry
    rw [toLocaleString_of_no_zone rt _ _ hzone]
  | some offset =>
    cases htext : reminder.reminder_time with
    | none =>
      unfold shouldTriggerReminder shouldTriggerReminderTry
      simp only [toLocaleString_of_zone rt _ _ offset hzone, htext]
    | some text =>
      rw [shouldTriggerReminder_eval rt reminder now offset text _ _ hzone htext rfl rfl,
        firedToday_guard rt reminder now offset hzone]
      have hg : guardPasses rt offset reminder now = false := by
        unfold guardPasses
        rw [hlast]
        simp [hsame offset hzone]
      rw [hg]
      split_ifs
      · rfl
      · cases weekdayExcluded rt reminder (localWeekday offset now) with
        | error e => rfl
        | ok b => cases b <;> rfl

/-! ## Recurrence evaluator: the date guard -/

/-- The date guard in a process whose zone is UTC: when `last_triggered` is set and its
calendar date in the owner's zone equals the calendar date of `now` in that zone, the
evaluator answers `false`, whatever the stored time of day, the recurrence kind and the
weekday set. -/
theorem fired_today_not_due (rt : Runtime) (reminder : Reminder) (now stored : Int)
    (hhost : rt.hostOffset = 0)
    (hlast : reminder.last_triggered = some stored)
    (hsame : ∀ offset, zoneOf rt reminder.timezone = some offset →
      localDate offset (stored * 1000) = localDate offset now) :
    shouldTriggerReminder rt reminder now = .ok false := by
  apply not_due_of_guard rt reminder now stored hlast
  intro offset hzone
  rw [newDate_utc rt hhost]
  exact hsame offset hzone

/-- The date guard in a process whose zone is UTC, worked: `firedNine` fired at 09:00:00 New
York time on 2 November 2026; thirty seconds later, within the matching minute, it is not
due, while the same reminder without `last_triggered` is. -/
theorem fired_today_not_due_witness :
    shouldTriggerReminder sampleRuntime firedNine 1793628030000 = .ok false ∧
    shouldTriggerReminder sampleRuntime dailyNine 1793628030000 = .ok true ∧
    localDate newYork2026 (1793628000 * 1000) = localDate newYork2026 1793628030000 :=
  ⟨fired_today_not_due sampleRuntime firedNine 1793628030000 1793628000 rfl rfl
      (by
        intro offset hzone
        have h : newYork2026 = offset := by
          simpa [zoneOf, sampleRuntime, firedNine, dailyNine] using hzone
        subst h
        decide),
    rfl, by decide⟩

/-- C1, the code at the failing input: the process runs in `Asia/Kolkata`. The daily
reminder `movedNine` of an owner in New York carries `last_triggered`
`2026-11-02 06:30:00`, which is 01:30 on Monday 2 November 2026 in the owner's zone. At
09:00 of the same Monday in that zone `last_triggered` is set and falls on the calendar
date of `now`, yet the evaluator answers `true`: `new Date(reminder.last_triggered)` reads
the text as a reading of the process clock, five and a half hours before the stored
instant, which is still Sunday 1 November in New York. A process in UTC answers `false`. -/
theorem fired_today_due_again :
    movedNine.last_triggered = some 1793601000 ∧
    String.mk (sqliteDatetime 1793601000) = "2026-11-02 06:30:00" ∧
    localDate newYork2026 (1793601000 * 1000) =
      { weekday := 1, month := 11, day := 2, year := 2026 } ∧
    localDate newYork2026 1793628000000 =
      { weekday := 1, month := 11, day := 2, year := 2026 } ∧
    FiredOnDateOf newYork2026 movedNine 1793628000000 ∧
    localDate newYork2026 (newDate kolkataHost 1793601000) =
      { weekday := 0, month := 11, day := 1, year := 2026 } ∧
    shouldTriggerReminder kolkataHost movedNine 1793628000000 = .ok true ∧
    shouldTriggerReminder sampleRuntime movedNine 1793628000000 = .ok false :=
  ⟨rfl, by rfl, by decide, by decide, ⟨1793601000, rfl, by decide⟩, by decide, by rfl, by rfl⟩

/-! ## Recurrence evaluator: daily and weekly reminders -/

/-- Daily reminders in a process whose zone is UTC: for a daily reminder with a valid zone and a
stored time whose pieces read as `h` and `m`: the evaluator answers `true` exactly when
the local hour and minute of `now` are `h` and `m` and the reminder has not fired on the
local calendar date of `now`; otherwise it answers `false`; and the answer does not
depend on the weekday set. -/
theorem daily_due_iff (rt : Runtime) (reminder : Reminder) (now h m : Int)
    (offset : Int → Int) (text : String) (rest : List (Option Int))
    (hhost : rt.hostOffset = 0)
    (hdaily : reminder.recurrence_type = "daily")
    (hzone : zoneOf rt reminder.timezone = some offset)
    (htext : reminder.reminder_time = some text)
    (hparts : (splitColon text).map rt.number = some h :: some m :: rest) :
    (shouldTriggerReminder rt reminder now = .ok true ↔
      localHour offset now = h ∧ localMinute offset now = m ∧
        ¬ FiredOnDateOf offset reminder now) ∧
    (shouldTriggerReminder rt reminder now = .ok false ↔
      ¬ (localHour offset now = h ∧ localMinute offset now = m ∧
        ¬ FiredOnDateOf offset reminder now)) ∧
    (∀ days, shouldTriggerReminder rt { reminder with weekly_days := days } now =
      shouldTriggerReminder rt reminder now) := by
  have hkind : reminder.recurrence_type ≠ "weekly" := by rw [hdaily]; decide
  have hg := guardPasses_iff rt hhost offset reminder now
  have he := not_weekly_eval rt reminder now h m offset text rest hkind hzone htext hparts
  refine ⟨?_, ?_, ?_⟩
  · rw [he, ← hg]
    simp [and_assoc]
  · rw [he, ← hg]
    simp [and_assoc]
  · intro days
    rw [he, not_weekly_eval rt { reminder with weekly_days := days } now h m offset text rest
      hkind hzone htext hparts]
    rfl

/-- Daily reminders in a process whose zone is UTC, worked: the daily reminder at 09:00 in
`America/New_York` that never fired is due at 09:00:00 local time on 2 November 2026 and not
due one second before (08:59:59) nor one minute after (09:01:00). -/
theorem daily_due_iff_witness :
    ((shouldTriggerReminder sampleRuntime dailyNine 1793628000000 = .ok true ↔
      localHour newYork2026 1793628000000 = 9 ∧ localMinute newYork2026 1793628000000 = 0 ∧
        ¬ FiredOnDateOf newYork2026 dailyNine 1793628000000) ∧
    (shouldTriggerReminder sampleRuntime dailyNine 1793628000000 = .ok false ↔
      ¬ (localHour newYork2026 1793628000000 = 9 ∧
        localMinute newYork2026 1793628000000 = 0 ∧
        ¬ FiredOnDateOf newYork2026 dailyNine 1793628000000)) ∧
    (∀ days, shouldTriggerReminder sampleRuntime { dailyNine with weekly_days := days }
        1793628000000 = shouldTriggerReminder sampleRuntime dailyNine 1793628000000)) ∧
    shouldTriggerReminder sampleRuntime dailyNine 1793628000000 = .ok true ∧
    shouldTriggerReminder sampleRuntime dailyNine 1793627999000 = .ok false ∧
    shouldTriggerReminder sampleRuntime dailyNine 1793628060000 = .ok false :=
  ⟨daily_due_iff sampleRuntime dailyNine 1793628000000 9 0 newYork2026 "09:00" []
      rfl rfl rfl rfl rfl, rfl, rfl, rfl⟩

/-- Weekly reminders in a process whose zone is UTC: for a weekly reminder with a valid
zone, a stored time whose pieces read as `h` and `m` and a stored weekday set that parses to
the array of integers `days`: the evaluator answers `true` exactly when the local hour and
minute of `now` are `h` and `m`, the local weekday of `now` (0 is Sunday) is in `days`, and
the reminder has not fired on the local calendar date of `now`; otherwise it answers
`false`. With the set empty, or absent and read as the empty array, it is never due. -/
theorem weekly_due_iff (rt : Runtime) (reminder : Reminder) (now h m : Int)
    (offset : Int → Int) (text : String) (rest : List (Option Int)) (days : List Int)
    (hhost : rt.hostOffset = 0)
    (hweekly : reminder.recurrence_type = "weekly")
    (hzone : zoneOf rt reminder.timezone = some offset)
    (htext : reminder.reminder_time = some text)
    (hparts : (splitColon text).map rt.number = some h :: some m :: rest)
    (hdays : rt.jsonParse (weeklyDaysText reminder) =
      some (.arr (days.map fun d => Json.num (some d)))) :
    (shouldTriggerReminder rt reminder now = .ok true ↔
      localHour offset now = h ∧ localMinute offset now = m ∧
        localWeekday offset now ∈ days ∧ ¬ FiredOnDateOf offset reminder now) ∧
    (shouldTriggerReminder rt reminder now = .ok false ↔
      ¬ (localHour offset now = h ∧ localMinute offset now = m ∧
        localWeekday offset now ∈ days ∧ ¬ FiredOnDateOf offset reminder now)) ∧
    (days = [] → shouldTriggerReminder rt reminder now = .ok false) ∧
    (reminder.weekly_days = none → rt.jsonParse "[]" = some (.arr []) →
      shouldTriggerReminder rt reminder now = .ok false) := by
  have hg := guardPasses_iff rt hhost offset reminder now
  have he := weekly_eval rt reminder now h m offset text rest days hweekly hzone htext
    hparts hdays
  refine ⟨?_, ?_, ?_, ?_⟩
  · rw [he, ← hg]
    simp [and_assoc]
  · rw [he, ← hg]
    simp [and_assoc]
  · intro hnil
    rw [he, hnil]
    simp
  · intro hnone hempty
    have htxt : weeklyDaysText reminder = "[]" := by
      unfold weeklyDaysText; rw [hnone]
    rw [htxt, hempty] at hdays
    have hnil : days = [] := by
      cases days with
      | nil => rfl
      | cons d ds => simp at hdays
    rw [he, hnil]
    simp

/-- Weekly reminders in a process whose zone is UTC, worked: the weekly reminder at 18:30 on
the days {1, 3, 5} is due on Monday 2 November 2026 at 18:30 New York time and not due on
Tuesday 3 November at 18:30. -/
theorem weekly_due_iff_witness :
    ((shouldTriggerReminder sampleRuntime weeklyMonWedFri 1793748600000 = .ok true ↔
      localHour newYork2026 1793748600000 = 18 ∧
        localMinute newYork2026 1793748600000 = 30 ∧
        localWeekday newYork2026 1793748600000 ∈ [1, 3, 5] ∧
        ¬ FiredOnDateOf newYork2026 weeklyMonWedFri 1793748600000) ∧
    (shouldTriggerReminder sampleRuntime weeklyMonWedFri 1793748600000 = .ok false ↔
      ¬ (localHour newYork2026 1793748600000 = 18 ∧
        localMinute newYork2026 1793748600000 = 30 ∧
        localWeekday newYork2026 1793748600000 ∈ [1, 3, 5] ∧
        ¬ FiredOnDateOf newYork2026 weeklyMonWedFri 1793748600000)) ∧
    (([1, 3, 5] : List Int) = [] →
      shouldTriggerReminder sampleRuntime weeklyMonWedFri 1793748600000 = .ok false) ∧
    (weeklyMonWedFri.weekly_days = none →
      sampleRuntime.jsonParse "[]" = some (.arr []) →
      shouldTriggerReminder sampleRuntime weeklyMonWedFri 1793748600000 = .ok false)) ∧
    localWeekday newYork2026 1793662200000 = 1 ∧
    shouldTriggerReminder sampleRuntime weeklyMonWedFri 1793662200000 = .ok true ∧
    localWeekday newYork2026 1793748600000 = 2 ∧
    localHour newYork2026 1793748600000 = 18 ∧
    localMinute newYork2026 1793748600000 = 30 ∧
    shouldTriggerReminder sampleRuntime weeklyMonWedFri 1793748600000 = .ok false :=
  ⟨weekly_due_iff sampleRuntime weeklyMonWedFri 1793748600000 18 30 newYork2026 "18:30" []
      [1, 3, 5] rfl rfl rfl rfl rfl rfl, by decide, rfl, by decide, by decide, by decide, rfl⟩

/-- C2, the code at the failing input: the process runs in `America/Phoenix`. The daily
reminder `eveningDaily` at 20:00 of an owner in New York carries `last_triggered`
`2026-11-03 01:00:00`: it fired on Monday 2 November 2026 at 20:00 in the owner's zone. On
Tuesday 3 November at 20:00 in that zone the hour and the minute match and the reminder
has not fired on that date, yet the evaluator answers `false`: the process reads the text
as a reading of its own clock, seven hours after the stored instant, which is Tuesday
03:00 in New York. A process in UTC answers `true`. -/
theorem daily_skipped_next_day :
    eveningDaily.recurrence_type = "daily" ∧
    eveningDaily.reminder_time = some "20:00" ∧
    String.mk (sqliteDatetime 1793667600) = "2026-11-03 01:00:00" ∧
    localHour newYork2026 1793754000000 = 20 ∧
    localMinute newYork2026 1793754000000 = 0 ∧
    localDate newYork2026 (1793667600 * 1000) =
      { weekday := 1, month := 11, day := 2, year := 2026 } ∧
    localDate newYork2026 1793754000000 =
      { weekday := 2, month := 11, day := 3, year := 2026 } ∧
    ¬ FiredOnDateOf newYork2026 eveningDaily 1793754000000 ∧
    localDate newYork2026 (newDate phoenixHost 1793667600) =
      { weekday := 2, month := 11, day := 3, year := 2026 } ∧
    shouldTriggerReminder phoenixHost eveningDaily 1793754000000 = .ok false ∧
    shouldTriggerReminder sampleRuntime eveningDaily 1793754000000 = .ok true := by
  refine ⟨rfl, rfl, by rfl, by decide, by decide, by decide, by decide, ?_, by decide, by rfl,
    by rfl⟩
  rintro ⟨stored, hstored, hdate⟩
  have hs : stored = 1793667600 := (Option.some.inj hstored).symm
  subst hs
  revert hdate
  decide

/-- C3, the code at the failing input: the process runs in `America/Phoenix`. The weekly
reminder `weekdaysGym` at 18:30 from Monday to Friday of an owner in New York carries
`last_triggered` `2026-11-02 23:30:00`: it fired on Monday 2 November 2026 at 18:30 in the
owner's zone. On Tuesday 3 November at 18:30 in that zone the hour and the minute match,
the weekday 2 is in the set and the reminder has not fired on that date, yet the evaluator
answers `false`: the process reads the text as a reading of its own clock, seven hours
after the stored instant, which is Tuesday 01:30 in New York. A process in UTC answers
`true`. -/
theorem weekly_skipped_next_day :
    weekdaysGym.recurrence_type = "weekly" ∧
    weekdaysGym.reminder_time = some "18:30" ∧
    weekdaysGym.weekly_days = some "[1,2,3,4,5]" ∧
    String.mk (sqliteDatetime 1793662200) = "2026-11-02 23:30:00" ∧
    localHour newYork2026 1793748600000 = 18 ∧
    localMinute newYork2026 1793748600000 = 30 ∧
    localWeekday newYork2026 1793748600000 = 2 ∧
    localDate newYork2026 (1793662200 * 1000) =
      { weekday := 1, month := 11, day := 2, year := 2026 } ∧
    localDate newYork2026 1793748600000 =
      { weekday := 2, month := 11, day := 3, year := 2026 } ∧
    ¬ FiredOnDateOf newYork2026 weekdaysGym 1793748600000 ∧
    localDate newYork2026 (newDate phoenixHost 1793662200) =
      { weekday := 2, month := 11, day := 3, year := 2026 } ∧
    shouldTriggerReminder phoenixHost weekdaysGym 1793748600000 = .ok false ∧
    shouldTriggerReminder sampleRuntime weekdaysGym 1793748600000 = .ok true := by
  refine ⟨rfl, rfl, rfl, by rfl, by decide, by decide, by decide, by decide, by decide, ?_,
    by decide, by rfl, by rfl⟩
  rintro ⟨stored, hstored, hdate⟩
  have hs : stored = 1793662200 := (Option.some.inj hstored).symm
  subst hs
  revert hdate
  decide

/-! ## Recurrence evaluator: invalid data -/

/-- C5. The evaluator fails closed: for a reminder whose zone `Intl` rejects (or whose
zone column is `NULL`), or that is weekly with a weekday text that `JSON.parse` rejects or
that parses to a value without an `includes` method, or whose stored time is `NULL` or
the empty text, it answers `false` at every instant; the promise is fulfilled, no error
reaches the scan loop. -/
theorem fails_closed (rt : Runtime) (reminder : Reminder) (now : Int)
    (hbad : zoneOf rt reminder.timezone = none ∨
      (reminder.recurrence_type = "weekly" ∧
        (rt.jsonParse (weeklyDaysText reminder) = none ∨
          ∃ v, rt.jsonParse (weeklyDaysText reminder) = some v ∧
            (∀ xs, v ≠ .arr xs) ∧ (∀ t, v ≠ .str t))) ∨
      reminder.reminder_time = none ∨ reminder.reminder_time = some "") :
    shouldTriggerReminder rt reminder now = .ok false := by
  cases hzone : zoneOf rt reminder.timezone with
  | none =>
    unfold shouldTriggerReminder shouldTriggerReminderTry
    rw [toLocaleString_of_no_zone rt _ _ hzone]
  | some offset =>
    cases htext : reminder.reminder_time with
    | none =>
      unfold shouldTriggerReminder shouldTriggerReminderTry
      simp only [toLocaleString_of_zone rt _ _ offset hzone, htext]
    | some text =>
      rw [shouldTriggerReminder_eval rt reminder now offset text _ _ hzone htext rfl rfl]
      rcases hbad with hz | ⟨hweekly, hparse⟩ | ht | ht
      · rw [hzone] at hz; cases hz
      · have hex : ∀ day, ∃ e, weekdayExcluded rt reminder day = .error e := by
          intro day
          unfold weekdayExcluded
          rw [if_pos hweekly]
          rcases hparse with hnone | ⟨v, hv, harr, hstr⟩
          · rw [hnone]; exact ⟨_, rfl⟩
          · rw [hv]
            cases v with
            | arr xs => exact absurd rfl (harr xs)
            | str t => exact absurd rfl (hstr t)
            | null => exact ⟨_, rfl⟩
            | bool b => exact ⟨_, rfl⟩
            | num n => exact ⟨_, rfl⟩
            | obj fields => exact ⟨_, rfl⟩
        obtain ⟨e, he⟩ := hex (localWeekday offset now)
        rw [he]
        split_ifs <;> rfl
      · rw [htext] at ht; cases ht
      · rw [htext] at ht
        have hempty : text = "" := (Option.some.inj ht)
        subst hempty
        have hm : (((splitColon "").map rt.number).get? 1).join = none := rfl
        rw [hm]
        simp

/-- C5, worked: the daily reminder at 09:00 whose owner has an unknown zone name is not
due at 14:00 UTC nor at 09:00 UTC. -/
theorem fails_closed_witness :
    shouldTriggerReminder sampleRuntime badZoneNine 1793628000000 = .ok false ∧
    shouldTriggerReminder sampleRuntime badZoneNine 1793610000000 = .ok false :=
  ⟨fails_closed sampleRuntime badZoneNine 1793628000000 (Or.inl rfl),
   fails_closed sampleRuntime badZoneNine 1793610000000 (Or.inl rfl)⟩

/-! ## Trigger dispatcher and the date guard -/

/-- After a successful dispatch every row the scan reads for the dispatched reminder
carries the dispatch second in `last_triggered`. -/
theorem last_triggered_after_dispatch (db : Db) (reminder reread : Reminder) (t : Int)
    (o : DispatchOutcome)
    (hemail : o.emailOk = true) (hupdate : o.updateOk = true)
    (hinsert : o.insertSentOk = true)
    (hreread : reread ∈ activeReminders (triggerReminder db t o reminder).db)
    (hid : reread.id = reminder.id) :
    reread.last_triggered = some (currentTimestamp t) := by
  unfold triggerReminder at hreread
  simp only [hemail, hupdate, hinsert, Bool.not_true, Bool.false_eq_true, if_false] at hreread
  unfold activeReminders insertLog updateLastTriggered at hreread
  simp only [List.mem_flatMap, List.mem_filter, List.mem_map, decide_eq_true_eq] at hreread
  obtain ⟨r, ⟨⟨r0, _, hr0⟩, _⟩, u, _, hjoin⟩ := hreread
  subst hjoin
  have hrid : r.id = reminder.id := hid
  by_cases hc : r0.id = reminder.id
  · rw [if_pos hc] at hr0
    subst hr0
    rfl
  · rw [if_neg hc] at hr0
    subst hr0
    exact absurd hrid hc

theorem localDate_currentTimestamp (offset : Int → Int) (t : Int) :
    localDate offset (currentTimestamp t * 1000) = localDate offset t := by
  unfold localDate localWall currentTimestamp
  rw [Int.mul_ediv_cancel _ (by norm_num : (1000 : Int) ≠ 0)]

/-- One firing per date in a process whose zone is UTC: after `triggerReminder` has succeeded at the
instant `t` (the delivery and both statements succeed), the evaluator answers `false` for
the reminder as the scan reads it back, at every instant `t2` whose calendar date in the
owner's zone is that of `t`. -/
theorem fires_once_per_date (rt : Runtime) (db : Db) (reminder reread : Reminder)
    (t t2 : Int) (o : DispatchOutcome)
    (hhost : rt.hostOffset = 0)
    (hemail : o.emailOk = true) (hupdate : o.updateOk = true)
    (hinsert : o.insertSentOk = true)
    (hreread : reread ∈ activeReminders (triggerReminder db t o reminder).db)
    (hid : reread.id = reminder.id)
    (hdate : ∀ offset, zoneOf rt reread.timezone = some offset →
      localDate offset t2 = localDate offset t) :
    shouldTriggerReminder rt reread t2 = .ok false := by
  apply not_due_of_guard rt reread t2 (currentTimestamp t)
    (last_triggered_after_dispatch db reminder reread t o hemail hupdate hinsert hreread hid)
  intro offset hzone
  rw [newDate_utc rt hhost, localDate_currentTimestamp, hdate offset hzone]

/-- One firing per date in a process whose zone is UTC, worked: the reminder at 01:30 New
York time is dispatched on 1 November 2026 at
01:30:00.123 daylight time (05:30 UTC). One hour later the clocks have gone back and
show 01:30 again on the same date: the row read back is not due, although the row as it
was before the dispatch would be. -/
theorem fires_once_per_date_witness :
    (∀ reread ∈ activeReminders (triggerReminder sampleDb 1793511000123 allSucceed
        nightCheck).db,
      reread.id = nightCheck.id →
        shouldTriggerReminder sampleRuntime reread 1793514600000 = .ok false) ∧
    nightCheck ∈ activeReminders sampleDb ∧
    { nightCheck with last_triggered := some 1793511000 } ∈
      activeReminders (triggerReminder sampleDb 1793511000123 allSucceed nightCheck).db ∧
    shouldTriggerReminder sampleRuntime nightCheck 1793514600000 = .ok true ∧
    localHour newYork2026 1793511000123 = 1 ∧ localMinute newYork2026 1793511000123 = 30 ∧
    localHour newYork2026 1793514600000 = 1 ∧ localMinute newYork2026 1793514600000 = 30 :=
  ⟨fun reread hreread hid =>
      fires_once_per_date sampleRuntime sampleDb nightCheck reread 1793511000123
        1793514600000 allSucceed rfl rfl rfl rfl hreread hid
        (by
          intro offset hzone
          have hmem := hreread
          simp only [triggerReminder, allSucceed, activeReminders, sampleDb, insertLog,
            updateLastTriggered] at hmem
          simp only [joinRow, List.filter_cons, List.filter_nil, List.map_cons, List.map_nil,
            List.mem_flatMap, List.mem_map] at hmem
          obtain ⟨a, _, u, hu, hjoin⟩ := hmem
          have hu2 : u.timezone = some "America/New_York" := by
            simp at hu
            rw [hu.1]
          subst hjoin
          have h : newYork2026 = offset := by
            simpa [zoneOf, sampleRuntime, hu2] using hzone
          subst h
          decide),
    by simp [activeReminders, sampleDb, joinRow, nightCheck],
    by simp [activeReminders, sampleDb, joinRow, nightCheck, triggerReminder, allSucceed,
      insertLog, updateLastTriggered, currentTimestamp],
    rfl, by decide, by decide, by decide, by decide⟩

/-- C4, the code at the failing input: the process runs in `Asia/Kolkata`. The reminder
of `sampleDb`, daily at 01:30 for an owner in New York, is dispatched with success on
1 November 2026 at 01:30 daylight time (05:30:00 UTC), so `last_triggered` holds the text
`2026-11-01 05:30:00`. One hour later the clocks have gone back and show 01:30 again on
the same date. The row read back is due: the process reads the text as a reading of its
own clock, which is 20:00 of 31 October in New York, and the scan dispatches the reminder
a second time on the same local date. A process in UTC dispatches it once. -/
theorem doubled_hour_fires_twice :
    ((activeReminders (triggerReminder sampleDb 1793511000123 allSucceed nightCheck).db).map
      fun r => (r.id, r.last_triggered)) = [(3, some 1793511000)] ∧
    String.mk (sqliteDatetime 1793511000) = "2026-11-01 05:30:00" ∧
    localDate newYork2026 1793511000123 =
      { weekday := 0, month := 11, day := 1, year := 2026 } ∧
    localDate newYork2026 1793514600000 =
      { weekday := 0, month := 11, day := 1, year := 2026 } ∧
    localDate newYork2026 (newDate kolkataHost 1793511000) =
      { weekday := 6, month := 10, day := 31, year := 2026 } ∧
    (∀ reread ∈ activeReminders (triggerReminder sampleDb 1793511000123 allSucceed
        nightCheck).db,
      shouldTriggerReminder kolkataHost reread 1793514600000 = .ok true) ∧
    ((checkAndTriggerReminders kolkataHost
        (checkAndTriggerReminders kolkataHost sampleDb 1793511000000 1793511000123 true
          healthyPlan).db
        1793514600000 1793514600200 true healthyPlan).db.reminder_logs.map
      fun l => (l.id, l.reminder_id, l.triggered_at, l.status)) =
      [(1, 3, some 1793511000, some "sent"), (2, 3, some 1793514600, some "sent")] ∧
    ((checkAndTriggerReminders sampleRuntime
        (checkAndTriggerReminders sampleRuntime sampleDb 1793511000000 1793511000123 true
          healthyPlan).db
        1793514600000 1793514600200 true healthyPlan).db.reminder_logs.map
      fun l => (l.id, l.reminder_id, l.triggered_at, l.status)) =
      [(1, 3, some 1793511000, some "sent")] := by
  refine ⟨by rfl, by rfl, by decide, by decide, by decide, ?_, by rfl, by rfl⟩
  intro reread hreread
  have hrows : activeReminders (triggerReminder sampleDb 1793511000123 allSucceed
      nightCheck).db = [{ nightCheck with last_triggered := some 1793511000 }] := by rfl
  rw [hrows, List.mem_singleton] at hreread
  subst hreread
  rfl

/-! ## Streak ledger -/

/-- The row the `UPDATE` of a completion leaves. -/
theorem getStreak_updateStreakCompleted (db : Db) (t newStreak longestStreak id : Int)
    (userId reminderId : Int) :
    getStreak (updateStreakCompleted db t newStreak longestStreak id) userId reminderId =
      (getStreak db userId reminderId).map fun s =>
        if s.id = id then
          { s with current_streak := some newStreak, longest_streak := some longestStreak,
                   last_completed := some (currentTimestamp t),
                   last_updated := some (currentTimestamp t) }
        else s := by
  unfold getStreak updateStreakCompleted
  rw [List.find?_map]
  congr 2
  funext s
  by_cases h : s.id = id <;> simp [h]

/-- The row the `UPDATE` of a miss leaves. -/
theorem getStreak_updateStreakMissed (db : Db) (t id : Int) (userId reminderId : Int) :
    getStreak (updateStreakMissed db t id) userId reminderId =
      (getStreak db userId reminderId).map fun s =>
        if s.id = id then
          { s with current_streak := some 0, last_updated := some (currentTimestamp t) }
        else s := by
  unfold getStreak updateStreakMissed
  rw [List.find?_map]
  congr 2
  funext s
  by_cases h : s.id = id <;> simp [h]

/-- The ledger on a pair that has a row. -/
theorem updateStreak_of_row (db : Db) (t reminderId userId : Int) (completed : Bool)
    (streak : StreakRow)
    (hreminder : (getReminder db reminderId).isSome)
    (hstreak : getStreak db userId reminderId = some streak) :
    updateStreak db t reminderId userId completed = applyStreakEvent db t streak completed := by
  unfold updateStreak
  obtain ⟨r, hr⟩ := Option.isSome_iff_exists.mp hreminder
  rw [hr, hstreak]

theorem getReminder_applyStreakEvent (db : Db) (t : Int) (streak : StreakRow)
    (completed : Bool) (reminderId : Int) :
    getReminder (applyStreakEvent db t streak completed) reminderId =
      getReminder db reminderId := by
  unfold applyStreakEvent
  cases completed <;> rfl

/-- The row of the pair after a completion. -/
theorem getStreak_after_completion (db : Db) (t reminderId userId : Int) (streak : StreakRow)
    (hreminder : (getReminder db reminderId).isSome)
    (hstreak : getStreak db userId reminderId = some streak) :
    getStreak (updateStreak db t reminderId userId true) userId reminderId =
      some { streak with
        current_streak := some (streak.current + 1)
        longest_streak := some (max streak.longest (streak.current + 1))
        last_completed := some (currentTimestamp t)
        last_updated := some (currentTimestamp t) } := by
  rw [updateStreak_of_row db t reminderId userId true streak hreminder hstreak]
  unfold applyStreakEvent
  simp only [if_true, getStreak_updateStreakCompleted, hstreak, Option.map_some']
  rw [max_comm]

/-- The row of the pair after a miss. -/
theorem getStreak_after_miss (db : Db) (t reminderId userId : Int) (streak : StreakRow)
    (hreminder : (getReminder db reminderId).isSome)
    (hstreak : getStreak db userId reminderId = some streak) :
    getStreak (updateStreak db t reminderId userId false) userId reminderId =
      some { streak with
        current_streak := some 0
        last_updated := some (currentTimestamp t) } := by
  rw [updateStreak_of_row db t reminderId userId false streak hreminder hstreak]
  unfold applyStreakEvent
  simp only [Bool.false_eq_true, if_false, getStreak_updateStreakMissed, hstreak,
    Option.map_some', if_true]

/-- The ledger leaves the table of reminders as it is. -/
theorem getReminder_updateStreak (db : Db) (t reminderId userId : Int) (completed : Bool)
    (otherId : Int) :
    getReminder (updateStreak db t reminderId userId completed) otherId =
      getReminder db otherId := by
  unfold updateStreak
  cases getReminder db reminderId with
  | none => rfl
  | some r =>
    simp only
    cases getStreak db userId reminderId with
    | some streak => exact getReminder_applyStreakEvent db t streak completed otherId
    | none =>
      simp only
      cases getStreak (insertStreak db t userId reminderId) userId reminderId with
      | some streak =>
        exact getReminder_applyStreakEvent (insertStreak db t userId reminderId) t streak
          completed otherId
      | none => rfl

/-- C6. For a reminder that exists and a pair whose row reads current `c` and longest
`l`, `updateStreak` with `completed = true` leaves the row with current `c + 1` and
longest `max l (c + 1)`, stamps `last_completed` and `last_updated`, and keeps the other
columns. -/
theorem completion_increments (db : Db) (t reminderId userId : Int) (streak : StreakRow)
    (hreminder : (getReminder db reminderId).isSome)
    (hstreak : getStreak db userId reminderId = some streak) :
    getStreak (updateStreak db t reminderId userId true) userId reminderId =
      some { streak with
        current_streak := some (streak.current + 1)
        longest_streak := some (max streak.longest (streak.current + 1))
        last_completed := some (currentTimestamp t)
        last_updated := some (currentTimestamp t) } :=
  getStreak_after_completion db t reminderId userId streak hreminder hstreak

/-- C6, worked: the row (current 4, longest 6) becomes (5, 6); a row (current 6,
longest 6) would become (7, 7). -/
theorem completion_increments_witness :
    getStreak (updateStreak sampleDb 1793511000123 3 7 true) 7 3 =
      some { id := 1, user_id := 7, reminder_id := 3, current_streak := some 5,
             longest_streak := some 6, last_completed := some 1793511000,
             last_updated := some 1793511000 } :=
  completion_increments sampleDb 1793511000123 3 7 _ rfl rfl

/-- C7. For a reminder that exists and a pair that has a row, in a table whose ids are
unique: `updateStreak` with `completed = false` sets current to 0, leaves longest and
`last_completed` as they were, and the row of every other pair is what it was. -/
theorem miss_resets_current (db : Db) (t reminderId userId : Int) (streak : StreakRow)
    (hkey : StreakIdsUnique db)
    (hreminder : (getReminder db reminderId).isSome)
    (hstreak : getStreak db userId reminderId = some streak) :
    getStreak (updateStreak db t reminderId userId false) userId reminderId =
      some { streak with
        current_streak := some 0
        last_updated := some (currentTimestamp t) } ∧
    ∀ otherUser otherReminder, (otherUser ≠ userId ∨ otherReminder ≠ reminderId) →
      getStreak (updateStreak db t reminderId userId false) otherUser otherReminder =
        getStreak db otherUser otherReminder := by
  rw [updateStreak_of_row db t reminderId userId false streak hreminder hstreak]
  unfold applyStreakEvent
  simp only [Bool.false_eq_true, if_false, getStreak_updateStreakMissed]
  refine ⟨by rw [hstreak]; simp, ?_⟩
  intro otherUser otherReminder hother
  cases hrow : getStreak db otherUser otherReminder with
  | none => rfl
  | some row =>
    have hmem : row ∈ db.user_streaks := List.mem_of_find?_eq_some hrow
    have hmem2 : streak ∈ db.user_streaks := List.mem_of_find?_eq_some hstreak
    have hp := List.find?_some hrow
    have hp2 := List.find?_some hstreak
    simp only [decide_eq_true_eq] at hp hp2
    have hne : row ≠ streak := by
      intro heq
      subst heq
      rcases hother with h | h
      · exact h (hp.1.symm.trans hp2.1)
      · exact h (hp.2.symm.trans hp2.2)
    have hid : row.id ≠ streak.id :=
      List.Pairwise.forall (fun _ _ h => fun h2 => h h2.symm) hkey hmem hmem2 hne
    simp [hid]

/-- C7, worked: a miss on the row (current 4, longest 6) gives (0, 6) with
`last_completed` kept; the row of the other reminder stays (2, 3). -/
theorem miss_resets_current_witness :
    getStreak (updateStreak sampleDb 1793511000123 3 7 false) 7 3 =
      some { id := 1, user_id := 7, reminder_id := 3, current_streak := some 0,
             longest_streak := some 6, last_completed := some 1793500000,
             last_updated := some 1793511000 } ∧
    getStreak (updateStreak sampleDb 1793511000123 3 7 false) 7 9 = getStreak sampleDb 7 9 :=
  have h := miss_resets_current sampleDb 1793511000123 3 7 _
    (by unfold StreakIdsUnique; decide) rfl rfl
  ⟨h.1, h.2 7 9 (Or.inr (by decide))⟩

/-- C8. A completion at `t1` followed by a miss at `t2`, on a row that reads current `c`
and longest `l`, leaves current 0 and longest `max l (c + 1)`. -/
theorem completion_then_miss (db : Db) (t1 t2 reminderId userId : Int) (streak : StreakRow)
    (hreminder : (getReminder db reminderId).isSome)
    (hstreak : getStreak db userId reminderId = some streak) :
    getStreak (updateStreak (updateStreak db t1 reminderId userId true) t2 reminderId userId
        false) userId reminderId =
      some { streak with
        current_streak := some 0
        longest_streak := some (max streak.longest (streak.current + 1))
        last_completed := some (currentTimestamp t1)
        last_updated := some (currentTimestamp t2) } := by
  have h1 := getStreak_after_completion db t1 reminderId userId streak hreminder hstreak
  have hr : (getReminder (updateStreak db t1 reminderId userId true) reminderId).isSome := by
    rw [getReminder_updateStreak]
    exact hreminder
  rw [getStreak_after_miss _ t2 reminderId userId _ hr h1]

/-- C8, worked: from (current 4, longest 6) the completion gives (5, 6) and the miss that
follows gives (0, 6). -/
theorem completion_then_miss_witness :
    getStreak (updateStreak sampleDb 1793511000123 3 7 true) 7 3 =
      some { id := 1, user_id := 7, reminder_id := 3, current_streak := some 5,
             longest_streak := some 6, last_completed := some 1793511000,
             last_updated := some 1793511000 } ∧
    getStreak (updateStreak (updateStreak sampleDb 1793511000123 3 7 true) 1793513000456 3 7
        false) 7 3 =
      some { id := 1, user_id := 7, reminder_id := 3, current_streak := some 0,
             longest_streak := some 6, last_completed := some 1793511000,
             last_updated := some 1793513000 } :=
  ⟨rfl, completion_then_miss sampleDb 1793511000123 1793513000456 3 7 _ rfl rfl⟩

/-- C9. For a reminder that exists, a pair that has a row and either value of
`completed`: the longest streak after `updateStreak` is at least the longest streak
before, and when current and longest were at least 0 they still are. -/
theorem longest_monotone (db : Db) (t reminderId userId : Int) (completed : Bool)
    (streak : StreakRow)
    (hreminder : (getReminder db reminderId).isSome)
    (hstreak : getStreak db userId reminderId = some streak) :
    ∃ after, getStreak (updateStreak db t reminderId userId completed) userId reminderId =
        some after ∧
      streak.longest ≤ after.longest ∧
      (0 ≤ streak.current → 0 ≤ streak.longest → 0 ≤ after.current ∧ 0 ≤ after.longest) := by
  cases completed with
  | true =>
    refine ⟨_, getStreak_after_completion db t reminderId userId streak hreminder hstreak,
      ?_, ?_⟩
    · simp [StreakRow.longest]
    · intro hc hl
      simp only [StreakRow.longest, StreakRow.current, Option.getD_some] at hc hl ⊢
      exact ⟨by omega, le_max_of_le_left hl⟩
  | false =>
    refine ⟨_, getStreak_after_miss db t reminderId userId streak hreminder hstreak, ?_, ?_⟩
    · simp [StreakRow.longest]
    · intro _ hl
      exact ⟨by simp [StreakRow.current], hl⟩

/-- C9, worked: on the row (current 4, longest 6) a completion leaves longest 6 and a miss
leaves longest 6, both at least the 6 before. -/
theorem longest_monotone_witness :
    (∃ after, getStreak (updateStreak sampleDb 1793511000123 3 7 true) 7 3 = some after ∧
      (6 : Int) ≤ after.longest ∧
      ((0 : Int) ≤ 4 → (0 : Int) ≤ 6 → 0 ≤ after.current ∧ 0 ≤ after.longest)) ∧
    (∃ after, getStreak (updateStreak sampleDb 1793511000123 3 7 false) 7 3 = some after ∧
      (6 : Int) ≤ after.longest ∧
      ((0 : Int) ≤ 4 → (0 : Int) ≤ 6 → 0 ≤ after.current ∧ 0 ≤ after.longest)) :=
  ⟨longest_monotone sampleDb 1793511000123 3 7 true _ rfl rfl,
   longest_monotone sampleDb 1793511000123 3 7 false _ rfl rfl⟩

theorem le_foldl_max (ids : List Int) (seq : Int) :
    seq ≤ ids.foldl max seq ∧ ∀ x ∈ ids, x ≤ ids.foldl max seq := by
  induction ids generalizing seq with
  | nil => simp
  | cons a as ih =>
    simp only [List.foldl_cons, List.mem_cons]
    obtain ⟨h1, h2⟩ := ih (max seq a)
    refine ⟨le_trans (le_max_left _ _) h1, ?_⟩
    intro x hx
    rcases hx with hx | hx
    · subst hx; exact le_trans (le_max_right _ _) h1
    · exact h2 x hx

/-- The id `AUTOINCREMENT` hands out is not in the table. -/
theorem nextId_fresh (seq : Int) (ids : List Int) (x : Int) (hx : x ∈ ids) :
    x ≠ nextId seq ids := by
  have h := (le_foldl_max ids seq).2 x hx
  unfold nextId
  omega

theorem map_eq_self {α : Type} (f : α → α) (l : List α) (h : ∀ x ∈ l, f x = x) :
    l.map f = l := by
  induction l with
  | nil => rfl
  | cons a as ih =>
    simp only [List.map_cons]
    rw [h a (List.mem_cons_self _ _), ih fun x hx => h x (List.mem_cons_of_mem _ hx)]

/-- The table of streaks after the ledger ran for a pair without a row. -/
theorem updateStreak_of_no_row (db : Db) (t reminderId userId : Int) (completed : Bool)
    (hreminder : (getReminder db reminderId).isSome)
    (hnone : getStreak db userId reminderId = none) :
    (updateStreak db t reminderId userId completed).user_streaks =
      db.user_streaks ++
        [{ id := nextId db.streak_seq (db.user_streaks.map fun s => s.id)
           user_id := userId
           reminder_id := reminderId
           current_streak := some (if completed then 1 else 0)
           longest_streak := some (if completed then 1 else 0)
           last_completed := if completed then some (currentTimestamp t) else none
           last_updated := some (currentTimestamp t) }] := by
  have hfresh : ∀ s ∈ db.user_streaks,
      s.id ≠ nextId db.streak_seq (db.user_streaks.map fun s => s.id) := fun s hs =>
    nextId_fresh _ _ s.id (List.mem_map_of_mem _ hs)
  obtain ⟨r, hr⟩ := Option.isSome_iff_exists.mp hreminder
  unfold updateStreak
  rw [hr, hnone]
  have hnew : getStreak (insertStreak db t userId reminderId) userId reminderId =
      some { id := nextId db.streak_seq (db.user_streaks.map fun s => s.id)
             user_id := userId, reminder_id := reminderId
             current_streak := some 0, longest_streak := some 0
             last_completed := none, last_updated := some (currentTimestamp t) } := by
    unfold getStreak at hnone ⊢
    unfold insertStreak
    simp only [List.find?_append, hnone, Option.none_or]
    simp [List.find?]
  simp only [hnew]
  unfold applyStreakEvent
  cases completed with
  | true =>
    simp only [if_true, updateStreakCompleted, insertStreak, List.map_append, List.map_cons,
      List.map_nil, StreakRow.current, StreakRow.longest, Option.getD_some]
    rw [map_eq_self _ _ fun s hs => by rw [if_neg (hfresh s hs)]]
    simp
  | false =>
    simp only [Bool.false_eq_true, if_false, updateStreakMissed, insertStreak,
      List.map_append, List.map_cons, List.map_nil]
    rw [map_eq_self _ _ fun s hs => by rw [if_neg (hfresh s hs)]]
    simp

/-- C10. For a reminder that exists and a pair without a row, `updateStreak` appends one
row for the pair, created with current 0 and longest 0, and applies the event to it: the
row reads (1, 1) after a completion and (0, 0) after a miss; the rows that were there are
untouched and the pair has exactly one row. -/
theorem lazy_creation (db : Db) (t reminderId userId : Int) (completed : Bool)
    (hreminder : (getReminder db reminderId).isSome)
    (hnone : getStreak db userId reminderId = none) :
    (updateStreak db t reminderId userId completed).user_streaks =
      db.user_streaks ++
        [{ id := nextId db.streak_seq (db.user_streaks.map fun s => s.id)
           user_id := userId
           reminder_id := reminderId
           current_streak := some (if completed then 1 else 0)
           longest_streak := some (if completed then 1 else 0)
           last_completed := if completed then some (currentTimestamp t) else none
           last_updated := some (currentTimestamp t) }] ∧
    ((updateStreak db t reminderId userId completed).user_streaks.filter fun s =>
      decide (s.user_id = userId ∧ s.reminder_id = reminderId)).length = 1 := by
  have hold : ∀ s ∈ db.user_streaks,
      ¬ (s.user_id = userId ∧ s.reminder_id = reminderId) := by
    intro s hs
    have h := List.find?_eq_none.mp hnone s hs
    simpa using h
  have hrows := updateStreak_of_no_row db t reminderId userId completed hreminder hnone
  refine ⟨hrows, ?_⟩
  rw [hrows, List.filter_append]
  have hnil : (db.user_streaks.filter fun s =>
      decide (s.user_id = userId ∧ s.reminder_id = reminderId)) = [] := by
    rw [List.filter_eq_nil_iff]
    intro s hs
    simpa using hold s hs
  rw [hnil]
  simp

/-- C10, worked: the owner 8 has no row for reminder 3; a completion appends the row
(current 1, longest 1) with the next id 3, a miss appends (0, 0). -/
theorem lazy_creation_witness :
    ((updateStreak sampleDb 1793511000123 3 8 true).user_streaks =
      sampleDb.user_streaks ++
        [{ id := 3, user_id := 8, reminder_id := 3, current_streak := some 1,
           longest_streak := some 1, last_completed := some 1793511000,
           last_updated := some 1793511000 }] ∧
    ((updateStreak sampleDb 1793511000123 3 8 true).user_streaks.filter fun s =>
      decide (s.user_id = 8 ∧ s.reminder_id = 3)).length = 1) ∧
    getStreak (updateStreak sampleDb 1793511000123 3 8 false) 8 3 =
      some { id := 3, user_id := 8, reminder_id := 3, current_streak := some 0,
             longest_streak := some 0, last_completed := none,
             last_updated := some 1793511000 } :=
  ⟨lazy_creation sampleDb 1793511000123 3 8 true rfl rfl, rfl⟩

/-! ## Trigger dispatcher: log rows and `last_triggered` -/

/-- The log row a dispatch of `reminder` writes at the instant `t` into `db`. -/
theorem triggerReminder_store_ok (db : Db) (t : Int) (o : DispatchOutcome)
    (reminder : Reminder)
    (hupdate : o.updateOk = true) (hsent : o.insertSentOk = true)
    (hfailed : o.insertFailedOk = true) :
    (triggerReminder db t o reminder).fulfilled = true ∧
    (triggerReminder db t o reminder).db.reminder_logs =
      db.reminder_logs ++
        [{ id := nextId db.log_seq (db.reminder_logs.map fun l => l.id)
           reminder_id := reminder.id
           user_id := reminder.user_id
           triggered_at := some (currentTimestamp t)
           status := some (if o.emailOk then "sent" else "failed") }] := by
  unfold triggerReminder triggerReminderCatch
  cases hemail : o.emailOk <;>
    simp [hupdate, hsent, hfailed, insertLog, updateLastTriggered]

/-- C11. Whenever the three statements succeed, a call of `triggerReminder` is fulfilled
and appends exactly one row to `reminder_logs`; the row carries the reminder's id and
owner id, and its status is `'sent'` when `sendReminderEmail` resolved and `'failed'` when
it threw. -/
theorem dispatch_logs_once (db : Db) (t : Int) (o : DispatchOutcome) (reminder : Reminder)
    (hupdate : o.updateOk = true) (hsent : o.insertSentOk = true)
    (hfailed : o.insertFailedOk = true) :
    (triggerReminder db t o reminder).fulfilled = true ∧
    (triggerReminder db t o reminder).db.reminder_logs =
      db.reminder_logs ++
        [{ id := nextId db.log_seq (db.reminder_logs.map fun l => l.id)
           reminder_id := reminder.id
           user_id := reminder.user_id
           triggered_at := some (currentTimestamp t)
           status := some (if o.emailOk then "sent" else "failed") }] :=
  triggerReminder_store_ok db t o reminder hupdate hsent hfailed

/-- C11, worked: on `sampleDb` a dispatch whose delivery fails writes the row with status
`'failed'`, and one whose delivery succeeds the row with status `'sent'`. -/
theorem dispatch_logs_once_witness :
    ((triggerReminder sampleDb 1793511000123 { allSucceed with emailOk := false }
        nightCheck).fulfilled = true ∧
      (triggerReminder sampleDb 1793511000123 { allSucceed with emailOk := false }
        nightCheck).db.reminder_logs =
        sampleDb.reminder_logs ++
          [{ id := nextId sampleDb.log_seq (sampleDb.reminder_logs.map fun l => l.id)
             reminder_id := nightCheck.id
             user_id := nightCheck.user_id
             triggered_at := some (currentTimestamp 1793511000123)
             status := some (if ({ allSucceed with emailOk := false } :
               DispatchOutcome).emailOk then "sent" else "failed") }]) ∧
    (triggerReminder sampleDb 1793511000123 { allSucceed with emailOk := false }
        nightCheck).db.reminder_logs =
      [{ id := 1, reminder_id := 3, user_id := 7, triggered_at := some 1793511000,
         status := some "failed" }] ∧
    (triggerReminder sampleDb 1793511000123 allSucceed nightCheck).db.reminder_logs =
      [{ id := 1, reminder_id := 3, user_id := 7, triggered_at := some 1793511000,
         status := some "sent" }] :=
  ⟨dispatch_logs_once sampleDb 1793511000123 { allSucceed with emailOk := false } nightCheck
    rfl rfl rfl, by decide, by decide⟩

/-- C12, refuted as stated: on `sampleDb` a dispatch whose delivery fails, with every
statement succeeding, is fulfilled and writes a log row, but leaves `last_triggered` of
the reminder unset. -/
theorem failed_delivery_keeps_last_triggered :
    (triggerReminder sampleDb 1793511000123 { allSucceed with emailOk := false }
      nightCheck).fulfilled = true ∧
    (triggerReminder sampleDb 1793511000123 { allSucceed with emailOk := false }
      nightCheck).db.reminder_logs =
      [{ id := 1, reminder_id := 3, user_id := 7, triggered_at := some 1793511000,
         status := some "failed" }] ∧
    ((triggerReminder sampleDb 1793511000123 { allSucceed with emailOk := false }
      nightCheck).db.reminders.map fun r => (r.id, r.last_triggered)) = [(3, none)] := by
  decide

/-- C12, amended. For a dispatch at the instant `t`: when the delivery and both statements
succeed, `last_triggered` of every row with the reminder's id is the dispatch second and
one `'sent'` row is appended; when the delivery fails and the insert of the `catch` block
succeeds, the table of reminders is left as it was and one `'failed'` row is appended; and
whatever the outcome, a `'sent'` row is appended only together with the update of
`last_triggered`. -/
theorem dispatch_updates_on_success (db : Db) (t : Int) (o : DispatchOutcome)
    (reminder : Reminder) :
    (o.emailOk = true → o.updateOk = true → o.insertSentOk = true →
      (∀ r ∈ (triggerReminder db t o reminder).db.reminders, r.id = reminder.id →
        r.last_triggered = some (currentTimestamp t)) ∧
      ∃ row, (triggerReminder db t o reminder).db.reminder_logs = db.reminder_logs ++ [row] ∧
        row.status = some "sent") ∧
    (o.emailOk = false → o.insertFailedOk = true →
      (triggerReminder db t o reminder).db.reminders = db.reminders ∧
      ∃ row, (triggerReminder db t o reminder).db.reminder_logs = db.reminder_logs ++ [row] ∧
        row.status = some "failed") ∧
    (∀ row, (triggerReminder db t o reminder).db.reminder_logs = db.reminder_logs ++ [row] →
      row.status = some "sent" →
      ∀ r ∈ (triggerReminder db t o reminder).db.reminders, r.id = reminder.id →
        r.last_triggered = some (currentTimestamp t)) := by
  have hupd : ∀ r ∈ (updateLastTriggered db t reminder.id).reminders, r.id = reminder.id →
      r.last_triggered = some (currentTimestamp t) := by
    intro r hr hid
    unfold updateLastTriggered at hr
    simp only [List.mem_map] at hr
    obtain ⟨r0, _, hr0⟩ := hr
    by_cases hc : r0.id = reminder.id
    · rw [if_pos hc] at hr0; subst hr0; rfl
    · rw [if_neg hc] at hr0; subst hr0; exact absurd hid hc
  refine ⟨?_, ?_, ?_⟩
  · intro hemail hupdate hsent
    unfold triggerReminder
    simp only [hemail, hupdate, hsent, Bool.not_true, Bool.false_eq_true, if_false]
    exact ⟨hupd, _, rfl, rfl⟩
  · intro hemail hfailed
    unfold triggerReminder triggerReminderCatch
    simp only [hemail, hfailed, Bool.not_false, if_true]
    exact ⟨rfl, _, rfl, rfl⟩
  · intro row hrow hstatus
    unfold triggerReminder triggerReminderCatch at hrow ⊢
    cases hemail : o.emailOk <;> cases hupdate : o.updateOk <;>
      cases hsent : o.insertSentOk <;> cases hfailed : o.insertFailedOk <;>
      simp only [hemail, hupdate, hsent, hfailed, Bool.not_true, Bool.not_false,
        Bool.false_eq_true, if_false, if_true] at hrow ⊢ <;>
      first
        | exact hupd
        | (exfalso
           simp [insertLog, updateLastTriggered] at hrow
           done)
        | (exfalso
           simp [insertLog, updateLastTriggered] at hrow
           rw [← hrow] at hstatus
           simp at hstatus)

/-- C12 amended, worked: on `sampleDb` the successful dispatch stamps `last_triggered`;
the dispatch whose delivery fails leaves the table of reminders as it was. -/
theorem dispatch_updates_on_success_witness :
    (∀ r ∈ (triggerReminder sampleDb 1793511000123 allSucceed nightCheck).db.reminders,
      r.id = nightCheck.id → r.last_triggered = some (currentTimestamp 1793511000123)) ∧
    (triggerReminder sampleDb 1793511000123 { allSucceed with emailOk := false }
      nightCheck).db.reminders = sampleDb.reminders :=
  ⟨((dispatch_updates_on_success sampleDb 1793511000123 allSucceed nightCheck).1
      rfl rfl rfl).1,
   ((dispatch_updates_on_success sampleDb 1793511000123 { allSucceed with emailOk := false }
      nightCheck).2.1 rfl rfl).1⟩

/-! ## Minute scan: isolation of failures -/

/-- The loop with every statement succeeding: it is never left early, and it appends one
log row for each due row, in order. -/
theorem dispatchLoop_store_ok (rt : Runtime) (now t : Int) (plan : Nat → DispatchOutcome)
    (hstore : ∀ i, (plan i).updateOk = true ∧ (plan i).insertSentOk = true ∧
      (plan i).insertFailedOk = true)
    (rows : List (Nat × Reminder)) (db : Db) :
    (dispatchLoop rt now t plan db rows).fulfilled = true ∧
    ∃ added, (dispatchLoop rt now t plan db rows).db.reminder_logs =
        db.reminder_logs ++ added ∧
      added.map (fun l => (l.reminder_id, l.user_id, l.status)) =
        (rows.filter fun p => isDue rt p.2 now).map fun p =>
          (p.2.id, p.2.user_id, some (if (plan p.1).emailOk then "sent" else "failed")) := by
  induction rows generalizing db with
  | nil => exact ⟨rfl, [], by simp [dispatchLoop], rfl⟩
  | cons p rest ih =>
    obtain ⟨i, reminder⟩ := p
    unfold dispatchLoop
    by_cases hdue : isDue rt reminder now = true
    · obtain ⟨hu, hs, hf⟩ := hstore i
      obtain ⟨hful, hlogs⟩ := triggerReminder_store_ok db t (plan i) reminder hu hs hf
      simp only [hdue, if_true, hful]
      obtain ⟨h1, added, h2, h3⟩ := ih (triggerReminder db t (plan i) reminder).db
      refine ⟨h1,
        { id := nextId db.log_seq (db.reminder_logs.map fun l => l.id)
          reminder_id := reminder.id
          user_id := reminder.user_id
          triggered_at := some (currentTimestamp t)
          status := some (if (plan i).emailOk then "sent" else "failed") } :: added, ?_, ?_⟩
      · rw [h2, hlogs]; simp
      · simp [List.filter_cons, hdue, h3]
    · simp only [hdue, Bool.false_eq_true, if_false]
      obtain ⟨h1, added, h2, h3⟩ := ih db
      refine ⟨h1, added, h2, ?_⟩
      simp [List.filter_cons, hdue, h3]

/-- C13. In `checkAndTriggerReminders`, whichever deliveries fail, as long as every
statement succeeds: the promise is fulfilled, and the log rows appended during the tick
are, in order, one row for each due reminder of the scanned list, with that reminder's id
and owner id, `'sent'` where its delivery succeeded and `'failed'` where it failed. -/
theorem delivery_failure_isolated (rt : Runtime) (db : Db) (now t : Int)
    (plan : Nat → DispatchOutcome)
    (hstore : ∀ i, (plan i).updateOk = true ∧ (plan i).insertSentOk = true ∧
      (plan i).insertFailedOk = true) :
    (checkAndTriggerReminders rt db now t true plan).fulfilled = true ∧
    ∃ added, (checkAndTriggerReminders rt db now t true plan).db.reminder_logs =
        db.reminder_logs ++ added ∧
      added.map (fun l => (l.reminder_id, l.user_id, l.status)) =
        ((activeReminders db).enum.filter fun p => isDue rt p.2 now).map fun p =>
          (p.2.id, p.2.user_id, some (if (plan p.1).emailOk then "sent" else "failed")) := by
  unfold checkAndTriggerReminders
  simp only [if_true]
  exact ⟨trivial, (dispatchLoop_store_ok rt now t plan hstore _ db).2⟩

/-- C13, worked: both reminders of `twoDueDb` are due at 09:00 New York time; the delivery
of the first fails, and the tick writes a `'failed'` row for it and a `'sent'` row for the
second. -/
theorem delivery_failure_isolated_witness :
    ((checkAndTriggerReminders sampleRuntime twoDueDb 1793628000000 1793628000500 true
        firstDeliveryFails).fulfilled = true ∧
      ∃ added, (checkAndTriggerReminders sampleRuntime twoDueDb 1793628000000 1793628000500
          true firstDeliveryFails).db.reminder_logs = twoDueDb.reminder_logs ++ added ∧
        added.map (fun l => (l.reminder_id, l.user_id, l.status)) =
          ((activeReminders twoDueDb).enum.filter fun p =>
            isDue sampleRuntime p.2 1793628000000).map fun p =>
              (p.2.id, p.2.user_id,
                some (if (firstDeliveryFails p.1).emailOk then "sent" else "failed"))) ∧
    (checkAndTriggerReminders sampleRuntime twoDueDb 1793628000000 1793628000500 true
        firstDeliveryFails).db.reminder_logs =
      [{ id := 1, reminder_id := 1, user_id := 7, triggered_at := some 1793628000,
         status := some "failed" },
       { id := 2, reminder_id := 2, user_id := 7, triggered_at := some 1793628000,
         status := some "sent" }] :=
  ⟨delivery_failure_isolated sampleRuntime twoDueDb 1793628000000 1793628000500
    firstDeliveryFails (by intro i; unfold firstDeliveryFails; split <;> exact ⟨rfl, rfl, rfl⟩),
   by rfl⟩

/-- C14, the code at the failing input: both reminders of `twoDueDb` are due; while the
first is dispatched the update of `last_triggered` and the insert of the `'failed'` row
fail. `triggerReminder` is rejected, the loop is left, and the second reminder gets no log
row and no `last_triggered`, although the store is back for it. The same happens when the
delivery for the first fails and the insert of the `'failed'` row is the only statement
that fails. With a healthy store the same tick writes both rows. -/
theorem store_failure_stops_scan :
    isDue sampleRuntime (joinRow
      { id := 2, user_id := 7, title := "Water", description := none,
        reminder_time := some "09:00", recurrence_type := "daily", weekly_days := none,
        is_active := some 1, last_triggered := none }
      { id := 7, name := "Owner", email := "owner@example.org",
        timezone := some "America/New_York" }) 1793628000000 = true ∧
    (storeDownForFirst 1).updateOk = true ∧ (storeDownForFirst 1).insertSentOk = true ∧
    (storeDownForFirst 1).insertFailedOk = true ∧ (storeDownForFirst 1).emailOk = true ∧
    (checkAndTriggerReminders sampleRuntime twoDueDb 1793628000000 1793628000500 true
      storeDownForFirst).db.reminder_logs = [] ∧
    ((checkAndTriggerReminders sampleRuntime twoDueDb 1793628000000 1793628000500 true
      storeDownForFirst).db.reminders.map fun r => (r.id, r.last_triggered)) =
      [(1, none), (2, none)] ∧
    (checkAndTriggerReminders sampleRuntime twoDueDb 1793628000000 1793628000500 true
      failedInsertDownForFirst).db.reminder_logs = [] ∧
    ((checkAndTriggerReminders sampleRuntime twoDueDb 1793628000000 1793628000500 true
      healthyPlan).db.reminder_logs.map fun l => (l.reminder_id, l.status)) =
      [(1, some "sent"), (2, some "sent")] := by
  refine ⟨by rfl, rfl, rfl, rfl, rfl, by rfl, by rfl, by rfl, by rfl⟩

/-! ## Miss detector: lemmas -/

theorem updateStreak_completions (db : Db) (t reminderId userId : Int) (completed : Bool) :
    (updateStreak db t reminderId userId completed).reminder_completions =
      db.reminder_completions := by
  have happly : ∀ (d : Db) (streak : StreakRow),
      (applyStreakEvent d t streak completed).reminder_completions =
        d.reminder_completions := by
    intro d streak
    unfold applyStreakEvent
    cases completed <;> rfl
  unfold updateStreak
  cases getReminder db reminderId with
  | none => rfl
  | some r =>
    simp only
    cases getStreak db userId reminderId with
    | some streak => exact happly db streak
    | none =>
      simp only
      cases getStreak (insertStreak db t userId reminderId) userId reminderId with
      | some streak => exact happly _ streak
      | none => rfl

theorem completionsOf_updateStreak (db : Db) (t reminderId userId : Int) (completed : Bool)
    (logId : Int) :
    completionsOf (updateStreak db t reminderId userId completed) logId =
      completionsOf db logId := by
  unfold completionsOf
  rw [updateStreak_completions]

theorem completionCount_insertCompletion (db : Db) (t reminderId userId logId scheduled : Int)
    (status : String) (i : Int) :
    completionCount (insertCompletion db t reminderId userId logId scheduled status) i =
      completionCount db i + (if i = logId then 1 else 0) := by
  unfold completionCount completionsOf insertCompletion
  by_cases h : i = logId
  · subst h; simp [List.filter_append]
  · have h2 : ¬ logId = i := fun e => h e.symm
    simp [List.filter_append, h, h2]

/-- A log that has a completion: `markAsMissed` returns at line 150. -/
theorem markAsMissed_of_existing (w : World) (t : Int) (log : MissedLog)
    (hexisting : 0 < completionCount w.db log.id) : markAsMissed w t log = w := by
  unfold markAsMissed
  unfold completionCount at hexisting
  simp [hexisting]

/-- A log without `triggered_at`: the insert violates `NOT NULL`. -/
theorem markAsMissed_of_null (w : World) (t : Int) (log : MissedLog)
    (hnull : log.triggered_at = none) : markAsMissed w t log = w := by
  unfold markAsMissed
  rw [hnull]
  simp

/-- A log without a completion: the insert, the ledger, the mail. -/
theorem markAsMissed_of_clear (w : World) (t : Int) (log : MissedLog) (triggeredAt : Int)
    (hclear : completionCount w.db log.id = 0)
    (hts : log.triggered_at = some triggeredAt) :
    markAsMissed w t log =
      { db := updateStreak
          (insertCompletion w.db t log.reminder_id log.user_id log.id triggeredAt "missed")
          t log.reminder_id log.user_id false
        ledgerCalls := w.ledgerCalls ++
          [{ reminder_id := log.reminder_id, user_id := log.user_id, completed := false,
             log_id := log.id }]
        missedMails := w.missedMails ++ [log.id] } := by
  unfold markAsMissed
  unfold completionCount at hclear
  simp [hclear, hts]

/-- The number of completions of each log after a call of `markAsMissed`. -/
theorem markAsMissed_count (w : World) (t : Int) (log : MissedLog) (i : Int) :
    completionCount (markAsMissed w t log).db i =
      completionCount w.db i +
        (if i = log.id ∧ completionCount w.db log.id = 0 ∧ log.triggered_at.isSome = true
          then 1 else 0) := by
  by_cases hex : 0 < completionCount w.db log.id
  · rw [markAsMissed_of_existing w t log hex]
    have : ¬ completionCount w.db log.id = 0 := by omega
    simp [this]
  · have hclear : completionCount w.db log.id = 0 := by omega
    cases hts : log.triggered_at with
    | none => rw [markAsMissed_of_null w t log hts]; simp
    | some ts =>
      rw [markAsMissed_of_clear w t log ts hclear hts]
      simp only [completionCount, completionsOf_updateStreak]
      have := completionCount_insertCompletion w.db t log.reminder_id log.user_id log.id ts
        "missed" i
      simp only [completionCount] at this hclear
      rw [this]
      simp [hclear]

/-- The number of recorded ledger calls for each log after a call of `markAsMissed`. -/
theorem markAsMissed_calls (w : World) (t : Int) (log : MissedLog) (i : Int) :
    ledgerCallsFor (markAsMissed w t log) i =
      ledgerCallsFor w i +
        (if i = log.id ∧ completionCount w.db log.id = 0 ∧ log.triggered_at.isSome = true
          then 1 else 0) := by
  by_cases hex : 0 < completionCount w.db log.id
  · rw [markAsMissed_of_existing w t log hex]
    have : ¬ completionCount w.db log.id = 0 := by omega
    simp [this]
  · have hclear : completionCount w.db log.id = 0 := by omega
    cases hts : log.triggered_at with
    | none => rw [markAsMissed_of_null w t log hts]; simp
    | some ts =>
      rw [markAsMissed_of_clear w t log ts hclear hts]
      unfold ledgerCallsFor
      by_cases h : i = log.id
      · subst h; simp [List.filter_append, hclear]
      · have h2 : ¬ log.id = i := fun e => h e.symm
        simp [List.filter_append, h, h2]

/-- A pass of `markAsMissed` over rows leaves a log that has a completion alone. -/
theorem missPass_of_existing (t : Int) (i : Int) (logs : List MissedLog) (w : World)
    (hexisting : 0 < completionCount w.db i) :
    completionCount (logs.foldl (fun w log => markAsMissed w t log) w).db i =
        completionCount w.db i ∧
      ledgerCallsFor (logs.foldl (fun w log => markAsMissed w t log) w) i =
        ledgerCallsFor w i := by
  induction logs generalizing w with
  | nil => exact ⟨rfl, rfl⟩
  | cons log rest ih =>
    simp only [List.foldl_cons]
    have hc := markAsMissed_count w t log i
    have hl := markAsMissed_calls w t log i
    have hif : ¬ (i = log.id ∧ completionCount w.db log.id = 0 ∧
        log.triggered_at.isSome = true) := by
      rintro ⟨h1, h2, _⟩
      subst h1
      omega
    rw [if_neg hif] at hc hl
    have hex2 : 0 < completionCount (markAsMissed w t log).db i := by omega
    obtain ⟨h1, h2⟩ := ih (markAsMissed w t log) hex2
    exact ⟨by omega, by omega⟩

/-- A pass of `markAsMissed` over rows gives a log without a completion exactly one, and
calls the ledger for it exactly once, when one of the rows is for it. -/
theorem missPass_of_clear (t : Int) (i : Int) (logs : List MissedLog) (w : World)
    (hclear : completionCount w.db i = 0)
    (hmem : ∃ log ∈ logs, log.id = i ∧ log.triggered_at.isSome = true) :
    completionCount (logs.foldl (fun w log => markAsMissed w t log) w).db i = 1 ∧
      ledgerCallsFor (logs.foldl (fun w log => markAsMissed w t log) w) i =
        ledgerCallsFor w i + 1 := by
  induction logs generalizing w with
  | nil => obtain ⟨log, hlog, _⟩ := hmem; cases hlog
  | cons log rest ih =>
    simp only [List.foldl_cons]
    have hc := markAsMissed_count w t log i
    have hl := markAsMissed_calls w t log i
    by_cases hthis : i = log.id ∧ log.triggered_at.isSome = true
    · have hif : i = log.id ∧ completionCount w.db log.id = 0 ∧
          log.triggered_at.isSome = true := ⟨hthis.1, by rw [← hthis.1]; exact hclear, hthis.2⟩
      rw [if_pos hif] at hc hl
      have hex2 : 0 < completionCount (markAsMissed w t log).db i := by omega
      obtain ⟨h1, h2⟩ := missPass_of_existing t i rest (markAsMissed w t log) hex2
      exact ⟨by omega, by omega⟩
    · have hif : ¬ (i = log.id ∧ completionCount w.db log.id = 0 ∧
          log.triggered_at.isSome = true) := fun h => hthis ⟨h.1, h.2.2⟩
      rw [if_neg hif] at hc hl
      have hmem2 : ∃ l ∈ rest, l.id = i ∧ l.triggered_at.isSome = true := by
        obtain ⟨l, hl1, hl2, hl3⟩ := hmem
        rcases List.mem_cons.mp hl1 with h | h
        · subst h; exact absurd ⟨hl2.symm, hl3⟩ hthis
        · exact ⟨l, h, hl2, hl3⟩
      obtain ⟨h1, h2⟩ := ih (markAsMissed w t log) (by omega) hmem2
      exact ⟨h1, by omega⟩

/-- What the query of `checkMissedReminders` guarantees about a row it returns. -/
theorem missedLogs_mem (db : Db) (now : Int) (log : MissedLog)
    (hsel : log ∈ missedLogs db now) :
    completionCount db log.id = 0 ∧ log.triggered_at.isSome = true ∧
      log.status = some "sent" ∧ (getReminder db log.reminder_id).isSome = true ∧
      ∃ rl ∈ db.reminder_logs, rl.id = log.id ∧ rl.status = log.status ∧
        rl.triggered_at = log.triggered_at ∧
        triggeredAtLe rl.triggered_at
          (toISOString (now - MISSED_THRESHOLD_MINUTES * 60 * 1000)) = true := by
  unfold missedLogs at hsel
  simp only [List.mem_flatMap, List.mem_filter, decide_eq_true_eq] at hsel
  obtain ⟨rl, hrl, r, ⟨hr, hrid⟩, u, _, hrow⟩ := hsel
  split at hrow
  · rename_i hcond
    simp only [Bool.and_eq_true, decide_eq_true_eq, List.isEmpty_iff] at hcond
    obtain ⟨⟨hempty, hle⟩, hstatus⟩ := hcond
    simp only [List.mem_singleton] at hrow
    subst hrow
    refine ⟨by simp [completionCount, hempty], ?_, hstatus, ?_, rl, hrl, rfl, rfl, rfl, hle⟩
    · unfold triggeredAtLe at hle
      cases hts : rl.triggered_at with
      | none => rw [hts] at hle; cases hle
      | some ts => rfl
    · unfold getReminder
      rw [Option.isSome_iff_exists]
      cases hfind : db.reminders.find? fun r => decide (r.id = rl.reminder_id) with
      | some x => exact ⟨x, rfl⟩
      | none =>
        have := List.find?_eq_none.mp hfind r hr
        simp [hrid] at this
  · cases hrow

/-- A pass of `markAsMissed` over rows changes nothing for a log none of the rows is
for. -/
theorem missPass_of_absent (t : Int) (i : Int) (logs : List MissedLog) (w : World)
    (habsent : ∀ log ∈ logs, log.id ≠ i) :
    completionCount (logs.foldl (fun w log => markAsMissed w t log) w).db i =
        completionCount w.db i ∧
      ledgerCallsFor (logs.foldl (fun w log => markAsMissed w t log) w) i =
        ledgerCallsFor w i := by
  induction logs generalizing w with
  | nil => exact ⟨rfl, rfl⟩
  | cons log rest ih =>
    simp only [List.foldl_cons]
    have hc := markAsMissed_count w t log i
    have hl := markAsMissed_calls w t log i
    have hne : ¬ i = log.id := fun h => habsent log (List.mem_cons_self _ _) h.symm
    have hif : ¬ (i = log.id ∧ completionCount w.db log.id = 0 ∧
        log.triggered_at.isSome = true) := fun h => hne h.1
    rw [if_neg hif] at hc hl
    obtain ⟨h1, h2⟩ := ih (markAsMissed w t log)
      fun l hl => habsent l (List.mem_cons_of_mem _ hl)
    exact ⟨by omega, by omega⟩

/-! ## Miss detector: the threshold and the status -/

/-- C15, the code at the failing input: both reminders of `twoDueDb` are dispatched on
2 November 2026 at 14:00:00 UTC, so `triggered_at` holds the text `2026-11-02 14:00:00`.
One second later `checkMissedReminders` compares it with the text
`2026-11-02T13:30:01.000Z`; the two agree up to the date and the blank sorts before `T`,
so both logs are selected and recorded as missed, one second after the dispatch. -/
theorem fresh_log_marked_missed :
    ((checkAndTriggerReminders sampleRuntime twoDueDb 1793628000000 1793628000500 true
      healthyPlan).db.reminder_logs.map fun l => (l.id, l.triggered_at, l.status)) =
      [(1, some 1793628000, some "sent"), (2, some 1793628000, some "sent")] ∧
    String.mk (sqliteDatetime 1793628000) = "2026-11-02 14:00:00" ∧
    String.mk (toISOString (1793628001000 - MISSED_THRESHOLD_MINUTES * 60 * 1000)) =
      "2026-11-02T13:30:01.000Z" ∧
    triggeredAtLe (some 1793628000)
      (toISOString (1793628001000 - MISSED_THRESHOLD_MINUTES * 60 * 1000)) = true ∧
    ¬ (1793628000 * 1000 ≤ 1793628001000 - MISSED_THRESHOLD_MINUTES * 60 * 1000) ∧
    ((checkMissedReminders (freshWorld (checkAndTriggerReminders sampleRuntime twoDueDb
      1793628000000 1793628000500 true healthyPlan).db) 1793628001000).db.reminder_completions.map
        fun c => (c.log_id, c.scheduled_time, c.status)) =
      [(some 1, some 1793628000, some "missed"), (some 2, some 1793628000, some "missed")] := by
  refine ⟨by rfl, by rfl, by rfl, by rfl, by decide, by rfl⟩

/-- C16, refuted as stated: in `staleLogsDb` the log 1 has status `'failed'`, is a day old
and has no completion; `checkMissedReminders` does not select it and records nothing for
it, while it records the `'sent'` log 2 of the same age. -/
theorem failed_log_not_recorded :
    (staleLogsDb.reminder_logs.map fun l => (l.id, l.status, l.triggered_at)) =
      [(1, some "failed", some 1793541600), (2, some "sent", some 1793541600)] ∧
    triggeredAtLe (some 1793541600)
      (toISOString (1793628000000 - MISSED_THRESHOLD_MINUTES * 60 * 1000)) = true ∧
    completionCount staleLogsDb 1 = 0 ∧
    ((missedLogs staleLogsDb 1793628000000).map fun l => l.id) = [2] ∧
    completionCount (checkMissedReminders (freshWorld staleLogsDb) 1793628000000).db 1 = 0 ∧
    completionCount (checkMissedReminders (freshWorld staleLogsDb) 1793628000000).db 2 = 1 := by
  refine ⟨by rfl, by rfl, by rfl, by rfl, by rfl, by rfl⟩

/-- C16, amended. `checkMissedReminders` selects only logs with status `'sent'`: every
row of its query has that status, and for a log id that no `'sent'` row of `reminder_logs`
carries, however old, the pass records no completion and does not call the ledger. -/
theorem only_sent_logs_are_missed (w : World) (now : Int) :
    (∀ log ∈ missedLogs w.db now, log.status = some "sent") ∧
    (∀ i, (∀ rl ∈ w.db.reminder_logs, rl.id = i → rl.status ≠ some "sent") →
      completionCount (checkMissedReminders w now).db i = completionCount w.db i ∧
      ledgerCallsFor (checkMissedReminders w now) i = ledgerCallsFor w i) := by
  refine ⟨fun log hlog => (missedLogs_mem w.db now log hlog).2.2.1, ?_⟩
  intro i hfailed
  unfold checkMissedReminders
  apply missPass_of_absent
  intro log hlog hid
  obtain ⟨_, _, hstatus, _, rl, hrl, hrid, hrstatus, _⟩ := missedLogs_mem w.db now log hlog
  exact hfailed rl hrl (hrid.trans hid) (hrstatus.trans hstatus)

/-- C16 amended, worked: in `staleLogsDb` the only row with id 1 is the `'failed'` one, and
the pass leaves the log 1 without a completion and without a ledger call. -/
theorem only_sent_logs_are_missed_witness :
    completionCount (checkMissedReminders (freshWorld staleLogsDb) 1793628000000).db 1 =
        completionCount (freshWorld staleLogsDb).db 1 ∧
      ledgerCallsFor (checkMissedReminders (freshWorld staleLogsDb) 1793628000000) 1 =
        ledgerCallsFor (freshWorld staleLogsDb) 1 :=
  (only_sent_logs_are_missed (freshWorld staleLogsDb) 1793628000000).2 1 (by
    intro rl hrl hid
    simp only [freshWorld, staleLogsDb, List.mem_cons, List.mem_singleton, List.mem_nil_iff,
      or_false] at hrl
    rcases hrl with h | h
    · subst h; decide
    · subst h; simp at hid)

/-! ## Miss detector: recording a miss -/

/-- C17. For a row whose log has no completion, whose reminder exists and whose
`triggered_at` is set (as for every row the query selects), `markAsMissed` appends exactly
one completion with status `'missed'`, the log's id as `log_id`, the reminder id and owner
id of the row and `scheduled_time` equal to `triggered_at`; it calls the ledger once with
`completed = false`; afterwards the current streak of the pair is 0 and its longest streak
is what it was (0 for a pair that had no row). -/
theorem miss_recorded (w : World) (t : Int) (log : MissedLog) (triggeredAt : Int)
    (hclear : completionCount w.db log.id = 0)
    (hreminder : (getReminder w.db log.reminder_id).isSome)
    (hts : log.triggered_at = some triggeredAt) :
    (markAsMissed w t log).db.reminder_completions =
      w.db.reminder_completions ++
        [{ id := nextId w.db.completion_seq (w.db.reminder_completions.map fun c => c.id)
           reminder_id := log.reminder_id
           user_id := log.user_id
           log_id := some log.id
           completed_at := some (currentTimestamp t)
           scheduled_time := some triggeredAt
           status := some "missed" }] ∧
    (markAsMissed w t log).ledgerCalls =
      w.ledgerCalls ++
        [{ reminder_id := log.reminder_id, user_id := log.user_id, completed := false,
           log_id := log.id }] ∧
    (∀ streak, getStreak w.db log.user_id log.reminder_id = some streak →
      getStreak (markAsMissed w t log).db log.user_id log.reminder_id =
        some { streak with
          current_streak := some 0
          last_updated := some (currentTimestamp t) }) ∧
    (getStreak w.db log.user_id log.reminder_id = none →
      ∃ streak, getStreak (markAsMissed w t log).db log.user_id log.reminder_id =
          some streak ∧
        streak.current_streak = some 0 ∧ streak.longest_streak = some 0) := by
  rw [markAsMissed_of_clear w t log triggeredAt hclear hts]
  refine ⟨?_, rfl, ?_, ?_⟩
  · simp only [updateStreak_completions]
    rfl
  · intro streak hstreak
    exact getStreak_after_miss
      (insertCompletion w.db t log.reminder_id log.user_id log.id triggeredAt "missed") t
      log.reminder_id log.user_id streak hreminder hstreak
  · intro hnone
    have hrows := updateStreak_of_no_row
      (insertCompletion w.db t log.reminder_id log.user_id log.id triggeredAt "missed") t
      log.reminder_id log.user_id false hreminder hnone
    refine ⟨{ id := nextId w.db.streak_seq (w.db.user_streaks.map fun s => s.id)
              user_id := log.user_id
              reminder_id := log.reminder_id
              current_streak := some 0
              longest_streak := some 0
              last_completed := none
              last_updated := some (currentTimestamp t) }, ?_, rfl, rfl⟩
    show getStreak (updateStreak _ t log.reminder_id log.user_id false) _ _ = _
    unfold getStreak at hnone ⊢
    rw [hrows, List.find?_append]
    have hnone2 : List.find? (fun s => decide (s.user_id = log.user_id ∧
        s.reminder_id = log.reminder_id)) w.db.user_streaks = none := hnone
    have hins : (insertCompletion w.db t log.reminder_id log.user_id log.id triggeredAt
        "missed").user_streaks = w.db.user_streaks := rfl
    rw [hins, hnone2]
    simp [List.find?]
    rfl

/-- C17, worked: in `staleLogsDb` the row of the query for log 2 is recorded as missed: one
completion for log 2 with `scheduled_time` the log's `triggered_at`, one ledger call, and
the pair, which had no streak row, reads current 0 and longest 0. -/
theorem miss_recorded_witness :
    ((markAsMissed (freshWorld staleLogsDb) 1793628000000 staleSentLog).db.reminder_completions =
      (freshWorld staleLogsDb).db.reminder_completions ++
        [{ id := nextId (freshWorld staleLogsDb).db.completion_seq
             ((freshWorld staleLogsDb).db.reminder_completions.map fun c => c.id)
           reminder_id := staleSentLog.reminder_id
           user_id := staleSentLog.user_id
           log_id := some staleSentLog.id
           completed_at := some (currentTimestamp 1793628000000)
           scheduled_time := some 1793541600
           status := some "missed" }]) ∧
    missedLogs staleLogsDb 1793628000000 = [staleSentLog] ∧
    (markAsMissed (freshWorld staleLogsDb) 1793628000000 staleSentLog).db.reminder_completions =
      [{ id := 1, reminder_id := 2, user_id := 7, log_id := some 2,
         completed_at := some 1793628000, scheduled_time := some 1793541600,
         status := some "missed" }] ∧
    ((markAsMissed (freshWorld staleLogsDb) 1793628000000 staleSentLog).db.user_streaks.map
      fun s => (s.user_id, s.reminder_id, s.current_streak, s.longest_streak)) =
      [(7, 2, some 0, some 0)] :=
  ⟨(miss_recorded (freshWorld staleLogsDb) 1793628000000 staleSentLog 1793541600
      rfl rfl rfl).1, by rfl, by rfl, by rfl⟩

/-- C18. Recording a miss is idempotent in sequence. When a completion exists for the
log, `markAsMissed` changes nothing: no insert, no ledger call, no mail. Hence for a log
without a completion, a second `markAsMissed` changes nothing after the first, and the
log has exactly one completion and one more ledger call than before; and for a row the
query of a pass selects, two passes of `checkMissedReminders` in sequence leave exactly one
completion for its log and one more ledger call than before. -/
theorem miss_idempotent (w : World) (t1 t2 now1 now2 : Int) (log : MissedLog) :
    (0 < completionCount w.db log.id → markAsMissed w t1 log = w) ∧
    (completionCount w.db log.id = 0 → log.triggered_at.isSome = true →
      markAsMissed (markAsMissed w t1 log) t2 log = markAsMissed w t1 log ∧
      completionCount (markAsMissed (markAsMissed w t1 log) t2 log).db log.id = 1 ∧
      ledgerCallsFor (markAsMissed (markAsMissed w t1 log) t2 log) log.id =
        ledgerCallsFor w log.id + 1) ∧
    (log ∈ missedLogs w.db now1 →
      completionCount (checkMissedReminders (checkMissedReminders w now1) now2).db log.id = 1 ∧
      ledgerCallsFor (checkMissedReminders (checkMissedReminders w now1) now2) log.id =
        ledgerCallsFor w log.id + 1) := by
  refine ⟨markAsMissed_of_existing w t1 log, ?_, ?_⟩
  · intro hclear hts
    have hc := markAsMissed_count w t1 log log.id
    have hl := markAsMissed_calls w t1 log log.id
    rw [if_pos ⟨rfl, hclear, hts⟩] at hc hl
    have hex : 0 < completionCount (markAsMissed w t1 log).db log.id := by omega
    rw [markAsMissed_of_existing (markAsMissed w t1 log) t2 log hex]
    exact ⟨rfl, by omega, hl⟩
  · intro hsel
    obtain ⟨hclear, hts, _⟩ := missedLogs_mem w.db now1 log hsel
    unfold checkMissedReminders
    obtain ⟨h1, h2⟩ := missPass_of_clear now1 log.id (missedLogs w.db now1) w hclear
      ⟨log, hsel, rfl, hts⟩
    obtain ⟨h3, h4⟩ := missPass_of_existing now2 log.id
      (missedLogs ((missedLogs w.db now1).foldl (fun w log => markAsMissed w now1 log) w).db
        now2)
      ((missedLogs w.db now1).foldl (fun w log => markAsMissed w now1 log) w) (by omega)
    exact ⟨by omega, by omega⟩

/-- C18, worked: on `staleLogsDb`, two passes one minute apart leave one completion for
log 2 and one ledger call; and a second `markAsMissed` after the first changes nothing. -/
theorem miss_idempotent_witness :
    (completionCount (checkMissedReminders (checkMissedReminders (freshWorld staleLogsDb)
        1793628000000) 1793628060000).db staleSentLog.id = 1 ∧
      ledgerCallsFor (checkMissedReminders (checkMissedReminders (freshWorld staleLogsDb)
        1793628000000) 1793628060000) staleSentLog.id =
        ledgerCallsFor (freshWorld staleLogsDb) staleSentLog.id + 1) ∧
    (markAsMissed (markAsMissed (freshWorld staleLogsDb) 1793628000000 staleSentLog)
        1793628060000 staleSentLog =
      markAsMissed (freshWorld staleLogsDb) 1793628000000 staleSentLog ∧
      completionCount (markAsMissed (markAsMissed (freshWorld staleLogsDb) 1793628000000
        staleSentLog) 1793628060000 staleSentLog).db staleSentLog.id = 1 ∧
      ledgerCallsFor (markAsMissed (markAsMissed (freshWorld staleLogsDb) 1793628000000
        staleSentLog) 1793628060000 staleSentLog) staleSentLog.id =
        ledgerCallsFor (freshWorld staleLogsDb) staleSentLog.id + 1) :=
  ⟨(miss_idempotent (freshWorld staleLogsDb) 1793628000000 1793628060000 1793628000000
      1793628060000 staleSentLog).2.2 (by
        have h : missedLogs staleLogsDb 1793628000000 = [staleSentLog] := by rfl
        show staleSentLog ∈ missedLogs staleLogsDb 1793628000000
        rw [h]
        exact List.mem_singleton.mpr rfl),
   (miss_idempotent (freshWorld staleLogsDb) 1793628000000 1793628060000 1793628000000
      1793628060000 staleSentLog).2.1 rfl rfl⟩

/-! ## Completions: one per log -/

theorem getCompletion_eq_none_iff (db : Db) (logId : Int) :
    getCompletion db logId = none ↔ completionCount db logId = 0 := by
  unfold getCompletion completionCount completionsOf
  rw [List.find?_eq_none, List.length_eq_zero, List.filter_eq_nil_iff]

/-- The handler answers 400 and changes nothing when the log has a completion. -/
theorem completeLog_of_existing (w : World) (t logId userId : Int) (log : LogRow)
    (hlog : getLog w.db logId userId = some log)
    (hexisting : 0 < completionCount w.db logId) :
    completeLog w t logId userId = (w, 400) := by
  unfold completeLog
  rw [hlog]
  cases hc : getCompletion w.db logId with
  | some c => rfl
  | none =>
    have := (getCompletion_eq_none_iff w.db logId).mp hc
    omega

/-- The number of completions of each log after a request: what it was, or one where it
was zero. -/
theorem completeLog_count (w : World) (t logId userId : Int) (i : Int) :
    completionCount (completeLog w t logId userId).1.db i = completionCount w.db i ∨
      (completionCount w.db i = 0 ∧
        completionCount (completeLog w t logId userId).1.db i = 1) := by
  unfold completeLog
  cases getLog w.db logId userId with
  | none => exact Or.inl rfl
  | some log =>
    simp only
    cases hc : getCompletion w.db logId with
    | some c => exact Or.inl rfl
    | none =>
      simp only
      have hzero := (getCompletion_eq_none_iff w.db logId).mp hc
      cases log.triggered_at with
      | none => exact Or.inl rfl
      | some ts =>
        simp only
        have hins := completionCount_insertCompletion w.db t log.reminder_id userId logId ts
          "completed" i
        simp only [completionCount, completionsOf_updateStreak] at hins hzero ⊢
        by_cases h : i = logId
        · subst h
          rw [if_pos rfl] at hins
          exact Or.inr ⟨hzero, by omega⟩
        · rw [if_neg h] at hins
          exact Or.inl (by omega)

/-- One operation keeps the number of completions of each log at most one. -/
theorem applyOp_atMostOne (w : World) (op : CompletionOp) (hinv : AtMostOnePerLog w.db) :
    AtMostOnePerLog (applyOp w op).db := by
  intro i
  have hi := hinv i
  cases op with
  | userCompletes t logId userId =>
    show completionCount (completeLog w t logId userId).1.db i ≤ 1
    rcases completeLog_count w t logId userId i with h | ⟨_, h⟩ <;> omega
  | miss t log =>
    show completionCount (markAsMissed w t log).db i ≤ 1
    have hc := markAsMissed_count w t log i
    by_cases hif : i = log.id ∧ completionCount w.db log.id = 0 ∧
        log.triggered_at.isSome = true
    · rw [if_pos hif] at hc
      have : completionCount w.db i = 0 := by rw [hif.1]; exact hif.2.1
      omega
    · rw [if_neg hif] at hc
      omega

/-- A sequence of operations keeps the number of completions of each log at most one. -/
theorem runOps_atMostOne (ops : List CompletionOp) (w : World)
    (hinv : AtMostOnePerLog w.db) : AtMostOnePerLog (runOps w ops).db := by
  induction ops generalizing w with
  | nil => exact hinv
  | cons op rest ih =>
    unfold runOps
    simp only [List.foldl_cons]
    exact ih (applyOp w op) (applyOp_atMostOne w op hinv)

/-- C20. In a store in which every log id has at most one completion, every sequence of
user completions and `markAsMissed` calls, run one after the other, leads to a store in
which every log id still has at most one completion; and a user completion of one of the
user's logs that already has a completion is answered with status 400 and leaves the
store, completions and streaks included, as it was, with no ledger call. -/
theorem at_most_one_completion (w : World) (ops : List CompletionOp)
    (hinv : AtMostOnePerLog w.db) :
    AtMostOnePerLog (runOps w ops).db ∧
    (∀ v t logId userId log, getLog v.db logId userId = some log →
      0 < completionCount v.db logId → completeLog v t logId userId = (v, 400)) :=
  ⟨runOps_atMostOne ops w hinv,
   fun v t logId userId log hlog hex => completeLog_of_existing v t logId userId log hlog hex⟩

/-- C20, worked: on `staleLogsDb` the owner completes log 2, the Miss Detector then calls
`markAsMissed` for it, and the owner asks again: one completion (status `'completed'`),
and the second request is answered 400. -/
theorem at_most_one_completion_witness :
    AtMostOnePerLog (runOps (freshWorld staleLogsDb)
      [.userCompletes 1793628000000 2 7, .miss 1793628060000 staleSentLog,
       .userCompletes 1793628120000 2 7]).db ∧
    ((runOps (freshWorld staleLogsDb)
      [.userCompletes 1793628000000 2 7, .miss 1793628060000 staleSentLog,
       .userCompletes 1793628120000 2 7]).db.reminder_completions.map
        fun c => (c.log_id, c.status)) = [(some 2, some "completed")] ∧
    (completeLog (completeLog (freshWorld staleLogsDb) 1793628000000 2 7).1
      1793628120000 2 7).2 = 400 :=
  ⟨(at_most_one_completion (freshWorld staleLogsDb)
      [.userCompletes 1793628000000 2 7, .miss 1793628060000 staleSentLog,
       .userCompletes 1793628120000 2 7]
      (by intro i; simp [completionCount, completionsOf, freshWorld, staleLogsDb,
        twoDueDb])).1,
   by rfl, by rfl⟩

/-! ## Completions under interleaving -/

theorem missStep_checked_false (w : World) (t : Int) (log : MissedLog) (ts : Int)
    (hts : log.triggered_at = some ts) :
    missStep w t log (.checked false) =
      ({ w with db := insertCompletion w.db t log.reminder_id log.user_id log.id ts "missed" },
        .inserted) := by
  unfold missStep
  rw [hts]

theorem missStep_checked_null (w : World) (t : Int) (log : MissedLog)
    (hts : log.triggered_at = none) :
    missStep w t log (.checked false) = (w, .done) := by
  unfold missStep
  rw [hts]

/-- Run alone, the statements of `markAsMissed` are the function. -/
theorem runAlone_miss (w : World) (t : Int) (log : MissedLog) :
    (runAlone t w (.miss log .start) 4).1 = markAsMissed w t log ∧
      (runAlone t w (.miss log .start) 4).2.finished = true := by
  have hstart : missStep w t log .start =
      (w, .checked (decide ((completionsOf w.db log.id).length > 0))) := rfl
  simp only [runAlone, Exec.step, hstart]
  unfold markAsMissed
  by_cases hfound : (completionsOf w.db log.id).length > 0
  · simp only [hfound, decide_True, if_true]
    exact ⟨rfl, rfl⟩
  · simp only [hfound, decide_False, if_false]
    cases hts : log.triggered_at with
    | none =>
      simp only [missStep_checked_null w t log hts]
      exact ⟨rfl, rfl⟩
    | some ts =>
      simp only [missStep_checked_false w t log ts hts]
      exact ⟨rfl, rfl⟩

theorem completeStep_start (w : World) (t logId userId : Int) (log : LogRow)
    (hlog : getLog w.db logId userId = some log) :
    completeStep w t logId userId .start = (w, .gotLog log) := by
  unfold completeStep
  rw [hlog]

theorem completeStep_start_none (w : World) (t logId userId : Int)
    (hlog : getLog w.db logId userId = none) :
    completeStep w t logId userId .start = (w, .done 404) := by
  unfold completeStep
  rw [hlog]

theorem completeStep_gotLog (w : World) (t logId userId : Int) (log : LogRow)
    (hc : getCompletion w.db logId = none) :
    completeStep w t logId userId (.gotLog log) = (w, .checked log) := by
  unfold completeStep
  rw [hc]

theorem completeStep_gotLog_some (w : World) (t logId userId : Int) (log : LogRow)
    (c : CompletionRow) (hc : getCompletion w.db logId = some c) :
    completeStep w t logId userId (.gotLog log) = (w, .done 400) := by
  unfold completeStep
  rw [hc]

theorem completeStep_checked (w : World) (t logId userId : Int) (log : LogRow) (ts : Int)
    (hts : log.triggered_at = some ts) :
    completeStep w t logId userId (.checked log) =
      ({ w with db := insertCompletion w.db t log.reminder_id userId logId ts "completed" },
        .inserted log) := by
  simp only [completeStep, hts]

theorem completeStep_checked_null (w : World) (t logId userId : Int) (log : LogRow)
    (hts : log.triggered_at = none) :
    completeStep w t logId userId (.checked log) = (w, .done 500) := by
  simp only [completeStep, hts]

/-- Run alone, the statements of the completion handler are the function. -/
theorem runAlone_complete (w : World) (t logId userId : Int) :
    (runAlone t w (.complete logId userId .start) 4).1 = (completeLog w t logId userId).1 ∧
      (runAlone t w (.complete logId userId .start) 4).2.finished = true := by
  unfold completeLog
  simp only [runAlone, Exec.step]
  cases hlog : getLog w.db logId userId with
  | none =>
    simp only [completeStep_start_none w t logId userId hlog]
    exact ⟨rfl, rfl⟩
  | some log =>
    simp only [completeStep_start w t logId userId log hlog]
    cases hc : getCompletion w.db logId with
    | some c =>
      simp only [completeStep_gotLog_some w t logId userId log c hc]
      exact ⟨rfl, rfl⟩
    | none =>
      simp only [completeStep_gotLog w t logId userId log hc]
      cases hts : log.triggered_at with
      | none =>
        simp only [completeStep_checked_null w t logId userId log hts]
        exact ⟨rfl, rfl⟩
      | some ts =>
        simp only [completeStep_checked w t logId userId log ts hts]
        exact ⟨rfl, rfl⟩

/-- C19, the code at the failing input: two executions race on log 2 of `staleLogsDb`,
which has no completion, their statements alternating. Both run the query for existing
completions before either inserts, both find nothing, both insert and both call the
ledger. With two runs of `markAsMissed` the log ends with two `'missed'` completions and
two ledger calls; with a user completion and a run of `markAsMissed` it ends with a
`'completed'` and a `'missed'` one, the request being answered 200. -/
theorem racing_executions_record_twice :
    completionCount staleLogsDb 2 = 0 ∧
    ((runSchedule 1793628000000 (freshWorld staleLogsDb) (.miss staleSentLog .start)
      (.miss staleSentLog .start)
      [true, false, true, false, true, false, true, false]).1.db.reminder_completions.map
        fun c => (c.log_id, c.status)) =
      [(some 2, some "missed"), (some 2, some "missed")] ∧
    ledgerCallsFor (runSchedule 1793628000000 (freshWorld staleLogsDb)
      (.miss staleSentLog .start) (.miss staleSentLog .start)
      [true, false, true, false, true, false, true, false]).1 2 = 2 ∧
    (runSchedule 1793628000000 (freshWorld staleLogsDb) (.miss staleSentLog .start)
      (.miss staleSentLog .start)
      [true, false, true, false, true, false, true, false]).2.1.finished = true ∧
    (runSchedule 1793628000000 (freshWorld staleLogsDb) (.miss staleSentLog .start)
      (.miss staleSentLog .start)
      [true, false, true, false, true, false, true, false]).2.2.finished = true ∧
    ((runSchedule 1793628000000 (freshWorld staleLogsDb) (.complete 2 7 .start)
      (.miss staleSentLog .start)
      [true, false, true, false, true, false, true, false]).1.db.reminder_completions.map
        fun c => (c.log_id, c.status)) =
      [(some 2, some "missed"), (some 2, some "completed")] ∧
    ledgerCallsFor (runSchedule 1793628000000 (freshWorld staleLogsDb) (.complete 2 7 .start)
      (.miss staleSentLog .start)
      [true, false, true, false, true, false, true, false]).1 2 = 2 := by
  refine ⟨by rfl, by rfl, by rfl, by rfl, by rfl, by rfl, by rfl⟩

/-! ## User completion -/

/-- The handler on one of the user's logs that has no completion and carries
`triggered_at`: the insert, the ledger, the answer 200. -/
theorem completeLog_of_clear (w : World) (t logId userId : Int) (log : LogRow)
    (triggeredAt : Int)
    (hlog : getLog w.db logId userId = some log)
    (hclear : completionCount w.db logId = 0)
    (hts : log.triggered_at = some triggeredAt) :
    completeLog w t logId userId =
      ({ db := updateStreak
           (insertCompletion w.db t log.reminder_id userId logId triggeredAt "completed")
           t log.reminder_id userId true
         ledgerCalls := w.ledgerCalls ++
           [{ reminder_id := log.reminder_id, user_id := userId, completed := true,
              log_id := logId }]
         missedMails := w.missedMails }, 200) := by
  unfold completeLog
  rw [hlog]
  simp only [(getCompletion_eq_none_iff w.db logId).mpr hclear, hts]

/-- C21, refuted as stated: in `orphanLogDb` the log 3 belongs to the owner 7 and has no
completion, but its reminder 9 no longer exists. The request is answered 200, one
`'completed'` completion is inserted and `updateStreak` is called, yet the pair has no
streak row before and none after: its current streak has not increased. -/
theorem orphan_log_completion_keeps_streak :
    (getLog orphanLogDb 3 7).isSome = true ∧
    completionCount orphanLogDb 3 = 0 ∧
    getReminder orphanLogDb 9 = none ∧
    (completeLog (freshWorld orphanLogDb) 1793628000000 3 7).2 = 200 ∧
    ((completeLog (freshWorld orphanLogDb) 1793628000000 3 7).1.db.reminder_completions.map
      fun c => (c.log_id, c.reminder_id, c.user_id, c.status)) =
      [(some 3, 9, 7, some "completed")] ∧
    (completeLog (freshWorld orphanLogDb) 1793628000000 3 7).1.ledgerCalls =
      [{ reminder_id := 9, user_id := 7, completed := true, log_id := 3 }] ∧
    getStreak orphanLogDb 7 9 = none ∧
    getStreak (completeLog (freshWorld orphanLogDb) 1793628000000 3 7).1.db 7 9 = none := by
  refine ⟨by rfl, by rfl, by rfl, by rfl, by rfl, by rfl, by rfl, by rfl⟩

/-- C21, amended. For a log that belongs to the requesting user, has no completion,
carries `triggered_at` and whose reminder exists: the handler answers 200, appends exactly
one completion with status `'completed'`, the log's reminder id, the user's id, the log id
and `scheduled_time` equal to the log's `triggered_at`, and calls `updateStreak` once with
`completed = true`; the current streak of the pair is one more than it was (1 for a pair
that had no row). -/
theorem user_completion_recorded (w : World) (t logId userId : Int) (log : LogRow)
    (triggeredAt : Int)
    (hlog : getLog w.db logId userId = some log)
    (hclear : completionCount w.db logId = 0)
    (hts : log.triggered_at = some triggeredAt)
    (hreminder : (getReminder w.db log.reminder_id).isSome) :
    (completeLog w t logId userId).2 = 200 ∧
    (completeLog w t logId userId).1.db.reminder_completions =
      w.db.reminder_completions ++
        [{ id := nextId w.db.completion_seq (w.db.reminder_completions.map fun c => c.id)
           reminder_id := log.reminder_id
           user_id := userId
           log_id := some logId
           completed_at := some (currentTimestamp t)
           scheduled_time := some triggeredAt
           status := some "completed" }] ∧
    (completeLog w t logId userId).1.ledgerCalls =
      w.ledgerCalls ++
        [{ reminder_id := log.reminder_id, user_id := userId, completed := true,
           log_id := logId }] ∧
    (∀ streak, getStreak w.db userId log.reminder_id = some streak →
      getStreak (completeLog w t logId userId).1.db userId log.reminder_id =
        some { streak with
          current_streak := some (streak.current + 1)
          longest_streak := some (max streak.longest (streak.current + 1))
          last_completed := some (currentTimestamp t)
          last_updated := some (currentTimestamp t) }) ∧
    (getStreak w.db userId log.reminder_id = none →
      ∃ streak, getStreak (completeLog w t logId userId).1.db userId log.reminder_id =
          some streak ∧
        streak.current_streak = some 1) := by
  rw [completeLog_of_clear w t logId userId log triggeredAt hlog hclear hts]
  refine ⟨rfl, ?_, rfl, ?_, ?_⟩
  · simp only [updateStreak_completions]
    rfl
  · intro streak hstreak
    exact getStreak_after_completion
      (insertCompletion w.db t log.reminder_id userId logId triggeredAt "completed") t
      log.reminder_id userId streak hreminder hstreak
  · intro hnone
    have hrows := updateStreak_of_no_row
      (insertCompletion w.db t log.reminder_id userId logId triggeredAt "completed") t
      log.reminder_id userId true hreminder hnone
    refine ⟨{ id := nextId w.db.streak_seq (w.db.user_streaks.map fun s => s.id)
              user_id := userId
              reminder_id := log.reminder_id
              current_streak := some 1
              longest_streak := some 1
              last_completed := some (currentTimestamp t)
              last_updated := some (currentTimestamp t) }, ?_, rfl⟩
    show getStreak (updateStreak _ t log.reminder_id userId true) _ _ = _
    unfold getStreak at hnone ⊢
    rw [hrows, List.find?_append]
    have hnone2 : List.find? (fun s => decide (s.user_id = userId ∧
        s.reminder_id = log.reminder_id)) w.db.user_streaks = none := hnone
    have hins : (insertCompletion w.db t log.reminder_id userId logId triggeredAt
        "completed").user_streaks = w.db.user_streaks := rfl
    rw [hins, hnone2]
    simp [List.find?]
    rfl

/-- C21 amended, worked: in `staleLogsDb` the owner 7 completes log 2, whose reminder 2
exists: status 200, one `'completed'` completion with `scheduled_time` the log's
`triggered_at`, and the pair (7, 2), which had no row, reads current 1. -/
theorem user_completion_recorded_witness :
    (completeLog (freshWorld staleLogsDb) 1793628000000 2 7).2 = 200 ∧
    (completeLog (freshWorld staleLogsDb) 1793628000000 2 7).1.db.reminder_completions =
      [{ id := 1, reminder_id := 2, user_id := 7, log_id := some 2,
         completed_at := some 1793628000, scheduled_time := some 1793541600,
         status := some "completed" }] ∧
    ((completeLog (freshWorld staleLogsDb) 1793628000000 2 7).1.db.user_streaks.map
      fun s => (s.user_id, s.reminder_id, s.current_streak, s.longest_streak)) =
      [(7, 2, some 1, some 1)] :=
  ⟨(user_completion_recorded (freshWorld staleLogsDb) 1793628000000 2 7
      { id := 2, reminder_id := 2, user_id := 7, triggered_at := some 1793541600,
        status := some "sent" } 1793541600 rfl rfl rfl rfl).1,
   by rfl, by rfl⟩

/-- C29. For a log id that no log of the requesting user carries (the log does not exist
or belongs to another user), the handler answers 404 and leaves the world as it was: no
completion is inserted and `updateStreak` is not called. -/
theorem foreign_log_rejected (w : World) (t logId userId : Int)
    (hforeign : ∀ l ∈ w.db.reminder_logs, l.id = logId → l.user_id ≠ userId) :
    completeLog w t logId userId = (w, 404) := by
  have hnone : getLog w.db logId userId = none := by
    unfold getLog
    rw [List.find?_eq_none]
    intro l hl
    simp only [decide_eq_true_eq, not_and]
    exact hforeign l hl
  unfold completeLog
  rw [hnone]

/-- C29, worked: in `staleLogsDb` the log 2 belongs to the owner 7; the user 8 asking to
complete it is answered 404, as is a request for the log 99 that does not exist. -/
theorem foreign_log_rejected_witness :
    completeLog (freshWorld staleLogsDb) 1793628000000 2 8 = (freshWorld staleLogsDb, 404) ∧
    (completeLog (freshWorld staleLogsDb) 1793628000000 99 7).2 = 404 ∧
    (completeLog (freshWorld staleLogsDb) 1793628000000 2 7).2 = 200 :=
  ⟨foreign_log_rejected (freshWorld staleLogsDb) 1793628000000 2 8 (by
      intro l hl hid
      simp only [freshWorld, staleLogsDb, List.mem_cons, List.mem_singleton,
        List.mem_nil_iff, or_false] at hl
      rcases hl with h | h <;> subst h <;> simp at hid ⊢),
   by rfl, by rfl⟩

/-! ## Streak ledger: invariant and absent reminders -/

/-- C27. For a reminder that exists and either value of `completed`: when the row of the
pair reads 0 ≤ current ≤ longest, the row after `updateStreak` reads 0 ≤ current ≤ longest
again; and when the pair has no row, the row `updateStreak` creates does too. -/
theorem longest_bounds_current (db : Db) (t reminderId userId : Int) (completed : Bool)
    (hreminder : (getReminder db reminderId).isSome) :
    (∀ streak, getStreak db userId reminderId = some streak →
      0 ≤ streak.current → streak.current ≤ streak.longest →
      ∃ after, getStreak (updateStreak db t reminderId userId completed) userId reminderId =
          some after ∧
        0 ≤ after.current ∧ after.current ≤ after.longest) ∧
    (getStreak db userId reminderId = none →
      ∃ after, getStreak (updateStreak db t reminderId userId completed) userId reminderId =
          some after ∧
        0 ≤ after.current ∧ after.current ≤ after.longest) := by
  refine ⟨?_, ?_⟩
  · intro streak hstreak h0 hle
    cases completed with
    | true =>
      refine ⟨_, getStreak_after_completion db t reminderId userId streak hreminder hstreak,
        ?_, ?_⟩
      · simp only [StreakRow.current, Option.getD_some] at h0 ⊢
        omega
      · simp only [StreakRow.current, StreakRow.longest, Option.getD_some]
        exact le_max_right _ _
    | false =>
      refine ⟨_, getStreak_after_miss db t reminderId userId streak hreminder hstreak,
        ?_, ?_⟩
      · simp [StreakRow.current]
      · have hl : streak.current ≤ streak.longest := hle
        have : (0 : Int) ≤ streak.longest := le_trans h0 hl
        simpa [StreakRow.current, StreakRow.longest] using this
  · intro hnone
    have hrows := updateStreak_of_no_row db t reminderId userId completed hreminder hnone
    refine ⟨{ id := nextId db.streak_seq (db.user_streaks.map fun s => s.id)
              user_id := userId
              reminder_id := reminderId
              current_streak := some (if completed then 1 else 0)
              longest_streak := some (if completed then 1 else 0)
              last_completed := if completed then some (currentTimestamp t) else none
              last_updated := some (currentTimestamp t) }, ?_, ?_, ?_⟩
    · unfold getStreak at hnone ⊢
      rw [hrows, List.find?_append, hnone]
      simp [List.find?]
    · cases completed <;> simp [StreakRow.current]
    · cases completed <;> simp [StreakRow.current, StreakRow.longest]

/-- C27, worked: the row (current 4, longest 6) of `sampleDb` satisfies the bounds, and so
do the rows a completion and a miss leave; so does the row created for the owner 8. -/
theorem longest_bounds_current_witness :
    (∃ after, getStreak (updateStreak sampleDb 1793511000123 3 7 true) 7 3 = some after ∧
      0 ≤ after.current ∧ after.current ≤ after.longest) ∧
    (∃ after, getStreak (updateStreak sampleDb 1793511000123 3 7 false) 7 3 = some after ∧
      0 ≤ after.current ∧ after.current ≤ after.longest) ∧
    (∃ after, getStreak (updateStreak sampleDb 1793511000123 3 8 true) 8 3 = some after ∧
      0 ≤ after.current ∧ after.current ≤ after.longest) :=
  ⟨(longest_bounds_current sampleDb 1793511000123 3 7 true rfl).1 _ rfl (by decide)
      (by decide),
   (longest_bounds_current sampleDb 1793511000123 3 7 false rfl).1 _ rfl (by decide)
      (by decide),
   (longest_bounds_current sampleDb 1793511000123 3 8 true rfl).2 rfl⟩

/-- C28. For a reminder id that no row of `reminders` carries, every owner id and either
value of `completed`, `updateStreak` leaves the database as it was: no streak row is
created and none is changed. The promise is fulfilled whatever the store does: with a
store that fails at any of its statements the database is left as it was as well. -/
theorem absent_reminder_noop (db : Db) (t reminderId userId : Int) (completed : Bool)
    (habsent : ∀ r ∈ db.reminders, r.id ≠ reminderId) :
    updateStreak db t reminderId userId completed = db ∧
    ∀ o, updateStreakWith o db t reminderId userId completed = db := by
  have hnone : getReminder db reminderId = none := by
    unfold getReminder
    rw [List.find?_eq_none]
    intro r hr
    simpa using habsent r hr
  refine ⟨?_, ?_⟩
  · unfold updateStreak
    rw [hnone]
  · intro o
    unfold updateStreakWith
    rw [hnone]
    cases o.reminderOk <;> rfl

/-- C28, worked: `sampleDb` has no reminder 4; `updateStreak` for it changes nothing. -/
theorem absent_reminder_noop_witness :
    updateStreak sampleDb 1793511000123 4 7 true = sampleDb ∧
    updateStreak sampleDb 1793511000123 4 7 false = sampleDb :=
  ⟨(absent_reminder_noop sampleDb 1793511000123 4 7 true (by
      intro r hr
      simp only [sampleDb, List.mem_singleton] at hr
      subst hr
      decide)).1,
   (absent_reminder_noop sampleDb 1793511000123 4 7 false (by
      intro r hr
      simp only [sampleDb, List.mem_singleton] at hr
      subst hr
      decide)).1⟩

/-! ## The date guard after a lost update -/

/-- C26, refuted as stated: both reminders of `twoDueDb` are due at 09:00 New York time.
The first is dispatched at 09:00:00.500 and the update of `last_triggered` fails; the
`catch` block writes the log row. Thirty seconds later, in the same due minute of the same
date, the row read back is still due. -/
theorem lost_update_fires_again :
    (triggerReminder twoDueDb 1793628000500 { allSucceed with updateOk := false }
      (joinRow
        { id := 1, user_id := 7, title := "Stretch", description := none,
          reminder_time := some "09:00", recurrence_type := "daily", weekly_days := none,
          is_active := some 1, last_triggered := none }
        { id := 7, name := "Owner", email := "owner@example.org",
          timezone := some "America/New_York" })).db.reminder_logs =
      [{ id := 1, reminder_id := 1, user_id := 7, triggered_at := some 1793628000,
         status := some "failed" }] ∧
    localHour newYork2026 1793628030000 = 9 ∧ localMinute newYork2026 1793628030000 = 0 ∧
    localDate newYork2026 1793628030000 = localDate newYork2026 1793628000500 ∧
    ((activeReminders (triggerReminder twoDueDb 1793628000500
      { allSucceed with updateOk := false }
      (joinRow
        { id := 1, user_id := 7, title := "Stretch", description := none,
          reminder_time := some "09:00", recurrence_type := "daily", weekly_days := none,
          is_active := some 1, last_triggered := none }
        { id := 7, name := "Owner", email := "owner@example.org",
          timezone := some "America/New_York" })).db).map fun r =>
        (r.id, r.last_triggered, isDue sampleRuntime r 1793628030000)) =
      [(1, none, true), (2, none, true)] := by
  refine ⟨by rfl, by decide, by decide, by decide, by rfl⟩

/-- C26, amended. When a dispatch does not reach or fails the update of `last_triggered`
(the delivery fails, or the update fails), the table of reminders is left as it was even
though the `catch` block writes a `'failed'` log row; `shouldTriggerReminder` reads the
reminder row alone, so for the rows read back it answers at every instant what it
answered before the dispatch. -/
theorem lost_update_keeps_answers (db : Db) (t : Int) (o : DispatchOutcome)
    (reminder : Reminder) (hlost : o.emailOk = false ∨ o.updateOk = false) :
    activeReminders (triggerReminder db t o reminder).db = activeReminders db ∧
    (o.insertFailedOk = true →
      ∃ row, (triggerReminder db t o reminder).db.reminder_logs = db.reminder_logs ++ [row] ∧
        row.reminder_id = reminder.id ∧ row.status = some "failed") ∧
    (∀ rt now, (activeReminders (triggerReminder db t o reminder).db).map
        (fun r => shouldTriggerReminder rt r now) =
      (activeReminders db).map fun r => shouldTriggerReminder rt r now) := by
  have hdb : (triggerReminder db t o reminder).db.reminders = db.reminders ∧
      (triggerReminder db t o reminder).db.users = db.users ∧
      (o.insertFailedOk = true →
        ∃ row, (triggerReminder db t o reminder).db.reminder_logs =
            db.reminder_logs ++ [row] ∧
          row.reminder_id = reminder.id ∧ row.status = some "failed") := by
    unfold triggerReminder triggerReminderCatch
    rcases hlost with h | h
    · cases hf : o.insertFailedOk
      · simp [h]
      · simp only [h, Bool.not_false, if_true]
        exact ⟨rfl, rfl, fun _ => ⟨_, rfl, rfl, rfl⟩⟩
    · cases he : o.emailOk <;> cases hf : o.insertFailedOk
      · simp [h]
      · simp only [h, Bool.not_false, if_true]
        exact ⟨rfl, rfl, fun _ => ⟨_, rfl, rfl, rfl⟩⟩
      · simp [h]
      · simp only [h, Bool.not_false, Bool.not_true, Bool.false_eq_true, if_true, if_false]
        exact ⟨rfl, rfl, fun _ => ⟨_, rfl, rfl, rfl⟩⟩
  have hact : activeReminders (triggerReminder db t o reminder).db = activeReminders db := by
    unfold activeReminders
    rw [hdb.1, hdb.2.1]
  exact ⟨hact, hdb.2.2, fun rt now => by rw [hact]⟩

/-- C26 amended, worked: after the dispatch of the first reminder of `twoDueDb` with a
failing update, the scan reads the rows it read before. -/
theorem lost_update_keeps_answers_witness :
    activeReminders (triggerReminder twoDueDb 1793628000500
      { allSucceed with updateOk := false }
      (joinRow
        { id := 1, user_id := 7, title := "Stretch", description := none,
          reminder_time := some "09:00", recurrence_type := "daily", weekly_days := none,
          is_active := some 1, last_triggered := none }
        { id := 7, name := "Owner", email := "owner@example.org",
          timezone := some "America/New_York" })).db = activeReminders twoDueDb :=
  (lost_update_keeps_answers twoDueDb 1793628000500 { allSucceed with updateOk := false }
    _ (Or.inr rfl)).1

/-! ## Minute callback -/

/-- With a store that works, `updateStreakWith` is `updateStreak`. -/
theorem updateStreakWith_ok (db : Db) (t reminderId userId : Int) (completed : Bool) :
    updateStreakWith streakOk db t reminderId userId completed =
      updateStreak db t reminderId userId completed := by
  unfold updateStreakWith updateStreak
  simp only [streakOk, Bool.not_true, Bool.false_eq_true, if_false, if_true]

/-- With collaborators that work, `markAsMissedWith` is `markAsMissed`. -/
theorem markAsMissedWith_ok (w : World) (t : Int) (log : MissedLog) :
    markAsMissedWith missOk w t log = markAsMissed w t log := by
  unfold markAsMissedWith markAsMissed
  simp only [missOk, Bool.not_true, Bool.false_eq_true, if_false, updateStreakWith_ok]

theorem missLoop_ok (t : Int) (logs : List MissedLog) (k : Nat) (w : World) :
    missLoop t (fun _ => missOk) w (logs.enumFrom k) =
      logs.foldl (fun w log => markAsMissed w t log) w := by
  induction logs generalizing k w with
  | nil => rfl
  | cons log rest ih =>
    simp only [List.enumFrom_cons, missLoop, List.foldl_cons, markAsMissedWith_ok]
    exact ih (k + 1) (markAsMissed w t log)

/-- With collaborators that work, `checkMissedRemindersWith` is `checkMissedReminders`. -/
theorem checkMissedRemindersWith_ok (w : World) (now : Int) :
    (checkMissedRemindersWith w now true fun _ => missOk).world =
      checkMissedReminders w now := by
  unfold checkMissedRemindersWith checkMissedReminders
  simp only [if_true, List.enum]
  exact missLoop_ok now _ 0 w

/-- C22. Whatever the store and the delivery do during the tick (whether the scan query
succeeds, what happens in each dispatch, whether the query of the miss phase succeeds,
what happens in each `markAsMissed`): the promise of the minute callback is fulfilled,
both phases are fulfilled, and the world the callback leaves is the one
`checkMissedReminders` leaves when run on what `checkAndTriggerReminders` left, so the miss
phase runs after the trigger phase also when that phase met an error. -/
theorem minute_tick_never_fails (rt : Runtime) (w : World) (now t missNow : Int)
    (scanOk : Bool) (plan : Nat → DispatchOutcome) (missQueryOk : Bool)
    (missPlan : Nat → MissOutcome) :
    (minuteTick rt w now t missNow scanOk plan missQueryOk missPlan).fulfilled = true ∧
    (checkAndTriggerReminders rt w.db now t scanOk plan).fulfilled = true ∧
    (checkMissedRemindersWith
      { w with db := (checkAndTriggerReminders rt w.db now t scanOk plan).db }
      missNow missQueryOk missPlan).fulfilled = true ∧
    (minuteTick rt w now t missNow scanOk plan missQueryOk missPlan).world =
      (checkMissedRemindersWith
        { w with db := (checkAndTriggerReminders rt w.db now t scanOk plan).db }
        missNow missQueryOk missPlan).world := by
  have h1 : (checkAndTriggerReminders rt w.db now t scanOk plan).fulfilled = true := by
    unfold checkAndTriggerReminders
    cases scanOk <;> rfl
  have h2 : ∀ v, (checkMissedRemindersWith v missNow missQueryOk missPlan).fulfilled = true := by
    intro v
    unfold checkMissedRemindersWith
    cases missQueryOk <;> rfl
  refine ⟨?_, h1, h2 _, ?_⟩
  · unfold minuteTick
    simp only [h1, h2, if_true]
  · unfold minuteTick
    simp only [h1, h2, if_true]

/-! ## Weekly report -/

theorem statsTotal_pos_iff (rows : List CompletionRow) : statsTotal rows > 0 ↔ rows ≠ [] := by
  unfold statsTotal
  cases rows with
  | nil => simp
  | cons a as =>
    simp only [List.length_cons, ne_eq, reduceCtorEq, not_false_eq_true, iff_true]
    omega

/-- A call for a user of whom the query counts nothing. -/
theorem generate_of_empty (db : Db) (store : ReportStore) (now : Int) (user : UserRow)
    (hrows : statsRows db user.id (weekStartOf now) = []) :
    generateAndSendWeeklyReport db store now user = store := by
  have hno : ¬ statsTotal (statsRows db user.id (weekStartOf now)) > 0 := by
    rw [statsTotal_pos_iff]; exact fun h => h hrows
  unfold generateAndSendWeeklyReport
  simp only [hno, if_false]

/-- A call for a user of whom the query counts a row. -/
theorem generate_of_rows (db : Db) (store : ReportStore) (now : Int) (user : UserRow)
    (hrows : statsRows db user.id (weekStartOf now) ≠ []) :
    generateAndSendWeeklyReport db store now user =
      { weekly_reports := store.weekly_reports ++
          [{ id := nextId store.report_seq (store.weekly_reports.map fun r => r.id)
             user_id := user.id
             week_start := weekStartOf now
             week_end := now
             total_reminders := statsTotal (statsRows db user.id (weekStartOf now))
             completed_count := statsCompleted (statsRows db user.id (weekStartOf now))
             missed_count := statsMissed (statsRows db user.id (weekStartOf now)) }]
        report_seq := nextId store.report_seq (store.weekly_reports.map fun r => r.id)
        weeklyMails := store.weeklyMails ++
          [{ email := user.email
             total := statsTotal (statsRows db user.id (weekStartOf now))
             completed := statsCompleted (statsRows db user.id (weekStartOf now))
             missed := statsMissed (statsRows db user.id (weekStartOf now)) }] } := by
  have hpos : statsTotal (statsRows db user.id (weekStartOf now)) > 0 :=
    (statsTotal_pos_iff _).mpr hrows
  unfold generateAndSendWeeklyReport
  simp only [hpos, if_true]

/-- The number of report rows of each user after one call for `user`. -/
theorem reportCount_generate (db : Db) (store : ReportStore) (now : Int) (user : UserRow)
    (i : Int) :
    reportCount (generateAndSendWeeklyReport db store now user) i =
      reportCount store i +
        (if user.id = i ∧ statsRows db user.id (weekStartOf now) ≠ [] then 1 else 0) := by
  by_cases hrows : statsRows db user.id (weekStartOf now) = []
  · rw [generate_of_empty db store now user hrows, if_neg fun h => h.2 hrows]
    rfl
  · rw [generate_of_rows db store now user hrows]
    unfold reportCount
    by_cases hid : user.id = i
    · rw [if_pos ⟨hid, hrows⟩]
      simp [List.filter_append, hid]
    · rw [if_neg fun h => hid h.1]
      simp [List.filter_append, hid]

/-- The number of report rows of each user after the calls for a list of users. -/
theorem reportCount_users (db : Db) (now : Int) (i : Int) (users : List UserRow)
    (store : ReportStore) :
    reportCount (users.foldl (fun st user => generateAndSendWeeklyReport db st now user)
        store) i =
      reportCount store i +
        (users.filter fun u =>
          decide (u.id = i ∧ statsRows db u.id (weekStartOf now) ≠ [])).length := by
  induction users generalizing store with
  | nil => simp
  | cons u rest ih =>
    simp only [List.foldl_cons]
    rw [ih, reportCount_generate]
    by_cases h : u.id = i ∧ statsRows db u.id (weekStartOf now) ≠ []
    · rw [if_pos h, List.filter_cons, if_pos (decide_eq_true h), List.length_cons]
      omega
    · rw [if_neg h, List.filter_cons, if_neg (by simpa using h)]
      omega

/-- Among users with distinct ids at most one carries a given id. -/
theorem users_with_id_le_one (i : Int) (users : List UserRow)
    (hkey : users.Pairwise fun a b => a.id ≠ b.id) (p : UserRow → Bool) :
    (users.filter fun u => decide (u.id = i) && p u).length ≤ 1 := by
  induction users with
  | nil => simp
  | cons u rest ih =>
    rw [List.pairwise_cons] at hkey
    by_cases hid : u.id = i
    · have hrest : (rest.filter fun v => decide (v.id = i) && p v) = [] := by
        rw [List.filter_eq_nil_iff]
        intro v hv
        have := hkey.1 v hv
        simp only [Bool.and_eq_true, decide_eq_true_eq, not_and]
        intro h
        exact absurd (hid.trans h.symm) this
      rw [List.filter_cons]
      split
      · simp [hrest]
      · simp [hrest]
    · rw [List.filter_cons]
      simp only [hid, decide_False, Bool.false_and, Bool.false_eq_true, if_false]
      exact ih hkey.2

/-- The test `total > 0` of the weekly report: `generateAndSendWeeklyReport` inserts a
report row and calls `sendWeeklyReport` exactly when the query of the aggregation counts at
least one completion of the user; with no such row the store of reports is left as it was
and nothing is sent. One call writes at most one row, and in a weekly tick over users with
distinct ids each user gets one row when the query counts a completion of theirs and none
otherwise. -/
theorem weekly_report_iff (db : Db) (store : ReportStore) (now : Int) (user : UserRow) :
    (statsRows db user.id (weekStartOf now) ≠ [] →
      ∃ row mail,
        (generateAndSendWeeklyReport db store now user).weekly_reports =
          store.weekly_reports ++ [row] ∧
        row.user_id = user.id ∧
        row.total_reminders = ((statsRows db user.id (weekStartOf now)).length : Int) ∧
        (generateAndSendWeeklyReport db store now user).weeklyMails =
          store.weeklyMails ++ [mail] ∧
        mail.email = user.email) ∧
    (statsRows db user.id (weekStartOf now) = [] →
      generateAndSendWeeklyReport db store now user = store) ∧
    (db.users.Pairwise (fun a b => a.id ≠ b.id) → ∀ i,
      reportCount (sendWeeklyPerformanceReports db store now) i ≤ reportCount store i + 1 ∧
      (statsRows db i (weekStartOf now) = [] →
        reportCount (sendWeeklyPerformanceReports db store now) i = reportCount store i) ∧
      ((∃ u ∈ db.users, u.id = i) → statsRows db i (weekStartOf now) ≠ [] →
        reportCount (sendWeeklyPerformanceReports db store now) i =
          reportCount store i + 1)) := by
  refine ⟨?_, generate_of_empty db store now user, ?_⟩
  · intro hrows
    rw [generate_of_rows db store now user hrows]
    exact ⟨_, _, rfl, rfl, rfl, rfl, rfl⟩
  · intro hkey i
    unfold sendWeeklyPerformanceReports
    rw [reportCount_users]
    have hfilter : (db.users.filter fun u =>
        decide (u.id = i ∧ statsRows db u.id (weekStartOf now) ≠ [])) =
        db.users.filter fun u =>
          decide (u.id = i) && decide (statsRows db i (weekStartOf now) ≠ []) := by
      apply List.filter_congr
      intro u _
      by_cases hid : u.id = i
      · subst hid; simp
      · simp [hid]
    rw [hfilter]
    have hle := users_with_id_le_one i db.users hkey
      fun _ => decide (statsRows db i (weekStartOf now) ≠ [])
    refine ⟨by omega, ?_, ?_⟩
    · intro hrows
      simp [hrows]
    · intro ⟨u, hu, hid⟩ hrows
      have hmem : u ∈ db.users.filter fun u =>
          decide (u.id = i) && decide (statsRows db i (weekStartOf now) ≠ []) := by
        rw [List.mem_filter]
        exact ⟨hu, by simp [hid, hrows]⟩
      have hpos := List.length_pos_of_mem hmem
      omega

/-- The test `total > 0` of the weekly report, worked: on Monday 2 November 2026 at 09:00
UTC the query counts one completion of the owner 7 in `secondDayDb`, and the tick writes one
report row (total 1, completed 0, missed 1) and sends one mail; in `firstDayDb` it counts
none and writes nothing. -/
theorem weekly_report_iff_witness :
    (∃ row mail,
      (generateAndSendWeeklyReport secondDayDb emptyReports 1793610000000
        { id := 7, name := "Owner", email := "owner@example.org",
          timezone := some "America/New_York" }).weekly_reports =
        emptyReports.weekly_reports ++ [row] ∧
      row.user_id = 7 ∧
      row.total_reminders =
        ((statsRows secondDayDb 7 (weekStartOf 1793610000000)).length : Int) ∧
      (generateAndSendWeeklyReport secondDayDb emptyReports 1793610000000
        { id := 7, name := "Owner", email := "owner@example.org",
          timezone := some "America/New_York" }).weeklyMails =
        emptyReports.weeklyMails ++ [mail] ∧
      mail.email = "owner@example.org") ∧
    (sendWeeklyPerformanceReports secondDayDb emptyReports 1793610000000).weekly_reports =
      [{ id := 1, user_id := 7, week_start := 1793005200000, week_end := 1793610000000,
         total_reminders := 1, completed_count := 0, missed_count := 1 }] ∧
    (sendWeeklyPerformanceReports firstDayDb emptyReports 1793610000000).weekly_reports = [] :=
  ⟨(weekly_report_iff secondDayDb emptyReports 1793610000000
      { id := 7, name := "Owner", email := "owner@example.org",
        timezone := some "America/New_York" }).1 (by
        have h : statsRows secondDayDb 7 (weekStartOf 1793610000000) =
            [{ id := 2, reminder_id := 2, user_id := 7, log_id := some 2,
               completed_at := some 1793090000, scheduled_time := some 1793088000,
               status := some "missed" }] := by rfl
        show statsRows secondDayDb 7 (weekStartOf 1793610000000) ≠ []
        rw [h]
        exact List.cons_ne_nil _ _),
   by rfl, by rfl⟩

/-- C23, the code at the failing input: the weekly tick runs on Monday 2 November 2026 at
09:00:00 UTC. The owner 7 of `mondayOnlyDb` has two completions in the seven days before
that instant, one completed and one missed, both with `scheduled_time`
`2026-10-26 13:00:00`. The query of the aggregation counts neither, the test `total > 0`
fails, and `generateAndSendWeeklyReport` persists no report row and does not call
`sendWeeklyReport`, for a user who has rows in the window. -/
theorem window_rows_without_report :
    ((windowRows mondayOnlyDb 7 1793610000000).map fun c =>
      (c.id, c.scheduled_time, c.status)) =
      [(1, some 1793019600, some "completed"), (2, some 1793019600, some "missed")] ∧
    String.mk (sqliteDatetime 1793019600) = "2026-10-26 13:00:00" ∧
    String.mk (toISOString (weekStartOf 1793610000000)) = "2026-10-26T09:00:00.000Z" ∧
    sampleOwner ∈ mondayOnlyDb.users ∧
    statsTotal (statsRows mondayOnlyDb sampleOwner.id (weekStartOf 1793610000000)) = 0 ∧
    (generateAndSendWeeklyReport mondayOnlyDb emptyReports 1793610000000
      sampleOwner).weekly_reports = [] ∧
    (generateAndSendWeeklyReport mondayOnlyDb emptyReports 1793610000000
      sampleOwner).weeklyMails = [] ∧
    (sendWeeklyPerformanceReports mondayOnlyDb emptyReports 1793610000000).weekly_reports = [] ∧
    (sendWeeklyPerformanceReports mondayOnlyDb emptyReports 1793610000000).weeklyMails = [] := by
  refine ⟨by rfl, by rfl, by rfl, ?_, by rfl, by rfl, by rfl, by rfl, by rfl⟩
  simp [mondayOnlyDb, twoDueDb, sampleOwner]

/-- C24, the code at the failing input: the weekly tick runs on Monday 2 November 2026 at
09:00:00 UTC, so the window starts on Monday 26 October at 09:00:00 UTC. The completion
of `firstDayDb` has `scheduled_time` `2026-10-26 13:00:00`, four hours inside the window.
The query compares that text with `2026-10-26T09:00:00.000Z`; the two agree up to the date
and the blank sorts before `T`, so the row is not counted: total, completed and missed are
0 and no report is written. A row of the next day is counted. -/
theorem first_day_left_out :
    String.mk (toISOString (weekStartOf 1793610000000)) = "2026-10-26T09:00:00.000Z" ∧
    String.mk (sqliteDatetime 1793019600) = "2026-10-26 13:00:00" ∧
    (weekStartOf 1793610000000 ≤ 1793019600 * 1000 ∧ 1793019600 * 1000 ≤ 1793610000000) ∧
    (firstDayDb.reminder_completions.map fun c => (c.user_id, c.scheduled_time, c.status)) =
      [(7, some 1793019600, some "completed")] ∧
    scheduledTimeGe (some 1793019600) (toISOString (weekStartOf 1793610000000)) = false ∧
    statsTotal (statsRows firstDayDb 7 (weekStartOf 1793610000000)) = 0 ∧
    statsCompleted (statsRows firstDayDb 7 (weekStartOf 1793610000000)) = 0 ∧
    statsMissed (statsRows firstDayDb 7 (weekStartOf 1793610000000)) = 0 ∧
    (sendWeeklyPerformanceReports firstDayDb emptyReports 1793610000000).weekly_reports = [] ∧
    ((statsRows secondDayDb 7 (weekStartOf 1793610000000)).map fun c =>
      (c.id, c.scheduled_time)) = [(2, some 1793088000)] := by
  refine ⟨by rfl, by rfl, by decide, by rfl, by rfl, by rfl, by rfl, by rfl, by rfl, by rfl⟩

/-! ## Reminder store: the weekday set of weekly reminders -/

/-- C25, the code at the failing inputs. `POST /` with recurrence `'weekly'` and the text
`[]` as `weekly_days` is answered 201 and stores a weekly reminder whose weekday set is
empty, the handler testing only that the field is truthy. `PUT /:id` with the body
`{ recurrence_type: 'weekly' }` on a daily reminder without `weekly_days` is answered 200
and leaves a weekly reminder without a weekday set, and `PUT /:id` with
`{ weekly_days: null }` on a weekly reminder is answered 200 and removes its set: the
handler of `PUT` has no test of the weekday set. Only `POST /` without the field is
rejected. -/
theorem weekly_without_days_accepted :
    (createReminder twoDueDb 7
      { title := .text "Gym", description := .absent, reminder_time := .text "18:30",
        recurrence_type := .text "weekly", weekly_days := .text "[]",
        is_active := none }).2 = 201 ∧
    ((createReminder twoDueDb 7
      { title := .text "Gym", description := .absent, reminder_time := .text "18:30",
        recurrence_type := .text "weekly", weekly_days := .text "[]",
        is_active := none }).1.reminders.map fun r =>
          (r.id, r.recurrence_type, r.weekly_days)) =
      [(1, "daily", none), (2, "daily", none), (3, "weekly", some "[]")] ∧
    sampleJsonParse "[]" = some (.arr []) ∧
    (updateReminder twoDueDb 1 7
      { title := .absent, description := .absent, reminder_time := .absent,
        recurrence_type := .text "weekly", weekly_days := .absent,
        is_active := none }).2 = 200 ∧
    ((updateReminder twoDueDb 1 7
      { title := .absent, description := .absent, reminder_time := .absent,
        recurrence_type := .text "weekly", weekly_days := .absent,
        is_active := none }).1.reminders.map fun r =>
          (r.id, r.recurrence_type, r.weekly_days)) =
      [(1, "weekly", none), (2, "daily", none)] ∧
    ((updateReminder (createReminder twoDueDb 7
      { title := .text "Gym", description := .absent, reminder_time := .text "18:30",
        recurrence_type := .text "weekly", weekly_days := .text "[1,3,5]",
        is_active := none }).1 3 7
      { title := .absent, description := .absent, reminder_time := .absent,
        recurrence_type := .absent, weekly_days := .null,
        is_active := none }).1.reminders.map fun r =>
          (r.id, r.recurrence_type, r.weekly_days)) =
      [(1, "daily", none), (2, "daily", none), (3, "weekly", none)] ∧
    (updateReminder (createReminder twoDueDb 7
      { title := .text "Gym", description := .absent, reminder_time := .text "18:30",
        recurrence_type := .text "weekly", weekly_days := .text "[1,3,5]",
        is_active := none }).1 3 7
      { title := .absent, description := .absent, reminder_time := .absent,
        recurrence_type := .absent, weekly_days := .null,
        is_active := none }).2 = 200 ∧
    (createReminder twoDueDb 7
      { title := .text "Gym", description := .absent, reminder_time := .text "18:30",
        recurrence_type := .text "weekly", weekly_days := .absent,
        is_active := none }).2 = 400 := by
  refine ⟨by rfl, by rfl, by rfl, by rfl, by rfl, by rfl, by rfl, by rfl⟩

/-! ## Rate limiter -/

theorem passedOn_cons (a : Bool) (answers : List Bool) :
    passedOn (a :: answers) = (if a then 1 else 0) + passedOn answers := by
  unfold passedOn
  cases a
  · simp [List.filter_cons]
  · simp [List.filter_cons]
    omega

theorem set_self (m : RequestCounts) (key : Option String) (value : ClientData) :
    m.set key value key = some value := by
  unfold RequestCounts.set
  simp

/-- The requests of a client inside a window that is open with count `k`: they are passed
on until the count is `MAX_REQUESTS`, and the window stays as it is. -/
theorem serve_in_window (clientId : Option String) (resetTime : Int) (ts : List Int)
    (hts : ∀ t ∈ ts, t ≤ resetTime) (m : RequestCounts) (k : Nat)
    (hk : k ≤ MAX_REQUESTS)
    (hentry : m clientId = some { count := k, resetTime := resetTime }) :
    passedOn (serve m clientId ts).2 = min ts.length (MAX_REQUESTS - k) ∧
    (serve m clientId ts).1 clientId =
      some { count := min (k + ts.length) MAX_REQUESTS, resetTime := resetTime } := by
  induction ts generalizing m k with
  | nil =>
    simp only [serve, List.length_nil, Nat.zero_min, Nat.add_zero, passedOn, List.filter_nil]
    exact ⟨trivial, by rw [hentry, Nat.min_eq_left hk]⟩
  | cons t rest ih =>
    have ht : ¬ t > resetTime := by
      have := hts t (List.mem_cons_self _ _)
      omega
    have hrest : ∀ u ∈ rest, u ≤ resetTime := fun u hu => hts u (List.mem_cons_of_mem _ hu)
    by_cases hfull : k ≥ MAX_REQUESTS
    · have hstep : rateLimiter m clientId t = (m, false) := by
        unfold rateLimiter
        rw [hentry]
        simp only [ht, if_false, hfull, if_true]
      obtain ⟨h1, h2⟩ := ih hrest m k hk hentry
      have a1 : (0 : Nat) + min rest.length (MAX_REQUESTS - k) =
          min (rest.length + 1) (MAX_REQUESTS - k) := by
        unfold MAX_REQUESTS at hfull hk ⊢
        omega
      have a2 : min (k + rest.length) MAX_REQUESTS = min (k + (rest.length + 1)) MAX_REQUESTS := by
        unfold MAX_REQUESTS at hfull hk ⊢
        omega
      simp only [serve, hstep, passedOn_cons, h1, h2, List.length_cons, Bool.false_eq_true,
        if_false]
      exact ⟨a1, by rw [a2]⟩
    · have hstep : rateLimiter m clientId t =
          (m.set clientId { count := k + 1, resetTime := resetTime }, true) := by
        unfold rateLimiter
        rw [hentry]
        simp only [ht, if_false, hfull]
      have hk2 : k + 1 ≤ MAX_REQUESTS := by omega
      obtain ⟨h1, h2⟩ := ih hrest (m.set clientId { count := k + 1, resetTime := resetTime })
        (k + 1) hk2 (set_self _ _ _)
      have a1 : (1 : Nat) + min rest.length (MAX_REQUESTS - (k + 1)) =
          min (rest.length + 1) (MAX_REQUESTS - k) := by
        unfold MAX_REQUESTS at hfull hk ⊢
        omega
      have a2 : min (k + 1 + rest.length) MAX_REQUESTS =
          min (k + (rest.length + 1)) MAX_REQUESTS := by
        unfold MAX_REQUESTS at hfull hk ⊢
        omega
      simp only [serve, hstep, passedOn_cons, h1, h2, List.length_cons, if_true]
      exact ⟨a1, by rw [a2]⟩

/-- A request that opens a window: the client has no entry, or its window is over. -/
theorem rateLimiter_opens (m : RequestCounts) (clientId : Option String) (now : Int)
    (hopen : ∀ d, m clientId = some d → now > d.resetTime) :
    rateLimiter m clientId now =
      (m.set clientId { count := 1, resetTime := now + WINDOW_MS }, true) := by
  unfold rateLimiter
  cases hentry : m clientId with
  | none => rfl
  | some d => simp only [hopen d hentry, if_true]

/-- The sweep at an instant not after the request changes neither the answer nor the
entry the request leaves for the client. -/
theorem rateLimiter_after_sweep (m : RequestCounts) (clientId : Option String)
    (sweepTime now : Int) (hle : sweepTime ≤ now) :
    (rateLimiter (sweep m sweepTime) clientId now).2 = (rateLimiter m clientId now).2 ∧
    (rateLimiter (sweep m sweepTime) clientId now).1 clientId =
      (rateLimiter m clientId now).1 clientId := by
  unfold rateLimiter sweep
  cases hentry : m clientId with
  | none => simp [set_self]
  | some d =>
    by_cases hover : sweepTime > d.resetTime
    · have hnow : now > d.resetTime := by omega
      simp [hover, hnow, set_self]
    · simp only [hover, if_false]
      by_cases hnow : now > d.resetTime
      · simp [hnow, set_self]
      · by_cases hfull : d.count ≥ MAX_REQUESTS
        · simp [hnow, hfull, hentry, hover]
        · simp [hnow, hfull, set_self]

/-- C30. For every client: a request at `t0` that opens a window (no entry, or the
window of the entry is over) is passed on with count 1 and `resetTime = t0 + WINDOW_MS`;
of the requests that follow up to `t0 + WINDOW_MS` inclusive, those are passed on that
keep the total of the window at `MAX_REQUESTS` (100) or less, so the window passes
`min (n + 1) 100` of its `n + 1` requests; a request refused with 429 leaves the map as it
is; a request in a full window is refused; the stored count stays between 1 and 100; the
entries of other clients are not touched; and a request after `resetTime` opens a new
window with count 1. -/
theorem rate_limit_window (m : RequestCounts) (clientId : Option String) (t0 : Int)
    (ts : List Int)
    (hopen : ∀ d, m clientId = some d → t0 > d.resetTime)
    (hts : ∀ t ∈ ts, t ≤ t0 + WINDOW_MS) :
    passedOn (serve m clientId (t0 :: ts)).2 = min (ts.length + 1) MAX_REQUESTS ∧
    passedOn (serve m clientId (t0 :: ts)).2 ≤ MAX_REQUESTS ∧
    (serve m clientId (t0 :: ts)).1 clientId =
      some { count := min (ts.length + 1) MAX_REQUESTS, resetTime := t0 + WINDOW_MS } ∧
    (∀ (m2 : RequestCounts) now, (rateLimiter m2 clientId now).2 = false →
      (rateLimiter m2 clientId now).1 = m2) ∧
    (∀ (m2 : RequestCounts) d now, m2 clientId = some d → now ≤ d.resetTime →
      d.count ≥ MAX_REQUESTS → rateLimiter m2 clientId now = (m2, false)) ∧
    (∀ (m2 : RequestCounts) now,
      (∀ d, m2 clientId = some d → 1 ≤ d.count ∧ d.count ≤ MAX_REQUESTS) →
      ∃ d, (rateLimiter m2 clientId now).1 clientId = some d ∧
        1 ≤ d.count ∧ d.count ≤ MAX_REQUESTS) ∧
    (∀ (m2 : RequestCounts) now other, other ≠ clientId →
      (rateLimiter m2 clientId now).1 other = m2 other) ∧
    (∀ (m2 : RequestCounts) d now, m2 clientId = some d → now > d.resetTime →
      rateLimiter m2 clientId now =
        (m2.set clientId { count := 1, resetTime := now + WINDOW_MS }, true)) := by
  have hstep := rateLimiter_opens m clientId t0 hopen
  obtain ⟨h1, h2⟩ := serve_in_window clientId (t0 + WINDOW_MS) ts hts
    (m.set clientId { count := 1, resetTime := t0 + WINDOW_MS }) 1
    (by unfold MAX_REQUESTS; omega) (set_self _ _ _)
  have hpassed : passedOn (serve m clientId (t0 :: ts)).2 =
      min (ts.length + 1) MAX_REQUESTS := by
    simp only [serve, hstep, passedOn_cons, h1, if_true]
    unfold MAX_REQUESTS
    omega
  refine ⟨hpassed, ?_, ?_, ?_, ?_, ?_, ?_, ?_⟩
  · rw [hpassed]
    exact Nat.min_le_right _ _
  · simp only [serve, hstep, h2]
    congr 2
    omega
  · intro m2 now hrefused
    unfold rateLimiter at hrefused ⊢
    cases hentry : m2 clientId with
    | none => rw [hentry] at hrefused; simp at hrefused
    | some d =>
      rw [hentry] at hrefused
      simp only at hrefused ⊢
      by_cases hnow : now > d.resetTime
      · simp [hnow] at hrefused
      · by_cases hfull : d.count ≥ MAX_REQUESTS
        · simp [hnow, hfull]
        · simp [hnow, hfull] at hrefused
  · intro m2 d now hentry hnow hfull
    unfold rateLimiter
    rw [hentry]
    have : ¬ now > d.resetTime := by omega
    simp only [this, if_false, hfull, if_true]
  · intro m2 now hinv
    unfold rateLimiter
    cases hentry : m2 clientId with
    | none => exact ⟨_, set_self _ _ _, by simp, by unfold MAX_REQUESTS; simp⟩
    | some d =>
      simp only
      by_cases hnow : now > d.resetTime
      · simp only [hnow, if_true]
        exact ⟨_, set_self _ _ _, by simp, by unfold MAX_REQUESTS; simp⟩
      · by_cases hfull : d.count ≥ MAX_REQUESTS
        · simp only [hnow, if_false, hfull, if_true]
          exact ⟨d, hentry, hinv d hentry⟩
        · simp only [hnow, if_false, hfull]
          exact ⟨_, set_self _ _ _, by simp, by simp only; omega⟩
  · intro m2 now other hother
    unfold rateLimiter
    cases m2 clientId with
    | none => simp [RequestCounts.set, hother]
    | some d =>
      simp only
      split
      · simp [RequestCounts.set, hother]
      · split
        · rfl
        · simp [RequestCounts.set, hother]
  · intro m2 d now hentry hnow
    unfold rateLimiter
    rw [hentry]
    simp only [hnow, if_true]

/-- C30, worked: a client without an entry sends 150 requests at the instant 1000. The
first opens a window that ends at 61000; 100 of the 150 are passed on and the count is
100. With that entry, a request at 61000, still in the window, is refused, and one at
61001 opens a new window with count 1 and is passed on. -/
theorem rate_limit_window_witness :
    (passedOn (serve noRequests (some "10.0.0.1") (1000 :: List.replicate 149 1000)).2 =
      min ((List.replicate 149 (1000 : Int)).length + 1) MAX_REQUESTS) ∧
    passedOn (serve noRequests (some "10.0.0.1") (1000 :: List.replicate 149 1000)).2 ≤
      MAX_REQUESTS ∧
    (serve noRequests (some "10.0.0.1") (1000 :: List.replicate 149 1000)).1
      (some "10.0.0.1") =
      some { count := min ((List.replicate 149 (1000 : Int)).length + 1) MAX_REQUESTS,
             resetTime := 1000 + WINDOW_MS } ∧
    min ((List.replicate 149 (1000 : Int)).length + 1) MAX_REQUESTS = 100 ∧
    rateLimiter (noRequests.set (some "10.0.0.1") { count := 100, resetTime := 61000 })
      (some "10.0.0.1") 61000 =
      (noRequests.set (some "10.0.0.1") { count := 100, resetTime := 61000 }, false) ∧
    rateLimiter (noRequests.set (some "10.0.0.1") { count := 100, resetTime := 61000 })
      (some "10.0.0.1") 61001 =
      ((noRequests.set (some "10.0.0.1") { count := 100, resetTime := 61000 }).set
        (some "10.0.0.1") { count := 1, resetTime := 61001 + WINDOW_MS }, true) :=
  have h := rate_limit_window noRequests (some "10.0.0.1") 1000 (List.replicate 149 1000)
    (by intro d hd; cases hd)
    (by
      intro t ht
      rw [List.mem_replicate] at ht
      rw [ht.2]
      decide)
  ⟨h.1, h.2.1, h.2.2.1, by simp [MAX_REQUESTS],
   h.2.2.2.2.1 _ { count := 100, resetTime := 61000 } 61000 (set_self _ _ _) (by decide)
     (by decide),
   h.2.2.2.2.2.2.2 _ { count := 100, resetTime := 61000 } 61001 (set_self _ _ _)
     (by decide)⟩

end RemindFlow
